import Mathlib

/-!
Verification of luncliff/graphics, `src/vulkan.cpp`.

A shallow embedding of the free functions and owner types of `src/vulkan.cpp`.

Conventions of the embedding

* `uint32_t` values are natural numbers; where the source's arithmetic can wrap
  the embedding reduces modulo `UINT32_SIZE` explicitly.
* `VkResult` is an integer (`VK_SUCCESS = 0`; the source tests `if (auto ec = ...)`,
  so every non-zero status, positive ones included, takes the failure branch).
* Opaque Vulkan handles are natural numbers, `VK_NULL_HANDLE` being `0`.
* A C array is a `List`; a read past its end is undefined behaviour and the
  embedding answers `none` for it.
* A loop `for (auto i = 0u; i < n; ++i)` is a function recursive on
  `remaining = n - i`, the number of iterations left: the loop condition
  `i < n` holds exactly when `remaining` is a successor.
* The native Vulkan entry points are not part of the repository: what they
  answer is a parameter of each embedded function, and the calls that matter
  for ownership are recorded in a trace.
-/

namespace Vulkan

/-! ## Constants of the Vulkan headers used by the source -/

/-- Number of values of a `uint32_t`. -/
def UINT32_SIZE : Nat := 4294967296

/-- Largest `uint32_t`, also `static_cast<uint32_t>(-1)`. -/
def UINT32_MAX : Nat := 4294967295

abbrev VkResult := Int

def VK_SUCCESS : VkResult := 0
def VK_INCOMPLETE : VkResult := 5
def VK_ERROR_FORMAT_NOT_SUPPORTED : VkResult := -11
def VK_ERROR_UNKNOWN : VkResult := -13

def VK_NULL_HANDLE : Nat := 0
def VK_QUEUE_GRAPHICS_BIT : Nat := 1
def VK_MAX_MEMORY_TYPES : Nat := 32

/-- Conversion of an unsigned value to `uint32_t`. -/
def to_uint32 (n : Nat) : Nat := n % UINT32_SIZE

/-! ## Queue family selection -/

structure VkQueueFamilyProperties where
  queueFlags : Nat
  queueCount : Nat
  timestampValidBits : Nat
  deriving DecidableEq

/-- Body of the `for` loop of `get_graphics_queue_available`, entered with
`i` and `remaining = count - i` iterations left (`i < count` iff `remaining ≠ 0`). -/
def get_graphics_queue_available.loop (properties : List VkQueueFamilyProperties) :
    Nat → Nat → Option Nat
  | 0, _ => some UINT32_MAX
  | remaining + 1, i =>
    match properties[i]? with
    | none => none
    | some p =>
      if p.queueFlags &&& VK_QUEUE_GRAPHICS_BIT ≠ 0 then some i
      else get_graphics_queue_available.loop properties remaining (i + 1)

/-- Embedding of `get_graphics_queue_available(properties, count)` (lines 59-64). -/
def get_graphics_queue_available (properties : List VkQueueFamilyProperties) (count : Nat) :
    Option Nat :=
  get_graphics_queue_available.loop properties count 0

/-- Entry `i` of the array exists and its `queueFlags` contain the graphics bit. -/
def has_graphics_bit (properties : List VkQueueFamilyProperties) (i : Nat) : Prop :=
  ∃ p, properties[i]? = some p ∧ p.queueFlags &&& VK_QUEUE_GRAPHICS_BIT ≠ 0

/-- Embedding of `get_surface_support` loop body (lines 95-102), entered with `i`
and `remaining = count - i`. `support_after i` is the value of the local
`support` after `vkGetPhysicalDeviceSurfaceSupportKHR(device, i, surface, &support)`:
the local is set to `false` before the call and the call's status is discarded. -/
def get_surface_support.loop (support_after : Nat → Nat) (exclude_index : Nat) :
    Nat → Nat → Nat
  | 0, _ => UINT32_MAX
  | remaining + 1, i =>
    if i = exclude_index then
      get_surface_support.loop support_after exclude_index remaining (i + 1)
    else if support_after i ≠ 0 then i
    else get_surface_support.loop support_after exclude_index remaining (i + 1)

/-- Embedding of `get_surface_support(device, surface, count, exclude_index)` (lines 93-104). -/
def get_surface_support (support_after : Nat → Nat) (count exclude_index : Nat) : Nat :=
  get_surface_support.loop support_after exclude_index count 0

/-- Index `i` is a candidate of `get_surface_support`: not excluded and reported as supported. -/
def present_candidate (support_after : Nat → Nat) (exclude_index i : Nat) : Prop :=
  i ≠ exclude_index ∧ support_after i ≠ 0

/-! ## Two-call enumerations of the native layer -/

/-- What the native layer answers to the usual pair of enumeration calls: the
call with a null array stores `count` and returns `count_status`; the call
with the array returns `fill_status` and stores the entries `written` from
index 0, the count becoming their number. -/
structure NativeEnumeration (α : Type) where
  count_status : VkResult
  count : Nat
  fill_status : VkResult
  written : List α

/-- The array `make_unique<T[]>(capacity)` (value-initialised to `zero`) after
the native layer stored `written` in it. -/
def array_after_fill {α : Type} (zero : α) (capacity : Nat) (written : List α) : List α :=
  written.take capacity ++ List.replicate (capacity - written.length) zero

/-- Subtraction on `uint32_t` operands. -/
def uint32_sub (a b : Nat) : Nat := (a + UINT32_SIZE - b) % UINT32_SIZE

/-- Embedding of `get_physical_device(instance, handle)` (lines 46-57): the
status returned and the value left in `handle`, or `none` when the function
reads outside `devices`. -/
def get_physical_device (native : NativeEnumeration Nat) (handle : Nat) :
    Option (VkResult × Nat) :=
  if native.count_status ≠ 0 then some (native.count_status, handle)
  else
    let devices := array_after_fill VK_NULL_HANDLE native.count native.written
    if native.fill_status ≠ 0 then some (native.fill_status, VK_NULL_HANDLE)
    else
      let count := native.written.length
      match devices[uint32_sub count 1]? with
      | none => none
      | some device => some (VK_SUCCESS, device)

/-! ## Surface capability check -/

structure VkSurfaceFormatKHR where
  format : Nat
  colorSpace : Nat
  deriving DecidableEq

/-- First loop of `check_support` (lines 305-311): the final value of `suitable`. -/
def check_support.format_loop (formats : List VkSurfaceFormatKHR)
    (surface_format surface_color_space : Nat) : Nat → Nat → Option Bool
  | 0, _ => some false
  | remaining + 1, i =>
    match formats[i]? with
    | none => none
    | some format =>
      if format.format = surface_format ∧ format.colorSpace = surface_color_space then some true
      else check_support.format_loop formats surface_format surface_color_space remaining (i + 1)

/-- Second loop of `check_support` (lines 321-326): the final value of `suitable`. -/
def check_support.mode_loop (modes : List Nat) (present_mode : Nat) : Nat → Nat → Option Bool
  | 0, _ => some false
  | remaining + 1, i =>
    match modes[i]? with
    | none => none
    | some mode =>
      if mode = present_mode then some true
      else check_support.mode_loop modes present_mode remaining (i + 1)

/-- Embedding of `check_support` (lines 295-328); `none` when an array is read
outside its bounds. -/
def check_support (formats_native : NativeEnumeration VkSurfaceFormatKHR)
    (modes_native : NativeEnumeration Nat)
    (surface_format surface_color_space present_mode : Nat) : Option VkResult :=
  if formats_native.count_status ≠ 0 then some formats_native.count_status
  else
    let formats := array_after_fill ⟨0, 0⟩ formats_native.count formats_native.written
    if formats_native.fill_status ≠ 0 then some formats_native.fill_status
    else
      let num_formats := formats_native.written.length
      match check_support.format_loop formats surface_format surface_color_space num_formats 0 with
      | none => none
      | some suitable =>
        if suitable = false then some VK_ERROR_FORMAT_NOT_SUPPORTED
        else if modes_native.count_status ≠ 0 then some modes_native.count_status
        else
          let modes := array_after_fill 0 modes_native.count modes_native.written
          if modes_native.fill_status ≠ 0 then some modes_native.fill_status
          else
            let num_modes := modes_native.written.length
            match check_support.mode_loop modes present_mode num_modes 0 with
            | none => none
            | some suitable => some (if suitable then VK_SUCCESS else VK_ERROR_UNKNOWN)

/-- Some listed surface format equals the requested (format, colour space) pair. -/
def format_listed (written : List VkSurfaceFormatKHR) (surface_format surface_color_space : Nat) :
    Prop :=
  ∃ f ∈ written, f.format = surface_format ∧ f.colorSpace = surface_color_space

/-! ## Memory allocation -/

def VK_STRUCTURE_TYPE_MEMORY_ALLOCATE_INFO : Nat := 5

structure VkMemoryType where
  propertyFlags : Nat
  heapIndex : Nat
  deriving DecidableEq

/-- The fields of `VkPhysicalDeviceMemoryProperties` the source reads;
`memoryTypes` is the array of `VK_MAX_MEMORY_TYPES` entries. -/
structure VkPhysicalDeviceMemoryProperties where
  memoryTypeCount : Nat
  memoryTypes : List VkMemoryType

structure VkMemoryRequirements where
  size : Nat
  alignment : Nat
  memoryTypeBits : Nat
  deriving DecidableEq

structure VkMemoryAllocateInfo where
  sType : Nat
  allocationSize : Nat
  memoryTypeIndex : Nat
  deriving DecidableEq

/-- Loop of `allocate_memory` (lines 562-571): the final `info.memoryTypeIndex`.
`1 << i` is an `int` shift, undefined from `i = 32` on; below that its
conversion to `uint32_t` for the `&` is `2 ^ i`. -/
def allocate_memory.loop (requirements : VkMemoryRequirements) (desired : Nat)
    (props : VkPhysicalDeviceMemoryProperties) : Nat → Nat → Nat → Option Nat
  | 0, _, memoryTypeIndex => some memoryTypeIndex
  | remaining + 1, i, memoryTypeIndex =>
    if 32 ≤ i then none
    else
      let typebit := 1 <<< i
      if requirements.memoryTypeBits &&& typebit ≠ 0 then
        match props.memoryTypes[i]? with
        | none => none
        | some mtype =>
          if mtype.propertyFlags &&& desired = desired then
            allocate_memory.loop requirements desired props remaining (i + 1) i
          else allocate_memory.loop requirements desired props remaining (i + 1) memoryTypeIndex
      else allocate_memory.loop requirements desired props remaining (i + 1) memoryTypeIndex

/-- Embedding of `allocate_memory` (lines 554-573). `requirements` is what
`vkGetBufferMemoryRequirements` stores; the result is the descriptor passed to
`vkAllocateMemory` with that call's answer (status, memory handle), the
function's own return value being the status. -/
def allocate_memory (requirements : VkMemoryRequirements)
    (vkAllocateMemory : VkMemoryAllocateInfo → VkResult × Nat)
    (desired : Nat) (props : VkPhysicalDeviceMemoryProperties) :
    Option (VkMemoryAllocateInfo × VkResult × Nat) :=
  match allocate_memory.loop requirements desired props props.memoryTypeCount 0 0 with
  | none => none
  | some memoryTypeIndex =>
    let info : VkMemoryAllocateInfo :=
      { sType := VK_STRUCTURE_TYPE_MEMORY_ALLOCATE_INFO,
        allocationSize := requirements.size,
        memoryTypeIndex := memoryTypeIndex }
    some (info, vkAllocateMemory info)

/-- The two tests of one loop iteration of `allocate_memory`, as a proposition:
bit `i` of the requirement's bitmask is set and the property flags of
`memoryTypes[i]` contain all the desired ones. -/
def memory_type_matches (requirements : VkMemoryRequirements) (desired : Nat)
    (props : VkPhysicalDeviceMemoryProperties) (i : Nat) : Prop :=
  requirements.memoryTypeBits.testBit i = true ∧
    ∃ mtype, props.memoryTypes[i]? = some mtype ∧ mtype.propertyFlags &&& desired = desired

/-- Memory type `i` is eligible: below `memoryTypeCount` and passing both tests. -/
def eligible_memory_type (requirements : VkMemoryRequirements) (desired : Nat)
    (props : VkPhysicalDeviceMemoryProperties) (i : Nat) : Prop :=
  i < props.memoryTypeCount ∧ memory_type_matches requirements desired props i

/-- A memory-type table of six types for the requirement bitmask `36 = 2^2 + 2^5`
and the desired flags `6`: types 0, 2, 3 and 5 carry the desired flags, and of
those the bitmask allows types 2 and 5. -/
def sample_memory_properties : VkPhysicalDeviceMemoryProperties :=
  { memoryTypeCount := 6,
    memoryTypes :=
      [⟨6, 0⟩, ⟨1, 0⟩, ⟨7, 1⟩, ⟨6, 1⟩, ⟨1, 0⟩, ⟨6, 1⟩] ++ List.replicate 26 ⟨0, 0⟩ }

/-- A requirement of 256 bytes allowing memory types 2 and 5. -/
def sample_memory_requirements : VkMemoryRequirements :=
  { size := 256, alignment := 16, memoryTypeBits := 36 }

/-! ## Submission -/

def VK_STRUCTURE_TYPE_SUBMIT_INFO : Nat := 4
def VK_PIPELINE_STAGE_COLOR_ATTACHMENT_OUTPUT_BIT : Nat := 1024

/-- `VkSubmitInfo`; a pointer field holds what it points at, `none` being `nullptr`. -/
structure VkSubmitInfo where
  sType : Nat
  waitSemaphoreCount : Nat
  pWaitSemaphores : Option Nat
  pWaitDstStageMask : Option (List Nat)
  commandBufferCount : Nat
  pCommandBuffers : List Nat
  signalSemaphoreCount : Nat
  pSignalSemaphores : Option Nat
  deriving DecidableEq

/-- Arguments of one `vkQueueSubmit(queue, submitCount, pSubmits, fence)` call. -/
structure QueueSubmitCall where
  queue : Nat
  submitCount : Nat
  pSubmits : VkSubmitInfo
  fence : Nat
  deriving DecidableEq

/-- Embedding of `render_submit` (lines 601-619): the `vkQueueSubmit` call it
issues and the status it returns. -/
def render_submit (vkQueueSubmit : QueueSubmitCall → VkResult) (queue : Nat)
    (commands : List Nat) (fence wait signal : Nat) : QueueSubmitCall × VkResult :=
  let info : VkSubmitInfo :=
    { sType := VK_STRUCTURE_TYPE_SUBMIT_INFO,
      waitSemaphoreCount := 0,
      pWaitSemaphores := none,
      pWaitDstStageMask := some [VK_PIPELINE_STAGE_COLOR_ATTACHMENT_OUTPUT_BIT],
      commandBufferCount := to_uint32 commands.length,
      pCommandBuffers := commands,
      signalSemaphoreCount := 0,
      pSignalSemaphores := none }
  let info : VkSubmitInfo :=
    if wait ≠ VK_NULL_HANDLE then
      { info with pWaitSemaphores := some wait, waitSemaphoreCount := 1 }
    else info
  let info : VkSubmitInfo :=
    if signal ≠ VK_NULL_HANDLE then
      { info with pSignalSemaphores := some signal, signalSemaphoreCount := 1 }
    else info
  let call : QueueSubmitCall :=
    { queue := queue, submitCount := 1, pSubmits := info, fence := fence }
  (call, vkQueueSubmit call)

/-! ## Presentation: image views and framebuffers of a swapchain -/

def VK_STRUCTURE_TYPE_IMAGE_VIEW_CREATE_INFO : Nat := 15
def VK_STRUCTURE_TYPE_FRAMEBUFFER_CREATE_INFO : Nat := 37
def VK_IMAGE_VIEW_TYPE_2D : Nat := 1
def VK_IMAGE_ASPECT_COLOR_BIT : Nat := 1

structure VkExtent2D where
  width : Nat
  height : Nat
  deriving DecidableEq

/-- The fields of `VkSurfaceCapabilitiesKHR` the source reads. -/
structure VkSurfaceCapabilitiesKHR where
  minImageCount : Nat
  maxImageExtent : VkExtent2D
  deriving DecidableEq

/-- `VkImageViewCreateInfo`, `components` being all zero and `subresourceRange` flattened. -/
structure VkImageViewCreateInfo where
  sType : Nat
  image : Nat
  viewType : Nat
  format : Nat
  aspectMask : Nat
  baseMipLevel : Nat
  levelCount : Nat
  baseArrayLayer : Nat
  layerCount : Nat
  deriving DecidableEq

structure VkFramebufferCreateInfo where
  sType : Nat
  renderPass : Nat
  attachmentCount : Nat
  pAttachments : List Nat
  width : Nat
  height : Nat
  layers : Nat
  deriving DecidableEq

/-- The thrown `vulkan_exception_t{ec, name}`. -/
structure vulkan_exception_t where
  code : VkResult
  message : String
  deriving DecidableEq

/-- The fields of `VkGraphicsPipelineCreateInfo` that are values; the pointers
to the state descriptors, members filled by the setup functions, are left out. -/
structure VkGraphicsPipelineCreateInfo where
  sType : Nat
  stageCount : Nat
  layout : Nat
  renderPass : Nat
  subpass : Nat
  basePipelineHandle : Nat
  basePipelineIndex : Int
  deriving DecidableEq

structure VkCommandPoolCreateInfo where
  sType : Nat
  flags : Nat
  queueFamilyIndex : Nat
  deriving DecidableEq

structure VkCommandBufferAllocateInfo where
  sType : Nat
  commandPool : Nat
  level : Nat
  commandBufferCount : Nat
  deriving DecidableEq

/-- Native create and destroy calls, in the order issued; a create call
carries the status and the handle the native layer answered
(`vkAllocateCommandBuffers`: the array of command buffers after the call).
`make_pipeline_layout` is the call `input.make_pipeline_layout(device, layout)`
on the caller's pipeline input, which creates the pipeline layout. -/
inductive NativeCall where
  | vkCreateImageView (info : VkImageViewCreateInfo) (ec : VkResult) (view : Nat)
  | vkCreateFramebuffer (info : VkFramebufferCreateInfo) (ec : VkResult) (framebuffer : Nat)
  | vkDestroyFramebuffer (framebuffer : Nat)
  | vkDestroyImageView (view : Nat)
  | make_pipeline_layout (ec : VkResult) (layout : Nat)
  | vkCreateGraphicsPipelines (info : VkGraphicsPipelineCreateInfo) (ec : VkResult)
      (pipeline : Nat)
  | vkDestroyPipelineLayout (layout : Nat)
  | vkDestroyPipeline (pipeline : Nat)
  | vkCreateCommandPool (info : VkCommandPoolCreateInfo) (ec : VkResult) (pool : Nat)
  | vkAllocateCommandBuffers (info : VkCommandBufferAllocateInfo) (ec : VkResult)
      (buffers : List Nat)
  | vkFreeCommandBuffers (pool : Nat) (count : Nat) (buffers : List Nat)
  | vkDestroyCommandPool (pool : Nat)
  deriving DecidableEq

/-- The call destroys or frees a native resource. -/
def NativeCall.is_destroy : NativeCall → Bool
  | .vkDestroyFramebuffer _ => true
  | .vkDestroyImageView _ => true
  | .vkDestroyPipelineLayout _ => true
  | .vkDestroyPipeline _ => true
  | .vkFreeCommandBuffers _ _ _ => true
  | .vkDestroyCommandPool _ => true
  | _ => false

/-- The destroy or free call that releases what a create or allocate call made;
`none` for a call that creates nothing. -/
def NativeCall.release : NativeCall → Option NativeCall
  | .vkCreateImageView _ _ view => some (.vkDestroyImageView view)
  | .vkCreateFramebuffer _ _ framebuffer => some (.vkDestroyFramebuffer framebuffer)
  | .make_pipeline_layout _ layout => some (.vkDestroyPipelineLayout layout)
  | .vkCreateGraphicsPipelines _ _ pipeline => some (.vkDestroyPipeline pipeline)
  | .vkCreateCommandPool _ _ pool => some (.vkDestroyCommandPool pool)
  | .vkAllocateCommandBuffers info _ buffers =>
    some (.vkFreeCommandBuffers info.commandPool info.commandBufferCount buffers)
  | _ => none

/-- The releases of the resources a sequence of calls created, in creation order. -/
def releases_in_creation_order (calls : List NativeCall) : List NativeCall :=
  calls.filterMap NativeCall.release

/-- The releases of the resources a sequence of calls created, last created first. -/
def releases_in_reverse_order (calls : List NativeCall) : List NativeCall :=
  calls.reverse.filterMap NativeCall.release

/-- Answers of the native layer to the calls of the `vulkan_presentation_t`
constructor. `images_count` answers the image query with a null array (status,
count stored); `images_fill capacity` answers the query with an array of
`capacity` images (status, images stored, `num_images` becoming their number);
`vkCreateImageView i` and `vkCreateFramebuffer i` answer the call of iteration
`i` (status, handle stored). -/
structure PresentationNative where
  images_count : VkResult × Nat
  images_fill : Nat → VkResult × List Nat
  vkCreateImageView : Nat → VkImageViewCreateInfo → VkResult × Nat
  vkCreateFramebuffer : Nat → VkFramebufferCreateInfo → VkResult × Nat

/-- The members of `vulkan_presentation_t`. -/
structure vulkan_presentation_t where
  device : Nat
  num_images : Nat
  images : List Nat
  image_views : List Nat
  framebuffers : List Nat
  deriving DecidableEq

/-- The descriptor filled in lines 438-448. -/
def vulkan_presentation_t.image_view_info (image surface_format : Nat) : VkImageViewCreateInfo :=
  { sType := VK_STRUCTURE_TYPE_IMAGE_VIEW_CREATE_INFO,
    image := image,
    viewType := VK_IMAGE_VIEW_TYPE_2D,
    format := surface_format,
    aspectMask := VK_IMAGE_ASPECT_COLOR_BIT,
    baseMipLevel := 0,
    levelCount := 1,
    baseArrayLayer := 0,
    layerCount := 1 }

/-- The descriptor filled in lines 455-464. -/
def vulkan_presentation_t.framebuffer_info (renderpass : Nat)
    (capabilities : VkSurfaceCapabilitiesKHR) (view : Nat) : VkFramebufferCreateInfo :=
  { sType := VK_STRUCTURE_TYPE_FRAMEBUFFER_CREATE_INFO,
    renderPass := renderpass,
    attachmentCount := 1,
    pAttachments := [view],
    width := capabilities.maxImageExtent.width,
    height := capabilities.maxImageExtent.height,
    layers := 1 }

/-- First loop of the constructor (lines 437-452), entered with `i`,
`remaining = num_images - i`, the array `image_views` and the calls issued so
far. A `throw` ends the construction with the calls issued until then. -/
def vulkan_presentation_t.views_loop (native : PresentationNative) (images : List Nat)
    (surface_format : Nat) :
    Nat → Nat → List Nat → List NativeCall →
      Option (List NativeCall × Except vulkan_exception_t (List Nat))
  | 0, _, image_views, calls => some (calls, .ok image_views)
  | remaining + 1, i, image_views, calls =>
    match images[i]? with
    | none => none
    | some image =>
      let info := vulkan_presentation_t.image_view_info image surface_format
      let answer := native.vkCreateImageView i info
      let calls := calls ++ [NativeCall.vkCreateImageView info answer.1 answer.2]
      if i < image_views.length then
        if answer.1 ≠ 0 then some (calls, .error ⟨answer.1, "vkCreateImageView"⟩)
        else
          vulkan_presentation_t.views_loop native images surface_format remaining (i + 1)
            (image_views.set i answer.2) calls
      else none

/-- Second loop of the constructor (lines 454-467). -/
def vulkan_presentation_t.framebuffers_loop (native : PresentationNative) (renderpass : Nat)
    (capabilities : VkSurfaceCapabilitiesKHR) (image_views : List Nat) :
    Nat → Nat → List Nat → List NativeCall →
      Option (List NativeCall × Except vulkan_exception_t (List Nat))
  | 0, _, framebuffers, calls => some (calls, .ok framebuffers)
  | remaining + 1, i, framebuffers, calls =>
    match image_views[i]? with
    | none => none
    | some view =>
      let info := vulkan_presentation_t.framebuffer_info renderpass capabilities view
      let answer := native.vkCreateFramebuffer i info
      let calls := calls ++ [NativeCall.vkCreateFramebuffer info answer.1 answer.2]
      if i < framebuffers.length then
        if answer.1 ≠ 0 then some (calls, .error ⟨answer.1, "vkCreateFramebuffer"⟩)
        else
          vulkan_presentation_t.framebuffers_loop native renderpass capabilities image_views
            remaining (i + 1) (framebuffers.set i answer.2) calls
      else none

/-- Embedding of the constructor `vulkan_presentation_t::vulkan_presentation_t`
(lines 425-468) for one swapchain, whose image queries `native` answers: the
create and destroy calls it issues, with the constructed object or the
exception it throws; `none` when an array is used outside its bounds. When
the constructor throws, the object's destructor does not run:
only the `unique_ptr` members release their arrays, which issues no native call. -/
def vulkan_presentation_t.ctor (native : PresentationNative) (device renderpass : Nat)
    (capabilities : VkSurfaceCapabilitiesKHR) (surface_format : Nat) :
    Option (List NativeCall × Except vulkan_exception_t vulkan_presentation_t) :=
  if native.images_count.1 ≠ 0 then
    some ([], .error ⟨native.images_count.1, "vkGetSwapchainImagesKHR"⟩)
  else
    let num_images := min native.images_count.2 (to_uint32 (capabilities.minImageCount + 1))
    let answer := native.images_fill num_images
    let images := array_after_fill VK_NULL_HANDLE num_images answer.2
    if answer.1 ≠ 0 then some ([], .error ⟨answer.1, "vkGetSwapchainImagesKHR"⟩)
    else
      let num_images := answer.2.length
      match vulkan_presentation_t.views_loop native images surface_format num_images 0
          (List.replicate num_images VK_NULL_HANDLE) [] with
      | none => none
      | some (calls, .error e) => some (calls, .error e)
      | some (calls, .ok image_views) =>
        match vulkan_presentation_t.framebuffers_loop native renderpass capabilities image_views
            num_images 0 (List.replicate num_images VK_NULL_HANDLE) calls with
        | none => none
        | some (calls, .error e) => some (calls, .error e)
        | some (calls, .ok framebuffers) =>
          some (calls, .ok
            { device := device,
              num_images := num_images,
              images := images,
              image_views := image_views,
              framebuffers := framebuffers })

/-- Loop of the destructor (lines 471-475). -/
def vulkan_presentation_t.dtor_loop (self : vulkan_presentation_t) :
    Nat → Nat → List NativeCall → Option (List NativeCall)
  | 0, _, calls => some calls
  | remaining + 1, i, calls =>
    match self.framebuffers[i]?, self.image_views[i]? with
    | some framebuffer, some view =>
      vulkan_presentation_t.dtor_loop self remaining (i + 1)
        (calls ++ [NativeCall.vkDestroyFramebuffer framebuffer, NativeCall.vkDestroyImageView view])
    | _, _ => none

/-- Embedding of the destructor `vulkan_presentation_t::~vulkan_presentation_t`
(lines 470-476): the destroy calls it issues. -/
def vulkan_presentation_t.dtor (self : vulkan_presentation_t) : Option (List NativeCall) :=
  vulkan_presentation_t.dtor_loop self self.num_images 0 []

/-- The handle `vkCreateImageView` answers in iteration `i` of the first loop,
where the view is created from `images[i]`. -/
def vulkan_presentation_t.view_of (native : PresentationNative) (images : List Nat)
    (surface_format i : Nat) : Nat :=
  (native.vkCreateImageView i
    (vulkan_presentation_t.image_view_info (images.getD i VK_NULL_HANDLE) surface_format)).2

/-- The successful `vkCreateImageView` call of iteration `i` of the first loop. -/
def vulkan_presentation_t.view_call (native : PresentationNative) (images : List Nat)
    (surface_format i : Nat) : NativeCall :=
  NativeCall.vkCreateImageView
    (vulkan_presentation_t.image_view_info (images.getD i VK_NULL_HANDLE) surface_format)
    VK_SUCCESS (vulkan_presentation_t.view_of native images surface_format i)

/-- The handle `vkCreateFramebuffer` answers in iteration `i` of the second
loop, where the single attachment is `image_views[i]`. -/
def vulkan_presentation_t.framebuffer_of (native : PresentationNative) (renderpass : Nat)
    (capabilities : VkSurfaceCapabilitiesKHR) (image_views : List Nat) (i : Nat) : Nat :=
  (native.vkCreateFramebuffer i
    (vulkan_presentation_t.framebuffer_info renderpass capabilities
      (image_views.getD i VK_NULL_HANDLE))).2

/-- The successful `vkCreateFramebuffer` call of iteration `i` of the second loop. -/
def vulkan_presentation_t.framebuffer_call (native : PresentationNative) (renderpass : Nat)
    (capabilities : VkSurfaceCapabilitiesKHR) (image_views : List Nat) (i : Nat) : NativeCall :=
  NativeCall.vkCreateFramebuffer
    (vulkan_presentation_t.framebuffer_info renderpass capabilities
      (image_views.getD i VK_NULL_HANDLE))
    VK_SUCCESS (vulkan_presentation_t.framebuffer_of native renderpass capabilities image_views i)

/-! ## Pipeline -/

def VK_STRUCTURE_TYPE_GRAPHICS_PIPELINE_CREATE_INFO : Nat := 28

/-- Answers to the two fallible calls of the `vulkan_pipeline_t` constructor:
`input.make_pipeline_layout(device, layout)` (status, layout stored) and
`vkCreateGraphicsPipelines` (status, pipeline stored). -/
structure PipelineNative where
  make_pipeline_layout : VkResult × Nat
  vkCreateGraphicsPipelines : VkGraphicsPipelineCreateInfo → VkResult × Nat

/-- The handle members of `vulkan_pipeline_t`. -/
structure vulkan_pipeline_t where
  device : Nat
  layout : Nat
  handle : Nat
  deriving DecidableEq

/-- The value fields of the descriptor filled in lines 162-181. -/
def vulkan_pipeline_t.create_info (layout renderpass : Nat) : VkGraphicsPipelineCreateInfo :=
  { sType := VK_STRUCTURE_TYPE_GRAPHICS_PIPELINE_CREATE_INFO,
    stageCount := 2,
    layout := layout,
    renderPass := renderpass,
    subpass := 0,
    basePipelineHandle := VK_NULL_HANDLE,
    basePipelineIndex := -1 }

/-- Embedding of the constructor `vulkan_pipeline_t::vulkan_pipeline_t`
(lines 151-186): the create and destroy calls it issues, with the constructed
object or the exception it throws. The setup calls of lines 154-160 fill state
descriptors and issue no native call. -/
def vulkan_pipeline_t.ctor (native : PipelineNative) (device renderpass : Nat) :
    List NativeCall × Except vulkan_exception_t vulkan_pipeline_t :=
  let made := native.make_pipeline_layout
  let calls := [NativeCall.make_pipeline_layout made.1 made.2]
  if made.1 ≠ 0 then (calls, .error ⟨made.1, "vkCreatePipelineLayout"⟩)
  else
    let layout := made.2
    let info := vulkan_pipeline_t.create_info layout renderpass
    let created := native.vkCreateGraphicsPipelines info
    let calls := calls ++ [NativeCall.vkCreateGraphicsPipelines info created.1 created.2]
    if created.1 ≠ 0 then
      (calls ++ [NativeCall.vkDestroyPipelineLayout layout],
        .error ⟨created.1, "vkCreateGraphicsPipelines"⟩)
    else (calls, .ok { device := device, layout := layout, handle := created.2 })

/-- Embedding of the destructor `vulkan_pipeline_t::~vulkan_pipeline_t`
(lines 188-191): the destroy calls it issues. -/
def vulkan_pipeline_t.dtor (self : vulkan_pipeline_t) : List NativeCall :=
  [NativeCall.vkDestroyPipelineLayout self.layout, NativeCall.vkDestroyPipeline self.handle]

/-! ## Command pool -/

def VK_STRUCTURE_TYPE_COMMAND_POOL_CREATE_INFO : Nat := 39
def VK_STRUCTURE_TYPE_COMMAND_BUFFER_ALLOCATE_INFO : Nat := 40
def VK_COMMAND_POOL_CREATE_RESET_COMMAND_BUFFER_BIT : Nat := 2
def VK_COMMAND_BUFFER_LEVEL_PRIMARY : Nat := 0

/-- Answers to the two fallible calls of the `vulkan_command_pool_t`
constructor: `vkCreateCommandPool` (status, pool stored) and
`vkAllocateCommandBuffers` (status, command buffers stored from index 0). -/
structure CommandPoolNative where
  vkCreateCommandPool : VkCommandPoolCreateInfo → VkResult × Nat
  vkAllocateCommandBuffers : VkCommandBufferAllocateInfo → VkResult × List Nat

/-- The members of `vulkan_command_pool_t`. -/
structure vulkan_command_pool_t where
  device : Nat
  count : Nat
  handle : Nat
  buffers : List Nat
  deriving DecidableEq

/-- The descriptor filled in lines 481-484. -/
def vulkan_command_pool_t.pool_info (queue_index : Nat) : VkCommandPoolCreateInfo :=
  { sType := VK_STRUCTURE_TYPE_COMMAND_POOL_CREATE_INFO,
    flags := VK_COMMAND_POOL_CREATE_RESET_COMMAND_BUFFER_BIT,
    queueFamilyIndex := queue_index }

/-- The descriptor filled in lines 490-494. -/
def vulkan_command_pool_t.allocate_info (handle count : Nat) : VkCommandBufferAllocateInfo :=
  { sType := VK_STRUCTURE_TYPE_COMMAND_BUFFER_ALLOCATE_INFO,
    commandPool := handle,
    level := VK_COMMAND_BUFFER_LEVEL_PRIMARY,
    commandBufferCount := count }

/-- Embedding of the constructor `vulkan_command_pool_t::vulkan_command_pool_t`
(lines 478-500): the create and destroy calls it issues, with the constructed
object or the exception it throws. -/
def vulkan_command_pool_t.ctor (native : CommandPoolNative) (device queue_index count : Nat) :
    List NativeCall × Except vulkan_exception_t vulkan_command_pool_t :=
  let pool_info := vulkan_command_pool_t.pool_info queue_index
  let created := native.vkCreateCommandPool pool_info
  let calls := [NativeCall.vkCreateCommandPool pool_info created.1 created.2]
  if created.1 ≠ 0 then (calls, .error ⟨created.1, "vkCreateCommandPool"⟩)
  else
    let handle := created.2
    let info := vulkan_command_pool_t.allocate_info handle count
    let allocated := native.vkAllocateCommandBuffers info
    let buffers := array_after_fill VK_NULL_HANDLE count allocated.2
    let calls := calls ++ [NativeCall.vkAllocateCommandBuffers info allocated.1 buffers]
    if allocated.1 ≠ 0 then
      (calls ++ [NativeCall.vkDestroyCommandPool handle],
        .error ⟨allocated.1, "vkAllocateCommandBuffers"⟩)
    else
      (calls, .ok { device := device, count := count, handle := handle, buffers := buffers })

/-- Embedding of the destructor `vulkan_command_pool_t::~vulkan_command_pool_t`
(lines 502-505): the free and destroy calls it issues. -/
def vulkan_command_pool_t.dtor (self : vulkan_command_pool_t) : List NativeCall :=
  [NativeCall.vkFreeCommandBuffers self.handle self.count self.buffers,
    NativeCall.vkDestroyCommandPool self.handle]

/-! ## Logical device creation -/

def VK_STRUCTURE_TYPE_DEVICE_QUEUE_CREATE_INFO : Nat := 2
def VK_STRUCTURE_TYPE_DEVICE_CREATE_INFO : Nat := 3
def VK_KHR_SWAPCHAIN_EXTENSION_NAME : String := "VK_KHR_swapchain"

/-- The value of `const float global_queue_priority = 0` (line 66). -/
def global_queue_priority : Nat := 0

/-- The fields of `VkDeviceQueueCreateInfo` the source writes; `pQueuePriorities`
holds the priority it points at, `none` being `nullptr`. -/
structure VkDeviceQueueCreateInfo where
  sType : Nat
  queueFamilyIndex : Nat
  queueCount : Nat
  pQueuePriorities : Option Nat
  deriving DecidableEq

/-- `VkPhysicalDeviceFeatures`: its `VkBool32` members in declaration order. -/
structure VkPhysicalDeviceFeatures where
  members : List Nat
  deriving DecidableEq

/-- The value-initialised `VkPhysicalDeviceFeatures features{}`. -/
def VkPhysicalDeviceFeatures.zero : VkPhysicalDeviceFeatures :=
  { members := List.replicate 55 0 }

/-- The fields of `VkDeviceCreateInfo` the source writes; a pointer field holds
what it points at. -/
structure VkDeviceCreateInfo where
  sType : Nat
  queueCreateInfoCount : Nat
  pQueueCreateInfos : List VkDeviceQueueCreateInfo
  enabledLayerCount : Nat
  enabledExtensionCount : Nat
  ppEnabledExtensionNames : List String
  pEnabledFeatures : VkPhysicalDeviceFeatures
  deriving DecidableEq

/-- What `vkGetPhysicalDeviceQueueFamilyProperties` answers: the call with a
null array stores `count`; the call with the array stores the entries
`written` from index 0, the count becoming their number. -/
structure QueueFamilyNative where
  count : Nat
  written : List VkQueueFamilyProperties

/-- What a `create_device` overload leaves behind: the status returned, the
value of `device`, the caller's queue descriptors after the call, and the
descriptor passed to `vkCreateDevice` when that call is reached. -/
structure CreateDeviceOutcome where
  status : VkResult
  device : Nat
  queues : List VkDeviceQueueCreateInfo
  call : Option VkDeviceCreateInfo
  deriving DecidableEq

/-- Embedding of the single-queue overload
`create_device(physical_device, device, queue_info)` (lines 68-91); `none` when
`properties` is read outside its bounds. -/
def create_device (families : QueueFamilyNative)
    (vkCreateDevice : VkDeviceCreateInfo → VkResult × Nat)
    (device : Nat) (queue_info : VkDeviceQueueCreateInfo) : Option CreateDeviceOutcome :=
  let properties := array_after_fill ⟨0, 0, 0⟩ families.count families.written
  let count := families.written.length
  let queue_info : VkDeviceQueueCreateInfo :=
    { queue_info with
      sType := VK_STRUCTURE_TYPE_DEVICE_QUEUE_CREATE_INFO,
      pQueuePriorities := some global_queue_priority }
  match get_graphics_queue_available properties count with
  | none => none
  | some index =>
    let queue_info : VkDeviceQueueCreateInfo := { queue_info with queueFamilyIndex := index }
    if queue_info.queueFamilyIndex > count then
      some { status := VK_ERROR_UNKNOWN, device := device, queues := [queue_info], call := none }
    else
      let queue_info : VkDeviceQueueCreateInfo := { queue_info with queueCount := 1 }
      let info : VkDeviceCreateInfo :=
        { sType := VK_STRUCTURE_TYPE_DEVICE_CREATE_INFO,
          queueCreateInfoCount := 1,
          pQueueCreateInfos := [queue_info],
          enabledLayerCount := 0,
          enabledExtensionCount := 0,
          ppEnabledExtensionNames := [],
          pEnabledFeatures := VkPhysicalDeviceFeatures.zero }
      let answer := vkCreateDevice info
      some { status := answer.1, device := answer.2, queues := [queue_info], call := some info }

/-- Inner loop of the two-queue overload (lines 356-361) for family `i`: the
value of `support` when the loop ends, or the status of the `return ec`.
`query i surface` is what `vkGetPhysicalDeviceSurfaceSupportKHR` answers for
family `i` and `surface` (status, value stored in `support`). -/
def create_device_queues.surfaces_loop (query : Nat → Nat → VkResult × Nat) (i : Nat) :
    List Nat → Nat → Except VkResult Nat
  | [], support => .ok support
  | surface :: rest, _ =>
    if (query i surface).1 ≠ 0 then .error (query i surface).1
    else if (query i surface).2 = 0 then .ok 0
    else create_device_queues.surfaces_loop query i rest (query i surface).2

/-- The block `// present queue` of the two-queue overload (lines 354-366) for
family `i`: `queues[1]` after the block, or the status of the `return ec`. -/
def create_device_queues.present_queue (surfaces : List Nat)
    (query : Nat → Nat → VkResult × Nat) (i : Nat) (present : VkDeviceQueueCreateInfo) :
    Except VkResult VkDeviceQueueCreateInfo :=
  if present.queueFamilyIndex = UINT32_MAX then
    match create_device_queues.surfaces_loop query i surfaces 0 with
    | .error ec => .error ec
    | .ok support =>
      if support = 0 then .ok present
      else .ok { present with queueFamilyIndex := i, queueCount := 1 }
  else .ok present

/-- State of `queues[0]` and `queues[1]` when the family loop of the two-queue
overload ends, `returned` being the status of a `return ec` inside the loop. -/
structure QueueSelection where
  returned : Option VkResult
  graphics : VkDeviceQueueCreateInfo
  present : VkDeviceQueueCreateInfo
  deriving DecidableEq

/-- Family loop of the two-queue overload (lines 343-367), entered with `i`,
`remaining = count - i` and the two queue descriptors. -/
def create_device_queues.loop (properties : List VkQueueFamilyProperties)
    (surfaces : List Nat) (query : Nat → Nat → VkResult × Nat) :
    Nat → Nat → VkDeviceQueueCreateInfo → VkDeviceQueueCreateInfo → Option QueueSelection
  | 0, _, graphics, present => some ⟨none, graphics, present⟩
  | remaining + 1, i, graphics, present =>
    if graphics.queueFamilyIndex = UINT32_MAX then
      match properties[i]? with
      | none => none
      | some prop =>
        if prop.queueFlags &&& VK_QUEUE_GRAPHICS_BIT ≠ 0 then
          create_device_queues.loop properties surfaces query remaining (i + 1)
            { graphics with queueFamilyIndex := i, queueCount := 1 } present
        else
          match create_device_queues.present_queue surfaces query i present with
          | .error ec => some ⟨some ec, graphics, present⟩
          | .ok present =>
            create_device_queues.loop properties surfaces query remaining (i + 1)
              graphics present
    else
      match create_device_queues.present_queue surfaces query i present with
      | .error ec => some ⟨some ec, graphics, present⟩
      | .ok present =>
        create_device_queues.loop properties surfaces query remaining (i + 1) graphics present

/-- Embedding of the two-queue overload
`create_device(physical_device, surfaces, surface_count, device, queues)`
(lines 330-381); `none` when `properties` is read outside its bounds.
`features` is what `vkGetPhysicalDeviceFeatures` stores, `surfaces` the span of
`surface_count` surfaces, `graphics` and `present` the caller's `queues[0]`
and `queues[1]`. -/
def create_device_queues (features : VkPhysicalDeviceFeatures) (families : QueueFamilyNative)
    (query : Nat → Nat → VkResult × Nat)
    (vkCreateDevice : VkDeviceCreateInfo → VkResult × Nat)
    (surfaces : List Nat) (device : Nat) (graphics present : VkDeviceQueueCreateInfo) :
    Option CreateDeviceOutcome :=
  let properties := array_after_fill ⟨0, 0, 0⟩ families.count families.written
  let count := families.written.length
  let graphics : VkDeviceQueueCreateInfo :=
    { graphics with
      sType := VK_STRUCTURE_TYPE_DEVICE_QUEUE_CREATE_INFO,
      pQueuePriorities := some global_queue_priority,
      queueFamilyIndex := UINT32_MAX }
  let present : VkDeviceQueueCreateInfo :=
    { present with
      sType := VK_STRUCTURE_TYPE_DEVICE_QUEUE_CREATE_INFO,
      pQueuePriorities := some global_queue_priority,
      queueFamilyIndex := UINT32_MAX }
  match create_device_queues.loop properties surfaces query count 0 graphics present with
  | none => none
  | some selection =>
    match selection.returned with
    | some ec =>
      some { status := ec, device := device,
             queues := [selection.graphics, selection.present], call := none }
    | none =>
      if selection.graphics.queueFamilyIndex > count then
        some { status := VK_ERROR_UNKNOWN, device := device,
               queues := [selection.graphics, selection.present], call := none }
      else if selection.present.queueFamilyIndex > count then
        some { status := VK_ERROR_UNKNOWN, device := device,
               queues := [selection.graphics, selection.present], call := none }
      else
        let info : VkDeviceCreateInfo :=
          { sType := VK_STRUCTURE_TYPE_DEVICE_CREATE_INFO,
            queueCreateInfoCount := 2,
            pQueueCreateInfos := [selection.graphics, selection.present],
            enabledLayerCount := 0,
            enabledExtensionCount := 1,
            ppEnabledExtensionNames := [VK_KHR_SWAPCHAIN_EXTENSION_NAME],
            pEnabledFeatures := features }
        let answer := vkCreateDevice info
        some { status := answer.1, device := answer.2,
               queues := [selection.graphics, selection.present], call := some info }

/-- Every surface of the list reports presentation support on family `i`. -/
def every_surface_supports (query : Nat → Nat → VkResult × Nat) (surfaces : List Nat)
    (i : Nat) : Prop :=
  ∀ surface ∈ surfaces, (query i surface).2 ≠ 0

/-- The two-queue overload takes family `i` for presentation: the surface list
is not empty and every surface reports support on `i`. -/
def accepts_present (query : Nat → Nat → VkResult × Nat) (surfaces : List Nat) (i : Nat) :
    Prop :=
  surfaces ≠ [] ∧ every_surface_supports query surfaces i

/-- Three queue families of which families 1 and 2 have the graphics bit. -/
def sample_queue_families : QueueFamilyNative :=
  { count := 3, written := [⟨4, 1, 0⟩, ⟨7, 2, 0⟩, ⟨1, 1, 0⟩] }

/-- Support answers for the surfaces 7 and 8: every query succeeds, and only
family 0 on surface 8 reports no support. -/
def sample_surface_support (i surface : Nat) : VkResult × Nat :=
  (VK_SUCCESS, if i = 0 ∧ surface = 8 then 0 else 1)

/-- A family table of `UINT32_MAX` entries, none with the graphics bit. -/
def saturated_queue_families : QueueFamilyNative :=
  { count := UINT32_MAX, written := List.replicate UINT32_MAX ⟨0, 0, 0⟩ }

/-- Two queue families, neither with the graphics bit. -/
def sample_compute_families : QueueFamilyNative :=
  { count := 2, written := [⟨2, 1, 0⟩, ⟨4, 1, 0⟩] }

/-- One queue family with the graphics bit. -/
def sample_single_family : QueueFamilyNative :=
  { count := 1, written := [⟨1, 1, 0⟩] }

/-! ## Theorems -/

theorem get_graphics_queue_available_loop_spec (properties : List VkQueueFamilyProperties) :
    ∀ (remaining i : Nat), i + remaining ≤ properties.length →
      ∃ r, get_graphics_queue_available.loop properties remaining i = some r ∧
        ((r = UINT32_MAX ∧ ∀ j, i ≤ j → j < i + remaining → ¬ has_graphics_bit properties j) ∨
         (i ≤ r ∧ r < i + remaining ∧ has_graphics_bit properties r ∧
            ∀ j, i ≤ j → j < r → ¬ has_graphics_bit properties j)) := by
  intro remaining
  induction remaining with
  | zero =>
    intro i _
    refine ⟨UINT32_MAX, rfl, Or.inl ⟨rfl, ?_⟩⟩
    intro j h1 h2
    omega
  | succ n ih =>
    intro i hlen
    have hi : i < properties.length := by omega
    have hget : properties[i]? = some properties[i] := List.getElem?_eq_getElem hi
    by_cases hbit : (properties[i]).queueFlags &&& VK_QUEUE_GRAPHICS_BIT ≠ 0
    · refine ⟨i, ?_, Or.inr ⟨le_refl _, by omega, ⟨properties[i], hget, hbit⟩, ?_⟩⟩
      · simp only [get_graphics_queue_available.loop, hget]
        rw [if_pos hbit]
      · intro j h1 h2
        omega
    · obtain ⟨r, hr, hcase⟩ := ih (i + 1) (by omega)
      have hnot : ¬ has_graphics_bit properties i := by
        rintro ⟨p, hp, hpb⟩
        rw [hget] at hp
        cases hp
        exact hbit hpb
      refine ⟨r, ?_, ?_⟩
      · simp only [get_graphics_queue_available.loop, hget]
        rw [if_neg hbit]
        exact hr
      · rcases hcase with ⟨h1, h2⟩ | ⟨h1, h2, h3, h4⟩
        · left
          refine ⟨h1, ?_⟩
          intro j hj1 hj2
          by_cases hji : j = i
          · subst hji
            exact hnot
          · exact h2 j (by omega) (by omega)
        · right
          refine ⟨by omega, by omega, h3, ?_⟩
          intro j hj1 hj2
          by_cases hji : j = i
          · subst hji
            exact hnot
          · exact h4 j (by omega) hj2

/-- C1: with `count` entries readable, `get_graphics_queue_available` returns
a value `r`; if some entry below `count` has the graphics bit, `r` is the lowest
such index; if none has, `r` is the sentinel `UINT32_MAX`; and when index `k` is
the only graphics-capable entry below `count`, `r = k`. -/
theorem get_graphics_queue_available_lowest (properties : List VkQueueFamilyProperties)
    (count : Nat) (hcount : count ≤ properties.length) :
    ∃ r, get_graphics_queue_available properties count = some r ∧
      ((∃ i, i < count ∧ has_graphics_bit properties i) →
        r < count ∧ has_graphics_bit properties r ∧
          ∀ j, j < r → ¬ has_graphics_bit properties j) ∧
      ((∀ i, i < count → ¬ has_graphics_bit properties i) → r = UINT32_MAX) ∧
      (∀ k, k < count → has_graphics_bit properties k →
        (∀ j, j < count → j ≠ k → ¬ has_graphics_bit properties j) → r = k) := by
  obtain ⟨r, hr, hcase⟩ :=
    get_graphics_queue_available_loop_spec properties count 0 (by omega)
  have hfound : (∃ i, i < count ∧ has_graphics_bit properties i) →
      r < count ∧ has_graphics_bit properties r ∧
        ∀ j, j < r → ¬ has_graphics_bit properties j := by
    rintro ⟨i, hi, hbit⟩
    rcases hcase with ⟨_, hnone⟩ | ⟨_, h2, h3, h4⟩
    · exact absurd hbit (hnone i (Nat.zero_le _) (by omega))
    · exact ⟨by omega, h3, fun j hj => h4 j (Nat.zero_le _) hj⟩
  refine ⟨r, hr, hfound, ?_, ?_⟩
  · intro hnone
    rcases hcase with ⟨h1, _⟩ | ⟨_, h2, h3, _⟩
    · exact h1
    · exact absurd h3 (hnone r (by omega))
  · intro k hk hbit honly
    obtain ⟨hrc, hrbit, hlow⟩ := hfound ⟨k, hk, hbit⟩
    by_contra hne
    exact honly r hrc hne hrbit

/-- Witness of C1: in a table of three families where only family 2 has the
graphics bit, the function returns 2. -/
theorem get_graphics_queue_available_lowest_witness :
    get_graphics_queue_available [⟨2, 1, 0⟩, ⟨4, 2, 0⟩, ⟨7, 1, 0⟩] 3 = some 2 ∧
    ∃ r, get_graphics_queue_available [⟨2, 1, 0⟩, ⟨4, 2, 0⟩, ⟨7, 1, 0⟩] 3 = some r ∧
      ((∃ i, i < 3 ∧ has_graphics_bit [⟨2, 1, 0⟩, ⟨4, 2, 0⟩, ⟨7, 1, 0⟩] i) →
        r < 3 ∧ has_graphics_bit [⟨2, 1, 0⟩, ⟨4, 2, 0⟩, ⟨7, 1, 0⟩] r ∧
          ∀ j, j < r → ¬ has_graphics_bit [⟨2, 1, 0⟩, ⟨4, 2, 0⟩, ⟨7, 1, 0⟩] j) ∧
      ((∀ i, i < 3 → ¬ has_graphics_bit [⟨2, 1, 0⟩, ⟨4, 2, 0⟩, ⟨7, 1, 0⟩] i) →
        r = UINT32_MAX) ∧
      (∀ k, k < 3 → has_graphics_bit [⟨2, 1, 0⟩, ⟨4, 2, 0⟩, ⟨7, 1, 0⟩] k →
        (∀ j, j < 3 → j ≠ k → ¬ has_graphics_bit [⟨2, 1, 0⟩, ⟨4, 2, 0⟩, ⟨7, 1, 0⟩] j) →
          r = k) :=
  ⟨by decide, get_graphics_queue_available_lowest _ 3 (by decide)⟩

theorem get_surface_support_loop_spec (support_after : Nat → Nat) (exclude_index : Nat) :
    ∀ (remaining i : Nat),
      (get_surface_support.loop support_after exclude_index remaining i = UINT32_MAX ∧
        ∀ j, i ≤ j → j < i + remaining → ¬ present_candidate support_after exclude_index j) ∨
      (i ≤ get_surface_support.loop support_after exclude_index remaining i ∧
        get_surface_support.loop support_after exclude_index remaining i < i + remaining ∧
        present_candidate support_after exclude_index
          (get_surface_support.loop support_after exclude_index remaining i) ∧
        ∀ j, i ≤ j → j < get_surface_support.loop support_after exclude_index remaining i →
          ¬ present_candidate support_after exclude_index j) := by
  intro remaining
  induction remaining with
  | zero =>
    intro i
    left
    refine ⟨rfl, ?_⟩
    intro j h1 h2
    omega
  | succ n ih =>
    intro i
    have hstep : ¬ present_candidate support_after exclude_index i →
        get_surface_support.loop support_after exclude_index (n + 1) i =
          get_surface_support.loop support_after exclude_index n (i + 1) := by
      intro hnot
      unfold present_candidate at hnot
      by_cases hex : i = exclude_index
      · simp only [get_surface_support.loop, if_pos hex]
      · have hs : ¬ support_after i ≠ 0 := fun h => hnot ⟨hex, h⟩
        simp only [get_surface_support.loop, if_neg hex, if_neg hs]
    by_cases hcand : present_candidate support_after exclude_index i
    · right
      have hval : get_surface_support.loop support_after exclude_index (n + 1) i = i := by
        simp only [get_surface_support.loop, if_neg hcand.1, if_pos hcand.2]
      rw [hval]
      refine ⟨le_refl _, by omega, hcand, ?_⟩
      intro j h1 h2
      omega
    · rw [hstep hcand]
      rcases ih (i + 1) with ⟨h1, h2⟩ | ⟨h1, h2, h3, h4⟩
      · left
        refine ⟨h1, ?_⟩
        intro j hj1 hj2
        by_cases hji : j = i
        · subst hji
          exact hcand
        · exact h2 j (by omega) (by omega)
      · right
        refine ⟨by omega, by omega, h3, ?_⟩
        intro j hj1 hj2
        by_cases hji : j = i
        · subst hji
          exact hcand
        · exact h4 j (by omega) hj2

/-- C2 as stated fails: with `exclude_index = UINT32_MAX` and no family
supporting presentation the function returns the sentinel, which is the
excluded value itself. -/
theorem get_surface_support_returns_excluded_sentinel :
    get_surface_support (fun _ => 0) 2 UINT32_MAX = UINT32_MAX := by
  decide

/-- C2 (amended): for every count and every per-index support answer,
`get_surface_support` never returns an `exclude_index` other than the sentinel
`UINT32_MAX`, even when that family reports presentation support. -/
theorem get_surface_support_never_excluded (support_after : Nat → Nat)
    (count exclude_index : Nat) (hg : exclude_index ≠ UINT32_MAX) :
    get_surface_support support_after count exclude_index ≠ exclude_index := by
  unfold get_surface_support
  rcases get_surface_support_loop_spec support_after exclude_index count 0 with
    ⟨h1, _⟩ | ⟨_, _, h3, _⟩
  · rw [h1]
    exact fun h => hg h.symm
  · exact h3.1

/-- Witness of C2 (amended): families 0, 1 and 2 all support presentation and
family 0 is excluded; the function returns 1. -/
theorem get_surface_support_never_excluded_witness :
    get_surface_support (fun _ => 1) 3 0 = 1 ∧
    get_surface_support (fun _ => 1) 3 0 ≠ 0 :=
  ⟨by decide, get_surface_support_never_excluded (fun _ => 1) 3 0 (by decide)⟩

/-- C3: `get_surface_support` returns the lowest index below `count` that is
not `exclude_index` and reports support, and the sentinel `UINT32_MAX` when
there is no such index. -/
theorem get_surface_support_lowest (support_after : Nat → Nat) (count exclude_index : Nat) :
    ((∃ i, i < count ∧ present_candidate support_after exclude_index i) →
      get_surface_support support_after count exclude_index < count ∧
      present_candidate support_after exclude_index
        (get_surface_support support_after count exclude_index) ∧
      ∀ j, j < get_surface_support support_after count exclude_index →
        ¬ present_candidate support_after exclude_index j) ∧
    ((∀ i, i < count → ¬ present_candidate support_after exclude_index i) →
      get_surface_support support_after count exclude_index = UINT32_MAX) := by
  unfold get_surface_support
  have hcase := get_surface_support_loop_spec support_after exclude_index count 0
  constructor
  · rintro ⟨i, hi, hcand⟩
    rcases hcase with ⟨_, hnone⟩ | ⟨_, h2, h3, h4⟩
    · exact absurd hcand (hnone i (Nat.zero_le _) (by omega))
    · exact ⟨by omega, h3, fun j hj => h4 j (Nat.zero_le _) hj⟩
  · intro hnone
    rcases hcase with ⟨h1, _⟩ | ⟨_, h2, h3, _⟩
    · exact h1
    · exact absurd h3 (hnone _ (by omega))

/-- Witness of C3: families 0 and 2 support presentation, family 0 is excluded;
the function returns 2. With no supporting family it returns the sentinel. -/
theorem get_surface_support_lowest_witness :
    get_surface_support (fun i => if i = 1 then 0 else 1) 3 0 = 2 ∧
    get_surface_support (fun _ => 0) 3 0 = UINT32_MAX ∧
    ((∃ i, i < 3 ∧ present_candidate (fun i => if i = 1 then 0 else 1) 0 i) →
      get_surface_support (fun i => if i = 1 then 0 else 1) 3 0 < 3 ∧
      present_candidate (fun i => if i = 1 then 0 else 1) 0
        (get_surface_support (fun i => if i = 1 then 0 else 1) 3 0) ∧
      ∀ j, j < get_surface_support (fun i => if i = 1 then 0 else 1) 3 0 →
        ¬ present_candidate (fun i => if i = 1 then 0 else 1) 0 j) :=
  ⟨by decide, by decide,
    (get_surface_support_lowest (fun i => if i = 1 then 0 else 1) 3 0).1⟩

theorem array_after_fill_of_le {α : Type} (zero : α) (capacity : Nat) (written : List α)
    (h : written.length ≤ capacity) :
    array_after_fill zero capacity written =
      written ++ List.replicate (capacity - written.length) zero := by
  unfold array_after_fill
  rw [List.take_of_length_le h]

theorem array_after_fill_length {α : Type} (zero : α) (capacity : Nat) (written : List α) :
    (array_after_fill zero capacity written).length = capacity := by
  unfold array_after_fill
  simp only [List.length_append, List.length_take, List.length_replicate]
  omega

theorem array_after_fill_getElem? {α : Type} (zero : α) (capacity : Nat) (written : List α)
    (h : written.length ≤ capacity) (i : Nat) (hi : i < written.length) :
    (array_after_fill zero capacity written)[i]? = written[i]? := by
  rw [array_after_fill_of_le zero capacity written h]
  exact List.getElem?_append_left hi

/-- Where `get_physical_device` succeeds: both enumeration calls return
`VK_SUCCESS` and at least one device is stored; the handle is the last device. -/
theorem get_physical_device_last (native : NativeEnumeration Nat) (handle : Nat)
    (h1 : native.count_status = VK_SUCCESS) (h2 : native.fill_status = VK_SUCCESS)
    (hne : native.written ≠ []) (hcap : native.written.length ≤ native.count)
    (hmax : native.count ≤ UINT32_MAX) :
    get_physical_device native handle =
      some (VK_SUCCESS, native.written.getLast hne) := by
  have hpos : 0 < native.written.length := List.length_pos.mpr hne
  have hidx : uint32_sub native.written.length 1 = native.written.length - 1 := by
    unfold uint32_sub UINT32_SIZE
    unfold UINT32_MAX at hmax
    omega
  have hread : (array_after_fill VK_NULL_HANDLE native.count native.written)[
      uint32_sub native.written.length 1]? = some (native.written.getLast hne) := by
    rw [hidx, array_after_fill_getElem? _ _ _ hcap _ (by omega)]
    rw [List.getLast_eq_getElem]
    exact List.getElem?_eq_getElem (by omega)
  unfold get_physical_device
  unfold VK_SUCCESS at h1 h2
  simp only [h1, h2, ne_eq, not_true_eq_false, if_false, hread]

/-- Where `get_physical_device` reports an enumeration failure: a non-zero
status of the counting call is returned with `handle` untouched, and a non-zero
status of the filling call is returned with `handle` cleared. -/
theorem get_physical_device_enumeration_error (native : NativeEnumeration Nat) (handle : Nat) :
    (native.count_status ≠ VK_SUCCESS →
      get_physical_device native handle = some (native.count_status, handle)) ∧
    (native.count_status = VK_SUCCESS → native.fill_status ≠ VK_SUCCESS →
      get_physical_device native handle = some (native.fill_status, VK_NULL_HANDLE)) := by
  unfold VK_SUCCESS
  constructor
  · intro h
    unfold get_physical_device
    rw [if_pos h]
  · intro h1 h2
    unfold get_physical_device
    simp only [h1, ne_eq, not_true_eq_false, if_false]
    rw [if_pos h2]

/-- With zero devices enumerated and both calls returning `VK_SUCCESS`, whatever
the size of the array, `devices[count - 1]` is a read at index `UINT32_MAX`,
outside the array. -/
theorem get_physical_device_zero_devices (count handle : Nat) (hmax : count ≤ UINT32_MAX) :
    get_physical_device ⟨VK_SUCCESS, count, VK_SUCCESS, []⟩ handle = none := by
  have hidx : uint32_sub ([] : List Nat).length 1 = UINT32_MAX := by decide
  have hread : (array_after_fill VK_NULL_HANDLE count ([] : List Nat))[
      uint32_sub ([] : List Nat).length 1]? = none := by
    rw [hidx]
    apply List.getElem?_eq_none
    rw [array_after_fill_length]
    exact hmax
  unfold get_physical_device
  simp only [VK_SUCCESS, ne_eq, not_true_eq_false, if_false, hread]

/-- C4 (failing input): the enumeration succeeds and reports zero devices. The
function does not return a failure status: it evaluates `devices[count - 1]`
with `count = 0`, index `UINT32_MAX` of an empty array. -/
theorem get_physical_device_zero_devices_out_of_bounds :
    uint32_sub 0 1 = 4294967295 ∧
    (array_after_fill VK_NULL_HANDLE 0 ([] : List Nat)).length = 0 ∧
    get_physical_device ⟨VK_SUCCESS, 0, VK_SUCCESS, []⟩ VK_NULL_HANDLE = none := by
  refine ⟨by decide, by decide, by decide⟩

theorem check_support_format_loop_spec (formats : List VkSurfaceFormatKHR)
    (surface_format surface_color_space : Nat) :
    ∀ (remaining i : Nat), i + remaining ≤ formats.length →
      ∃ b, check_support.format_loop formats surface_format surface_color_space remaining i
          = some b ∧
        (b = true ↔ ∃ j f, i ≤ j ∧ j < i + remaining ∧ formats[j]? = some f ∧
          f.format = surface_format ∧ f.colorSpace = surface_color_space) := by
  intro remaining
  induction remaining with
  | zero =>
    intro i _
    refine ⟨false, rfl, ?_⟩
    constructor
    · intro h
      cases h
    · rintro ⟨j, f, h1, h2, _⟩
      omega
  | succ n ih =>
    intro i hlen
    have hi : i < formats.length := by omega
    have hget : formats[i]? = some formats[i] := List.getElem?_eq_getElem hi
    by_cases hm : (formats[i]).format = surface_format ∧
        (formats[i]).colorSpace = surface_color_space
    · refine ⟨true, ?_, ?_⟩
      · simp only [check_support.format_loop, hget]
        rw [if_pos hm]
      · constructor
        · intro _
          exact ⟨i, formats[i], le_refl _, by omega, hget, hm.1, hm.2⟩
        · intro _
          rfl
    · obtain ⟨b, hb, hiff⟩ := ih (i + 1) (by omega)
      refine ⟨b, ?_, ?_⟩
      · simp only [check_support.format_loop, hget]
        rw [if_neg hm]
        exact hb
      · rw [hiff]
        constructor
        · rintro ⟨j, f, h1, h2, h3, h4, h5⟩
          exact ⟨j, f, by omega, by omega, h3, h4, h5⟩
        · rintro ⟨j, f, h1, h2, h3, h4, h5⟩
          by_cases hji : j = i
          · subst hji
            rw [hget] at h3
            cases h3
            exact absurd ⟨h4, h5⟩ hm
          · exact ⟨j, f, by omega, by omega, h3, h4, h5⟩

theorem check_support_mode_loop_spec (modes : List Nat) (present_mode : Nat) :
    ∀ (remaining i : Nat), i + remaining ≤ modes.length →
      ∃ b, check_support.mode_loop modes present_mode remaining i = some b ∧
        (b = true ↔ ∃ j, i ≤ j ∧ j < i + remaining ∧ modes[j]? = some present_mode) := by
  intro remaining
  induction remaining with
  | zero =>
    intro i _
    refine ⟨false, rfl, ?_⟩
    constructor
    · intro h
      cases h
    · rintro ⟨j, h1, h2, _⟩
      omega
  | succ n ih =>
    intro i hlen
    have hi : i < modes.length := by omega
    have hget : modes[i]? = some modes[i] := List.getElem?_eq_getElem hi
    by_cases hm : modes[i] = present_mode
    · refine ⟨true, ?_, ?_⟩
      · simp only [check_support.mode_loop, hget]
        rw [if_pos hm]
      · constructor
        · intro _
          exact ⟨i, le_refl _, by omega, by rw [hget, hm]⟩
        · intro _
          rfl
    · obtain ⟨b, hb, hiff⟩ := ih (i + 1) (by omega)
      refine ⟨b, ?_, ?_⟩
      · simp only [check_support.mode_loop, hget]
        rw [if_neg hm]
        exact hb
      · rw [hiff]
        constructor
        · rintro ⟨j, h1, h2, h3⟩
          exact ⟨j, by omega, by omega, h3⟩
        · rintro ⟨j, h1, h2, h3⟩
          by_cases hji : j = i
          · subst hji
            rw [hget] at h3
            cases h3
            exact absurd rfl hm
          · exact ⟨j, by omega, by omega, h3⟩

/-- C5: when the four enumeration calls return `VK_SUCCESS` (each storing no
more entries than the array holds), `check_support` returns
`VK_ERROR_FORMAT_NOT_SUPPORTED` if the requested (format, colour space) pair is
not listed, whatever the present modes; `VK_ERROR_UNKNOWN` if the pair is listed
and the present mode is not; and `VK_SUCCESS` exactly when both are listed. -/
theorem check_support_precedence (formats_native : NativeEnumeration VkSurfaceFormatKHR)
    (modes_native : NativeEnumeration Nat)
    (surface_format surface_color_space present_mode : Nat)
    (hf1 : formats_native.count_status = VK_SUCCESS)
    (hf2 : formats_native.fill_status = VK_SUCCESS)
    (hm1 : modes_native.count_status = VK_SUCCESS)
    (hm2 : modes_native.fill_status = VK_SUCCESS)
    (hfcap : formats_native.written.length ≤ formats_native.count)
    (hmcap : modes_native.written.length ≤ modes_native.count) :
    (¬ format_listed formats_native.written surface_format surface_color_space →
      check_support formats_native modes_native surface_format surface_color_space present_mode
        = some VK_ERROR_FORMAT_NOT_SUPPORTED) ∧
    (format_listed formats_native.written surface_format surface_color_space →
      present_mode ∉ modes_native.written →
      check_support formats_native modes_native surface_format surface_color_space present_mode
        = some VK_ERROR_UNKNOWN) ∧
    (check_support formats_native modes_native surface_format surface_color_space present_mode
        = some VK_SUCCESS ↔
      format_listed formats_native.written surface_format surface_color_space ∧
        present_mode ∈ modes_native.written) := by
  obtain ⟨b, hb, hbiff⟩ := check_support_format_loop_spec
    (array_after_fill ⟨0, 0⟩ formats_native.count formats_native.written)
    surface_format surface_color_space formats_native.written.length 0
    (by rw [array_after_fill_length]; omega)
  obtain ⟨c, hc, hciff⟩ := check_support_mode_loop_spec
    (array_after_fill 0 modes_native.count modes_native.written)
    present_mode modes_native.written.length 0
    (by rw [array_after_fill_length]; omega)
  have hlisted : b = true ↔
      format_listed formats_native.written surface_format surface_color_space := by
    rw [hbiff]
    constructor
    · rintro ⟨j, f, _, hj, hget, h4, h5⟩
      rw [array_after_fill_getElem? _ _ _ hfcap j (by omega)] at hget
      exact ⟨f, List.getElem?_mem hget, h4, h5⟩
    · rintro ⟨f, hmem, h4, h5⟩
      obtain ⟨j, hget⟩ := List.mem_iff_getElem?.mp hmem
      have hj : j < formats_native.written.length := by
        obtain ⟨hlt, _⟩ := List.getElem?_eq_some.mp hget
        exact hlt
      refine ⟨j, f, Nat.zero_le _, by omega, ?_, h4, h5⟩
      rw [array_after_fill_getElem? _ _ _ hfcap j hj]
      exact hget
  have hmode : c = true ↔ present_mode ∈ modes_native.written := by
    rw [hciff]
    constructor
    · rintro ⟨j, _, hj, hget⟩
      rw [array_after_fill_getElem? _ _ _ hmcap j (by omega)] at hget
      exact List.getElem?_mem hget
    · intro hmem
      obtain ⟨j, hget⟩ := List.mem_iff_getElem?.mp hmem
      have hj : j < modes_native.written.length := by
        obtain ⟨hlt, _⟩ := List.getElem?_eq_some.mp hget
        exact hlt
      refine ⟨j, Nat.zero_le _, by omega, ?_⟩
      rw [array_after_fill_getElem? _ _ _ hmcap j hj]
      exact hget
  have hval : check_support formats_native modes_native surface_format surface_color_space
      present_mode =
        some (if b = false then VK_ERROR_FORMAT_NOT_SUPPORTED
          else if c = true then VK_SUCCESS else VK_ERROR_UNKNOWN) := by
    unfold check_support
    unfold VK_SUCCESS at hf1 hf2 hm1 hm2
    simp only [hf1, hf2, hm1, hm2, ne_eq, not_true_eq_false, if_false, hb, hc]
    cases b <;> simp
  rw [hval]
  refine ⟨?_, ?_, ?_⟩
  · intro hnot
    have hbf : b = false := by
      cases b
      · rfl
      · exact absurd (hlisted.mp rfl) hnot
    rw [if_pos hbf]
  · intro hl hnm
    have hbt : b = true := hlisted.mpr hl
    have hcf : ¬ c = true := fun h => hnm (hmode.mp h)
    rw [if_neg (by rw [hbt]; decide), if_neg hcf]
  · rw [← hlisted, ← hmode]
    cases b <;> cases c <;> decide

/-- Witness of C5: two listed formats, two listed present modes, the request
`(44, 0)` with present mode `2` is supported. -/
theorem check_support_precedence_witness :
    check_support ⟨VK_SUCCESS, 2, VK_SUCCESS, [⟨37, 0⟩, ⟨44, 0⟩]⟩
        ⟨VK_SUCCESS, 2, VK_SUCCESS, [0, 2]⟩ 44 0 2 = some VK_SUCCESS ∧
    check_support ⟨VK_SUCCESS, 2, VK_SUCCESS, [⟨37, 0⟩, ⟨44, 0⟩]⟩
        ⟨VK_SUCCESS, 2, VK_SUCCESS, [0, 2]⟩ 50 0 2 = some VK_ERROR_FORMAT_NOT_SUPPORTED ∧
    check_support ⟨VK_SUCCESS, 2, VK_SUCCESS, [⟨37, 0⟩, ⟨44, 0⟩]⟩
        ⟨VK_SUCCESS, 2, VK_SUCCESS, [0, 2]⟩ 44 0 3 = some VK_ERROR_UNKNOWN ∧
    (check_support ⟨VK_SUCCESS, 2, VK_SUCCESS, [⟨37, 0⟩, ⟨44, 0⟩]⟩
        ⟨VK_SUCCESS, 2, VK_SUCCESS, [0, 2]⟩ 44 0 2 = some VK_SUCCESS ↔
      format_listed [⟨37, 0⟩, ⟨44, 0⟩] 44 0 ∧ 2 ∈ [0, 2]) :=
  ⟨by decide, by decide, by decide,
    (check_support_precedence ⟨VK_SUCCESS, 2, VK_SUCCESS, [⟨37, 0⟩, ⟨44, 0⟩]⟩
      ⟨VK_SUCCESS, 2, VK_SUCCESS, [0, 2]⟩ 44 0 2 rfl rfl rfl rfl (by decide) (by decide)).2.2⟩

theorem and_typebit_ne_zero_iff (bits i : Nat) :
    bits &&& (1 <<< i) ≠ 0 ↔ bits.testBit i = true := by
  rw [Nat.one_shiftLeft]
  constructor
  · intro h
    obtain ⟨j, hj⟩ := Nat.ne_zero_implies_bit_true h
    rw [Nat.testBit_and, Nat.testBit_two_pow] at hj
    simp only [Bool.and_eq_true, decide_eq_true_eq] at hj
    obtain ⟨hb, hij⟩ := hj
    rw [hij]
    exact hb
  · intro h hz
    have hbit : (bits &&& 2 ^ i).testBit i = true := by
      rw [Nat.testBit_and, Nat.testBit_two_pow_self, h]
      rfl
    rw [hz, Nat.zero_testBit] at hbit
    cases hbit

theorem allocate_memory_loop_spec (requirements : VkMemoryRequirements) (desired : Nat)
    (props : VkPhysicalDeviceMemoryProperties) :
    ∀ (remaining i memoryTypeIndex : Nat), i + remaining ≤ 32 →
      i + remaining ≤ props.memoryTypes.length →
      ∃ r, allocate_memory.loop requirements desired props remaining i memoryTypeIndex = some r ∧
        ((r = memoryTypeIndex ∧
            ∀ j, i ≤ j → j < i + remaining → ¬ memory_type_matches requirements desired props j) ∨
         (i ≤ r ∧ r < i + remaining ∧ memory_type_matches requirements desired props r ∧
            ∀ j, r < j → j < i + remaining →
              ¬ memory_type_matches requirements desired props j)) := by
  intro remaining
  induction remaining with
  | zero =>
    intro i idx _ _
    refine ⟨idx, rfl, Or.inl ⟨rfl, ?_⟩⟩
    intro j h1 h2
    omega
  | succ n ih =>
    intro i idx h32 hlen
    have hi32 : ¬ 32 ≤ i := by omega
    have hi : i < props.memoryTypes.length := by omega
    have hget : props.memoryTypes[i]? = some props.memoryTypes[i] :=
      List.getElem?_eq_getElem hi
    by_cases hm : memory_type_matches requirements desired props i
    · have hbit : requirements.memoryTypeBits &&& (1 <<< i) ≠ 0 :=
        (and_typebit_ne_zero_iff _ _).mpr hm.1
      have hflags : (props.memoryTypes[i]).propertyFlags &&& desired = desired := by
        obtain ⟨mtype, h1, h2⟩ := hm.2
        rw [hget] at h1
        cases h1
        exact h2
      have hstep : allocate_memory.loop requirements desired props (n + 1) i idx =
          allocate_memory.loop requirements desired props n (i + 1) i := by
        simp only [allocate_memory.loop, if_neg hi32, if_pos hbit, hget, if_pos hflags]
      obtain ⟨r, hr, hcase⟩ := ih (i + 1) i (by omega) (by omega)
      refine ⟨r, by rw [hstep]; exact hr, Or.inr ?_⟩
      rcases hcase with ⟨h1, h2⟩ | ⟨h1, h2, h3, h4⟩
      · subst h1
        refine ⟨le_refl _, by omega, hm, ?_⟩
        intro j hj1 hj2
        exact h2 j (by omega) (by omega)
      · refine ⟨by omega, by omega, h3, ?_⟩
        intro j hj1 hj2
        exact h4 j hj1 (by omega)
    · have hstep : allocate_memory.loop requirements desired props (n + 1) i idx =
          allocate_memory.loop requirements desired props n (i + 1) idx := by
        by_cases hbit : requirements.memoryTypeBits &&& (1 <<< i) ≠ 0
        · have hflags : ¬ (props.memoryTypes[i]).propertyFlags &&& desired = desired := by
            intro h
            exact hm ⟨(and_typebit_ne_zero_iff _ _).mp hbit, props.memoryTypes[i], hget, h⟩
          simp only [allocate_memory.loop, if_neg hi32, if_pos hbit, hget, if_neg hflags]
        · simp only [allocate_memory.loop, if_neg hi32, if_neg hbit]
      obtain ⟨r, hr, hcase⟩ := ih (i + 1) idx (by omega) (by omega)
      refine ⟨r, by rw [hstep]; exact hr, ?_⟩
      rcases hcase with ⟨h1, h2⟩ | ⟨h1, h2, h3, h4⟩
      · left
        refine ⟨h1, ?_⟩
        intro j hj1 hj2
        by_cases hji : j = i
        · subst hji
          exact hm
        · exact h2 j (by omega) (by omega)
      · right
        refine ⟨by omega, by omega, h3, ?_⟩
        intro j hj1 hj2
        exact h4 j hj1 (by omega)

/-- C6: for a memory-type table of at most `VK_MAX_MEMORY_TYPES` readable
entries with at least one eligible type, `allocate_memory` calls
`vkAllocateMemory` with the greatest eligible index as `memoryTypeIndex`
(the last match wins) and the required size as `allocationSize`. -/
theorem allocate_memory_last_match (requirements : VkMemoryRequirements)
    (vkAllocateMemory : VkMemoryAllocateInfo → VkResult × Nat)
    (desired : Nat) (props : VkPhysicalDeviceMemoryProperties)
    (hcount : props.memoryTypeCount ≤ VK_MAX_MEMORY_TYPES)
    (hlen : props.memoryTypeCount ≤ props.memoryTypes.length)
    (hex : ∃ i, eligible_memory_type requirements desired props i) :
    ∃ info, allocate_memory requirements vkAllocateMemory desired props =
        some (info, vkAllocateMemory info) ∧
      info.allocationSize = requirements.size ∧
      eligible_memory_type requirements desired props info.memoryTypeIndex ∧
      ∀ j, eligible_memory_type requirements desired props j → j ≤ info.memoryTypeIndex := by
  unfold VK_MAX_MEMORY_TYPES at hcount
  obtain ⟨r, hr, hcase⟩ := allocate_memory_loop_spec requirements desired props
    props.memoryTypeCount 0 0 (by omega) (by omega)
  obtain ⟨i, hi1, hi2, hi3⟩ := hex
  refine ⟨⟨VK_STRUCTURE_TYPE_MEMORY_ALLOCATE_INFO, requirements.size, r⟩, ?_, rfl, ?_, ?_⟩
  · unfold allocate_memory
    rw [hr]
  · show eligible_memory_type requirements desired props r
    rcases hcase with ⟨_, h2⟩ | ⟨_, h2, h3, _⟩
    · exact absurd ⟨hi2, hi3⟩ (h2 i (Nat.zero_le _) (by omega))
    · exact ⟨by omega, h3.1, h3.2⟩
  · intro j hj
    show j ≤ r
    rcases hcase with ⟨_, h2⟩ | ⟨_, _, _, h4⟩
    · exact absurd ⟨hi2, hi3⟩ (h2 i (Nat.zero_le _) (by omega))
    · by_contra hlt
      exact h4 j (by omega) (by have := hj.1; omega) ⟨hj.2.1, hj.2.2⟩

/-- Witness of C6: in `sample_memory_properties` exactly types 2 and 5 are
eligible for `sample_memory_requirements` and the desired flags `6`; index 5 is
passed to `vkAllocateMemory`. -/
theorem allocate_memory_last_match_witness :
    (∀ i, eligible_memory_type sample_memory_requirements 6 sample_memory_properties i ↔
      i = 2 ∨ i = 5) ∧
    allocate_memory sample_memory_requirements (fun _ => (VK_SUCCESS, 77)) 6
        sample_memory_properties
      = some (⟨VK_STRUCTURE_TYPE_MEMORY_ALLOCATE_INFO, 256, 5⟩, (VK_SUCCESS, 77)) ∧
    ∃ info, allocate_memory sample_memory_requirements (fun _ => (VK_SUCCESS, 77)) 6
        sample_memory_properties = some (info, (fun _ => (VK_SUCCESS, 77)) info) ∧
      info.allocationSize = sample_memory_requirements.size ∧
      eligible_memory_type sample_memory_requirements 6 sample_memory_properties
        info.memoryTypeIndex ∧
      ∀ j, eligible_memory_type sample_memory_requirements 6 sample_memory_properties j →
        j ≤ info.memoryTypeIndex := by
  have h2 : eligible_memory_type sample_memory_requirements 6 sample_memory_properties 2 :=
    ⟨by decide, by decide, ⟨7, 1⟩, by decide, by decide⟩
  have h5 : eligible_memory_type sample_memory_requirements 6 sample_memory_properties 5 :=
    ⟨by decide, by decide, ⟨6, 1⟩, by decide, by decide⟩
  refine ⟨?_, by decide, ?_⟩
  · intro i
    constructor
    · rintro ⟨hi, hbit, _⟩
      have hi6 : i < 6 := hi
      have hbit36 : Nat.testBit 36 i = true := hbit
      interval_cases i
      · exact absurd hbit36 (by decide)
      · exact absurd hbit36 (by decide)
      · exact Or.inl rfl
      · exact absurd hbit36 (by decide)
      · exact absurd hbit36 (by decide)
      · exact Or.inr rfl
    · rintro (rfl | rfl)
      · exact h2
      · exact h5
  · exact allocate_memory_last_match sample_memory_requirements (fun _ => (VK_SUCCESS, 77)) 6
      sample_memory_properties (by decide) (by decide) ⟨5, h5⟩

/-- Without any eligible type the loop never assigns `info.memoryTypeIndex`:
`vkAllocateMemory` is still called, with the zero-initialised index 0. -/
theorem allocate_memory_no_match (requirements : VkMemoryRequirements)
    (vkAllocateMemory : VkMemoryAllocateInfo → VkResult × Nat)
    (desired : Nat) (props : VkPhysicalDeviceMemoryProperties)
    (hcount : props.memoryTypeCount ≤ VK_MAX_MEMORY_TYPES)
    (hlen : props.memoryTypeCount ≤ props.memoryTypes.length)
    (hnone : ∀ i, ¬ eligible_memory_type requirements desired props i) :
    allocate_memory requirements vkAllocateMemory desired props =
      some (⟨VK_STRUCTURE_TYPE_MEMORY_ALLOCATE_INFO, requirements.size, 0⟩,
        vkAllocateMemory ⟨VK_STRUCTURE_TYPE_MEMORY_ALLOCATE_INFO, requirements.size, 0⟩) := by
  unfold VK_MAX_MEMORY_TYPES at hcount
  obtain ⟨r, hr, hcase⟩ := allocate_memory_loop_spec requirements desired props
    props.memoryTypeCount 0 0 (by omega) (by omega)
  have hr0 : r = 0 := by
    rcases hcase with ⟨h1, _⟩ | ⟨_, h2, h3, _⟩
    · exact h1
    · exact absurd ⟨by omega, h3.1, h3.2⟩ (hnone r)
  unfold allocate_memory
  rw [hr, hr0]

/-- C7 (failing input): one memory type, allowed by the bitmask but without the
desired flag `2`, so no type is eligible. `allocate_memory` still calls
`vkAllocateMemory`, with `memoryTypeIndex = 0`: the very descriptor it passes
when type 0 is eligible (second table), so no sentinel marks the missing match. -/
theorem allocate_memory_no_match_uses_index_zero :
    (∀ i, ¬ eligible_memory_type ⟨64, 16, 1⟩ 2 ⟨1, ⟨0, 0⟩ :: List.replicate 31 ⟨0, 0⟩⟩ i) ∧
    allocate_memory ⟨64, 16, 1⟩ (fun _ => (VK_SUCCESS, 9)) 2
        ⟨1, ⟨0, 0⟩ :: List.replicate 31 ⟨0, 0⟩⟩
      = some (⟨VK_STRUCTURE_TYPE_MEMORY_ALLOCATE_INFO, 64, 0⟩, (VK_SUCCESS, 9)) ∧
    eligible_memory_type ⟨64, 16, 1⟩ 2 ⟨1, ⟨2, 0⟩ :: List.replicate 31 ⟨0, 0⟩⟩ 0 ∧
    allocate_memory ⟨64, 16, 1⟩ (fun _ => (VK_SUCCESS, 9)) 2
        ⟨1, ⟨2, 0⟩ :: List.replicate 31 ⟨0, 0⟩⟩
      = some (⟨VK_STRUCTURE_TYPE_MEMORY_ALLOCATE_INFO, 64, 0⟩, (VK_SUCCESS, 9)) := by
  refine ⟨?_, by decide, ⟨by decide, by decide, ⟨2, 0⟩, by decide, by decide⟩, by decide⟩
  rintro i ⟨hi, _, mtype, hget, hflags⟩
  have hi0 : i = 0 := by
    have : i < 1 := hi
    omega
  subst hi0
  have hm : mtype = ⟨0, 0⟩ := by
    have h : some (⟨0, 0⟩ : VkMemoryType) = some mtype := hget
    cases h
    rfl
  subst hm
  revert hflags
  decide

/-- C8 as stated fails: `commandBufferCount` is a `uint32_t`, so for a list of
`2^32` command buffers the descriptor carries the count 0, not the list length. -/
theorem render_submit_command_count_wraps :
    (render_submit (fun _ => VK_SUCCESS) 1 (List.replicate 4294967296 7) 2 0
        0).1.pSubmits.commandBufferCount
      ≠ (List.replicate 4294967296 7).length := by
  have hcount : (render_submit (fun _ => VK_SUCCESS) 1 (List.replicate 4294967296 7) 2 0
      0).1.pSubmits.commandBufferCount = to_uint32 (List.replicate 4294967296 7).length := by
    simp only [render_submit, VK_NULL_HANDLE, ne_eq, not_true_eq_false, if_false]
  rw [hcount, List.length_replicate]
  decide

/-- C8 (amended): the descriptor built by `render_submit` has
`waitSemaphoreCount = 0` and no wait pointer when `wait` is the null handle and
count 1 pointing at `wait` otherwise, likewise for `signal`;
`commandBufferCount` is the list length converted to `uint32_t`, which is the
list length for every list of fewer than `2^32` entries; one descriptor and the
given fence are passed to `vkQueueSubmit`, whose status is returned. -/
theorem render_submit_descriptor (vkQueueSubmit : QueueSubmitCall → VkResult) (queue : Nat)
    (commands : List Nat) (fence wait signal : Nat) :
    ((render_submit vkQueueSubmit queue commands fence wait signal).1.pSubmits.waitSemaphoreCount
      = if wait = VK_NULL_HANDLE then 0 else 1) ∧
    ((render_submit vkQueueSubmit queue commands fence wait signal).1.pSubmits.pWaitSemaphores
      = if wait = VK_NULL_HANDLE then none else some wait) ∧
    ((render_submit vkQueueSubmit queue commands fence wait signal).1.pSubmits.signalSemaphoreCount
      = if signal = VK_NULL_HANDLE then 0 else 1) ∧
    ((render_submit vkQueueSubmit queue commands fence wait signal).1.pSubmits.pSignalSemaphores
      = if signal = VK_NULL_HANDLE then none else some signal) ∧
    ((render_submit vkQueueSubmit queue commands fence wait signal).1.pSubmits.commandBufferCount
      = commands.length % UINT32_SIZE) ∧
    (commands.length < UINT32_SIZE →
      (render_submit vkQueueSubmit queue commands fence wait signal).1.pSubmits.commandBufferCount
        = commands.length) ∧
    ((render_submit vkQueueSubmit queue commands fence wait signal).1.pSubmits.pCommandBuffers
      = commands) ∧
    ((render_submit vkQueueSubmit queue commands fence wait signal).1.fence = fence) ∧
    ((render_submit vkQueueSubmit queue commands fence wait signal).1.queue = queue) ∧
    ((render_submit vkQueueSubmit queue commands fence wait signal).1.submitCount = 1) ∧
    ((render_submit vkQueueSubmit queue commands fence wait signal).2
      = vkQueueSubmit (render_submit vkQueueSubmit queue commands fence wait signal).1) := by
  by_cases hw : wait = VK_NULL_HANDLE <;> by_cases hs : signal = VK_NULL_HANDLE <;>
    simp [render_submit, to_uint32, hw, hs] <;>
    exact fun h => Nat.mod_eq_of_lt h

/-- Witness of C8 (amended): two command buffers, no wait semaphore, signal
semaphore 9, fence 5. -/
theorem render_submit_descriptor_witness :
    render_submit (fun _ => VK_SUCCESS) 1 [31, 32] 5 VK_NULL_HANDLE 9 =
      (⟨1, 1, ⟨VK_STRUCTURE_TYPE_SUBMIT_INFO, 0, none,
          some [VK_PIPELINE_STAGE_COLOR_ATTACHMENT_OUTPUT_BIT], 2, [31, 32], 1, some 9⟩, 5⟩,
        VK_SUCCESS) ∧
    (render_submit (fun _ => VK_SUCCESS) 1 [31, 32] 5 VK_NULL_HANDLE 9).1.pSubmits.waitSemaphoreCount
      = (if VK_NULL_HANDLE = VK_NULL_HANDLE then 0 else 1) :=
  ⟨by decide, (render_submit_descriptor (fun _ => VK_SUCCESS) 1 [31, 32] 5 VK_NULL_HANDLE 9).1⟩

theorem vulkan_presentation_t.views_loop_ok (native : PresentationNative) (images : List Nat)
    (surface_format : Nat)
    (hviews : ∀ i info, (native.vkCreateImageView i info).1 = VK_SUCCESS) :
    ∀ (remaining i : Nat) (image_views : List Nat) (calls : List NativeCall),
      i + remaining ≤ images.length → i + remaining ≤ image_views.length →
      ∃ views, vulkan_presentation_t.views_loop native images surface_format remaining i
          image_views calls =
          some (calls ++ (List.range' i remaining).map
            (vulkan_presentation_t.view_call native images surface_format), .ok views) ∧
        views.length = image_views.length ∧
        ∀ j, views[j]? =
          if i ≤ j ∧ j < i + remaining then
            some (vulkan_presentation_t.view_of native images surface_format j)
          else image_views[j]? := by
  intro remaining
  induction remaining with
  | zero =>
    intro i image_views calls _ _
    refine ⟨image_views, ?_, rfl, ?_⟩
    · simp [vulkan_presentation_t.views_loop]
    · intro j
      rw [if_neg (by omega)]
  | succ n ih =>
    intro i image_views calls himg hlen
    have hi : i < images.length := by omega
    have hiv : i < image_views.length := by omega
    have hget : images[i]? = some images[i] := List.getElem?_eq_getElem hi
    have hgetD : images.getD i VK_NULL_HANDLE = images[i] := by
      rw [List.getD_eq_getElem?_getD, hget]
      rfl
    have hok : ¬ (native.vkCreateImageView i
        (vulkan_presentation_t.image_view_info images[i] surface_format)).1 ≠ 0 := by
      have := hviews i (vulkan_presentation_t.image_view_info images[i] surface_format)
      unfold VK_SUCCESS at this
      rw [this]
      decide
    obtain ⟨views, hv, hvlen, hvget⟩ := ih (i + 1)
      (image_views.set i (native.vkCreateImageView i
        (vulkan_presentation_t.image_view_info images[i] surface_format)).2)
      (calls ++ [NativeCall.vkCreateImageView
        (vulkan_presentation_t.image_view_info images[i] surface_format)
        (native.vkCreateImageView i
          (vulkan_presentation_t.image_view_info images[i] surface_format)).1
        (native.vkCreateImageView i
          (vulkan_presentation_t.image_view_info images[i] surface_format)).2])
      (by omega) (by rw [List.length_set]; omega)
    refine ⟨views, ?_, ?_, ?_⟩
    · simp only [vulkan_presentation_t.views_loop, hget, if_pos hiv, if_neg hok]
      rw [hv, List.range'_succ, List.map_cons, List.append_assoc]
      have hcall : vulkan_presentation_t.view_call native images surface_format i =
          NativeCall.vkCreateImageView
            (vulkan_presentation_t.image_view_info images[i] surface_format)
            (native.vkCreateImageView i
              (vulkan_presentation_t.image_view_info images[i] surface_format)).1
            (native.vkCreateImageView i
              (vulkan_presentation_t.image_view_info images[i] surface_format)).2 := by
        unfold vulkan_presentation_t.view_call vulkan_presentation_t.view_of
        rw [hgetD, hviews i]
      rw [hcall]
      rfl
    · rw [hvlen, List.length_set]
    · intro j
      rw [hvget j, List.getElem?_set]
      by_cases hji : i = j
      · subst hji
        rw [if_neg (by omega), if_pos rfl, if_pos hiv, if_pos (by omega)]
        unfold vulkan_presentation_t.view_of
        rw [hgetD]
      · rw [if_neg hji]
        by_cases hrange : i + 1 ≤ j ∧ j < i + 1 + n
        · rw [if_pos hrange, if_pos (by omega)]
        · rw [if_neg hrange, if_neg (by omega)]

theorem vulkan_presentation_t.framebuffers_loop_ok (native : PresentationNative)
    (renderpass : Nat) (capabilities : VkSurfaceCapabilitiesKHR) (image_views : List Nat)
    (hfbs : ∀ i info, (native.vkCreateFramebuffer i info).1 = VK_SUCCESS) :
    ∀ (remaining i : Nat) (framebuffers : List Nat) (calls : List NativeCall),
      i + remaining ≤ image_views.length → i + remaining ≤ framebuffers.length →
      ∃ fbs, vulkan_presentation_t.framebuffers_loop native renderpass capabilities image_views
          remaining i framebuffers calls =
          some (calls ++ (List.range' i remaining).map
            (vulkan_presentation_t.framebuffer_call native renderpass capabilities image_views),
            .ok fbs) ∧
        fbs.length = framebuffers.length ∧
        ∀ j, fbs[j]? =
          if i ≤ j ∧ j < i + remaining then
            some (vulkan_presentation_t.framebuffer_of native renderpass capabilities
              image_views j)
          else framebuffers[j]? := by
  intro remaining
  induction remaining with
  | zero =>
    intro i framebuffers calls _ _
    refine ⟨framebuffers, ?_, rfl, ?_⟩
    · simp [vulkan_presentation_t.framebuffers_loop]
    · intro j
      rw [if_neg (by omega)]
  | succ n ih =>
    intro i framebuffers calls hviews hlen
    have hi : i < image_views.length := by omega
    have hif : i < framebuffers.length := by omega
    have hget : image_views[i]? = some image_views[i] := List.getElem?_eq_getElem hi
    have hgetD : image_views.getD i VK_NULL_HANDLE = image_views[i] := by
      rw [List.getD_eq_getElem?_getD, hget]
      rfl
    have hok : ¬ (native.vkCreateFramebuffer i
        (vulkan_presentation_t.framebuffer_info renderpass capabilities image_views[i])).1
          ≠ 0 := by
      have := hfbs i
        (vulkan_presentation_t.framebuffer_info renderpass capabilities image_views[i])
      unfold VK_SUCCESS at this
      rw [this]
      decide
    obtain ⟨fbs, hv, hvlen, hvget⟩ := ih (i + 1)
      (framebuffers.set i (native.vkCreateFramebuffer i
        (vulkan_presentation_t.framebuffer_info renderpass capabilities image_views[i])).2)
      (calls ++ [NativeCall.vkCreateFramebuffer
        (vulkan_presentation_t.framebuffer_info renderpass capabilities image_views[i])
        (native.vkCreateFramebuffer i
          (vulkan_presentation_t.framebuffer_info renderpass capabilities image_views[i])).1
        (native.vkCreateFramebuffer i
          (vulkan_presentation_t.framebuffer_info renderpass capabilities image_views[i])).2])
      (by omega) (by rw [List.length_set]; omega)
    refine ⟨fbs, ?_, ?_, ?_⟩
    · simp only [vulkan_presentation_t.framebuffers_loop, hget, if_pos hif, if_neg hok]
      rw [hv, List.range'_succ, List.map_cons, List.append_assoc]
      have hcall : vulkan_presentation_t.framebuffer_call native renderpass capabilities
          image_views i =
          NativeCall.vkCreateFramebuffer
            (vulkan_presentation_t.framebuffer_info renderpass capabilities image_views[i])
            (native.vkCreateFramebuffer i
              (vulkan_presentation_t.framebuffer_info renderpass capabilities
                image_views[i])).1
            (native.vkCreateFramebuffer i
              (vulkan_presentation_t.framebuffer_info renderpass capabilities
                image_views[i])).2 := by
        unfold vulkan_presentation_t.framebuffer_call vulkan_presentation_t.framebuffer_of
        rw [hgetD, hfbs i]
      rw [hcall]
      rfl
    · rw [hvlen, List.length_set]
    · intro j
      rw [hvget j, List.getElem?_set]
      by_cases hji : i = j
      · subst hji
        rw [if_neg (by omega), if_pos rfl, if_pos hif, if_pos (by omega)]
        unfold vulkan_presentation_t.framebuffer_of
        rw [hgetD]
      · rw [if_neg hji]
        by_cases hrange : i + 1 ≤ j ∧ j < i + 1 + n
        · rw [if_pos hrange, if_pos (by omega)]
        · rw [if_neg hrange, if_neg (by omega)]

/-- With `minImageCount = UINT32_MAX` the sum `minImageCount + 1` wraps to 0,
so for a swapchain reporting 3 images the construction creates no view and no
framebuffer, while `min(3, M + 1) = 3`: it succeeds with empty arrays when the
image query accepts the capacity 0, and throws before any creation when the
image query answers `VK_INCOMPLETE`. -/
theorem vulkan_presentation_t.ctor_min_image_count_wraps :
    vulkan_presentation_t.ctor
        ⟨(VK_SUCCESS, 3), fun capacity => (VK_SUCCESS, List.take capacity [101, 102, 103]),
          fun i _ => (VK_SUCCESS, 200 + i), fun i _ => (VK_SUCCESS, 300 + i)⟩
        1 2 ⟨4294967295, ⟨800, 600⟩⟩ 44
      = some ([], .ok ⟨1, 0, [], [], []⟩) ∧
    vulkan_presentation_t.ctor
        ⟨(VK_SUCCESS, 3), fun capacity =>
            (if capacity < 3 then VK_INCOMPLETE else VK_SUCCESS,
              List.take capacity [101, 102, 103]),
          fun i _ => (VK_SUCCESS, 200 + i), fun i _ => (VK_SUCCESS, 300 + i)⟩
        1 2 ⟨4294967295, ⟨800, 600⟩⟩ 44
      = some ([], .error ⟨VK_INCOMPLETE, "vkGetSwapchainImagesKHR"⟩) ∧
    min 3 (4294967295 + 1) = 3 := by
  refine ⟨?_, ?_, ?_⟩
  · rfl
  · rfl
  · decide

/-- The path of the constructor on which the image query is not cut short:
when the image count query answers `N`, the image query with the capacity
`n = min N ((M + 1) mod 2^32)` returns `VK_SUCCESS` and stores `n` images, and
every view and framebuffer creation succeeds, the constructor issues `n`
`vkCreateImageView` calls followed by `n` `vkCreateFramebuffer` calls; view `i`
is created from image `i` and framebuffer `i` has view `i` as its single
attachment. -/
theorem vulkan_presentation_t.ctor_views_and_framebuffers (native : PresentationNative)
    (device renderpass : Nat) (capabilities : VkSurfaceCapabilitiesKHR) (surface_format : Nat)
    (N : Nat) (images : List Nat)
    (hcount : native.images_count = (VK_SUCCESS, N))
    (hfill : native.images_fill (min N (to_uint32 (capabilities.minImageCount + 1)))
      = (VK_SUCCESS, images))
    (himages : images.length = min N (to_uint32 (capabilities.minImageCount + 1)))
    (hviews : ∀ i info, (native.vkCreateImageView i info).1 = VK_SUCCESS)
    (hfbs : ∀ i info, (native.vkCreateFramebuffer i info).1 = VK_SUCCESS) :
    ∃ self, vulkan_presentation_t.ctor native device renderpass capabilities surface_format =
        some ((List.range images.length).map
            (vulkan_presentation_t.view_call native images surface_format) ++
          (List.range images.length).map
            (vulkan_presentation_t.framebuffer_call native renderpass capabilities
              self.image_views), .ok self) ∧
      self.num_images = images.length ∧
      self.images = images ∧
      self.image_views.length = images.length ∧
      self.framebuffers.length = images.length ∧
      (∀ i, i < images.length → ∃ image view,
        images[i]? = some image ∧
        self.image_views[i]? = some view ∧
        (vulkan_presentation_t.image_view_info image surface_format).image = image ∧
        view = (native.vkCreateImageView i
          (vulkan_presentation_t.image_view_info image surface_format)).2 ∧
        (vulkan_presentation_t.framebuffer_info renderpass capabilities view).pAttachments
          = [view] ∧
        self.framebuffers[i]? = some (native.vkCreateFramebuffer i
          (vulkan_presentation_t.framebuffer_info renderpass capabilities view)).2) ∧
      images.length = min N ((capabilities.minImageCount + 1) % UINT32_SIZE) ∧
      (capabilities.minImageCount < UINT32_MAX →
        images.length = min N (capabilities.minImageCount + 1)) := by
  have harr : array_after_fill VK_NULL_HANDLE
      (min N (to_uint32 (capabilities.minImageCount + 1))) images = images := by
    rw [array_after_fill_of_le _ _ _ (by omega), himages]
    simp
  obtain ⟨views, hv, hvlen, hvget⟩ := vulkan_presentation_t.views_loop_ok native images
    surface_format hviews images.length 0 (List.replicate images.length VK_NULL_HANDLE) []
    (by omega) (by rw [List.length_replicate]; omega)
  rw [List.length_replicate] at hvlen
  obtain ⟨fbs, hf, hflen, hfget⟩ := vulkan_presentation_t.framebuffers_loop_ok native
    renderpass capabilities views hfbs images.length 0
    (List.replicate images.length VK_NULL_HANDLE)
    ((List.range' 0 images.length).map
      (vulkan_presentation_t.view_call native images surface_format))
    (by omega) (by rw [List.length_replicate]; omega)
  rw [List.length_replicate] at hflen
  rw [List.nil_append] at hv
  refine ⟨⟨device, images.length, images, views, fbs⟩, ?_, rfl, rfl, hvlen, hflen, ?_, ?_, ?_⟩
  · unfold vulkan_presentation_t.ctor
    unfold VK_SUCCESS at hcount hfill
    simp only [hcount, hfill, harr, ne_eq, not_true_eq_false, if_false, hv, hf,
      List.range_eq_range']
  · intro i hi
    have hget : images[i]? = some images[i] := List.getElem?_eq_getElem hi
    have hgetD : images.getD i VK_NULL_HANDLE = images[i] := by
      rw [List.getD_eq_getElem?_getD, hget]
      rfl
    have hview : views[i]? =
        some (vulkan_presentation_t.view_of native images surface_format i) := by
      rw [hvget i, if_pos ⟨Nat.zero_le _, by omega⟩]
    have hviewD : views.getD i VK_NULL_HANDLE =
        vulkan_presentation_t.view_of native images surface_format i := by
      rw [List.getD_eq_getElem?_getD, hview]
      rfl
    refine ⟨images[i], vulkan_presentation_t.view_of native images surface_format i,
      hget, hview, rfl, ?_, rfl, ?_⟩
    · unfold vulkan_presentation_t.view_of
      rw [hgetD]
    · show fbs[i]? = _
      rw [hfget i, if_pos ⟨Nat.zero_le _, by omega⟩]
      unfold vulkan_presentation_t.framebuffer_of
      rw [hviewD]
  · rw [himages]
    rfl
  · intro hM
    rw [himages]
    unfold to_uint32 UINT32_SIZE
    unfold UINT32_MAX at hM
    rw [Nat.mod_eq_of_lt (by omega)]

/-- An instance of the path above: three images reported, `minImageCount = 2`, so
the capacity is not below the image count; three views and three framebuffers
are created, index for index. -/
theorem vulkan_presentation_t.ctor_views_and_framebuffers_witness :
    vulkan_presentation_t.ctor
        ⟨(VK_SUCCESS, 3), fun capacity => (VK_SUCCESS, List.take capacity [101, 102, 103]),
          fun i _ => (VK_SUCCESS, 200 + i), fun i _ => (VK_SUCCESS, 300 + i)⟩
        1 2 ⟨2, ⟨800, 600⟩⟩ 44
      = some ([.vkCreateImageView (vulkan_presentation_t.image_view_info 101 44) VK_SUCCESS 200,
          .vkCreateImageView (vulkan_presentation_t.image_view_info 102 44) VK_SUCCESS 201,
          .vkCreateImageView (vulkan_presentation_t.image_view_info 103 44) VK_SUCCESS 202,
          .vkCreateFramebuffer
            (vulkan_presentation_t.framebuffer_info 2 ⟨2, ⟨800, 600⟩⟩ 200) VK_SUCCESS 300,
          .vkCreateFramebuffer
            (vulkan_presentation_t.framebuffer_info 2 ⟨2, ⟨800, 600⟩⟩ 201) VK_SUCCESS 301,
          .vkCreateFramebuffer
            (vulkan_presentation_t.framebuffer_info 2 ⟨2, ⟨800, 600⟩⟩ 202) VK_SUCCESS 302],
        .ok ⟨1, 3, [101, 102, 103], [200, 201, 202], [300, 301, 302]⟩) ∧
    ∃ self, self.image_views.length = 3 ∧ self.framebuffers.length = 3 ∧
      vulkan_presentation_t.ctor
        ⟨(VK_SUCCESS, 3), fun capacity => (VK_SUCCESS, List.take capacity [101, 102, 103]),
          fun i _ => (VK_SUCCESS, 200 + i), fun i _ => (VK_SUCCESS, 300 + i)⟩
        1 2 ⟨2, ⟨800, 600⟩⟩ 44
      = some ((List.range 3).map
            (vulkan_presentation_t.view_call
              ⟨(VK_SUCCESS, 3), fun capacity => (VK_SUCCESS, List.take capacity [101, 102, 103]),
                fun i _ => (VK_SUCCESS, 200 + i), fun i _ => (VK_SUCCESS, 300 + i)⟩
              [101, 102, 103] 44) ++
          (List.range 3).map
            (vulkan_presentation_t.framebuffer_call
              ⟨(VK_SUCCESS, 3), fun capacity => (VK_SUCCESS, List.take capacity [101, 102, 103]),
                fun i _ => (VK_SUCCESS, 200 + i), fun i _ => (VK_SUCCESS, 300 + i)⟩
              2 ⟨2, ⟨800, 600⟩⟩ self.image_views), .ok self) := by
  refine ⟨rfl, ?_⟩
  obtain ⟨self, h1, _, _, h4, h5, _⟩ := vulkan_presentation_t.ctor_views_and_framebuffers
    ⟨(VK_SUCCESS, 3), fun capacity => (VK_SUCCESS, List.take capacity [101, 102, 103]),
      fun i _ => (VK_SUCCESS, 200 + i), fun i _ => (VK_SUCCESS, 300 + i)⟩
    1 2 ⟨2, ⟨800, 600⟩⟩ 44 3 [101, 102, 103] rfl rfl rfl (fun _ _ => rfl) (fun _ _ => rfl)
  exact ⟨self, h4, h5, h1⟩

/-- Any non-zero status of the image query with the clamped capacity ends the
construction at line 433: the exception carries that status and no view or
framebuffer is created. -/
theorem vulkan_presentation_t.ctor_query_status_throws (native : PresentationNative)
    (device renderpass : Nat) (capabilities : VkSurfaceCapabilitiesKHR) (surface_format : Nat)
    (hcount : native.images_count.1 = VK_SUCCESS)
    (hfill : (native.images_fill
      (min native.images_count.2 (to_uint32 (capabilities.minImageCount + 1)))).1
        ≠ VK_SUCCESS) :
    vulkan_presentation_t.ctor native device renderpass capabilities surface_format =
      some ([], .error ⟨(native.images_fill
        (min native.images_count.2 (to_uint32 (capabilities.minImageCount + 1)))).1,
        "vkGetSwapchainImagesKHR"⟩) := by
  unfold VK_SUCCESS at hcount hfill
  unfold vulkan_presentation_t.ctor
  simp only [hcount, ne_eq, not_true_eq_false, if_false]
  rw [if_pos hfill]

/-- C9 (failing input): a swapchain of 3 images with `minImageCount = 1`, the
image query answering a capacity below the image count with `VK_INCOMPLETE`
and the images that fit. Line 431 clamps `num_images` to `min(3, 2) = 2`, the
query of line 433 then answers `VK_INCOMPLETE`, and the constructor throws
before creating any view, where `min(N, M + 1) = 2` views are claimed. The
same swapchain with `minImageCount = 2`, where nothing is clamped, gets its 3
views and 3 framebuffers. -/
theorem vulkan_presentation_t.ctor_clamped_query_throws :
    min 3 (1 + 1) = 2 ∧
    vulkan_presentation_t.ctor
        ⟨(VK_SUCCESS, 3), fun capacity =>
            (if capacity < 3 then VK_INCOMPLETE else VK_SUCCESS,
              List.take capacity [101, 102, 103]),
          fun i _ => (VK_SUCCESS, 200 + i), fun i _ => (VK_SUCCESS, 300 + i)⟩
        1 2 ⟨1, ⟨800, 600⟩⟩ 44
      = some ([], .error ⟨VK_INCOMPLETE, "vkGetSwapchainImagesKHR"⟩) ∧
    vulkan_presentation_t.ctor
        ⟨(VK_SUCCESS, 3), fun capacity =>
            (if capacity < 3 then VK_INCOMPLETE else VK_SUCCESS,
              List.take capacity [101, 102, 103]),
          fun i _ => (VK_SUCCESS, 200 + i), fun i _ => (VK_SUCCESS, 300 + i)⟩
        1 2 ⟨2, ⟨800, 600⟩⟩ 44
      = some ([.vkCreateImageView (vulkan_presentation_t.image_view_info 101 44) VK_SUCCESS 200,
          .vkCreateImageView (vulkan_presentation_t.image_view_info 102 44) VK_SUCCESS 201,
          .vkCreateImageView (vulkan_presentation_t.image_view_info 103 44) VK_SUCCESS 202,
          .vkCreateFramebuffer
            (vulkan_presentation_t.framebuffer_info 2 ⟨2, ⟨800, 600⟩⟩ 200) VK_SUCCESS 300,
          .vkCreateFramebuffer
            (vulkan_presentation_t.framebuffer_info 2 ⟨2, ⟨800, 600⟩⟩ 201) VK_SUCCESS 301,
          .vkCreateFramebuffer
            (vulkan_presentation_t.framebuffer_info 2 ⟨2, ⟨800, 600⟩⟩ 202) VK_SUCCESS 302],
        .ok ⟨1, 3, [101, 102, 103], [200, 201, 202], [300, 301, 302]⟩) := by
  refine ⟨by decide, rfl, rfl⟩

theorem vulkan_presentation_t.views_loop_no_destroy (native : PresentationNative)
    (images : List Nat) (surface_format : Nat) :
    ∀ (remaining i : Nat) (image_views : List Nat) (calls : List NativeCall)
      (out : List NativeCall × Except vulkan_exception_t (List Nat)),
      (∀ c ∈ calls, c.is_destroy = false) →
      vulkan_presentation_t.views_loop native images surface_format remaining i image_views
        calls = some out →
      ∀ c ∈ out.1, c.is_destroy = false := by
  intro remaining
  induction remaining with
  | zero =>
    intro i image_views calls out hcalls hrun
    simp only [vulkan_presentation_t.views_loop, Option.some.injEq] at hrun
    subst hrun
    exact hcalls
  | succ n ih =>
    intro i image_views calls out hcalls hrun
    unfold vulkan_presentation_t.views_loop at hrun
    cases hget : images[i]? with
    | none =>
      rw [hget] at hrun
      cases hrun
    | some image =>
      rw [hget] at hrun
      simp only at hrun
      have hcalls2 : ∀ c ∈ calls ++ [NativeCall.vkCreateImageView
          (vulkan_presentation_t.image_view_info image surface_format)
          (native.vkCreateImageView i
            (vulkan_presentation_t.image_view_info image surface_format)).1
          (native.vkCreateImageView i
            (vulkan_presentation_t.image_view_info image surface_format)).2],
          c.is_destroy = false := by
        intro c hc
        rcases List.mem_append.mp hc with h | h
        · exact hcalls c h
        · rw [List.mem_singleton] at h
          subst h
          rfl
      by_cases hlen : i < image_views.length
      · rw [if_pos hlen] at hrun
        by_cases hec : (native.vkCreateImageView i
            (vulkan_presentation_t.image_view_info image surface_format)).1 ≠ 0
        · rw [if_pos hec] at hrun
          simp only [Option.some.injEq] at hrun
          subst hrun
          exact hcalls2
        · rw [if_neg hec] at hrun
          exact ih _ _ _ out hcalls2 hrun
      · rw [if_neg hlen] at hrun
        cases hrun

theorem vulkan_presentation_t.framebuffers_loop_no_destroy (native : PresentationNative)
    (renderpass : Nat) (capabilities : VkSurfaceCapabilitiesKHR) (image_views : List Nat) :
    ∀ (remaining i : Nat) (framebuffers : List Nat) (calls : List NativeCall)
      (out : List NativeCall × Except vulkan_exception_t (List Nat)),
      (∀ c ∈ calls, c.is_destroy = false) →
      vulkan_presentation_t.framebuffers_loop native renderpass capabilities image_views
        remaining i framebuffers calls = some out →
      ∀ c ∈ out.1, c.is_destroy = false := by
  intro remaining
  induction remaining with
  | zero =>
    intro i framebuffers calls out hcalls hrun
    simp only [vulkan_presentation_t.framebuffers_loop, Option.some.injEq] at hrun
    subst hrun
    exact hcalls
  | succ n ih =>
    intro i framebuffers calls out hcalls hrun
    unfold vulkan_presentation_t.framebuffers_loop at hrun
    cases hget : image_views[i]? with
    | none =>
      rw [hget] at hrun
      cases hrun
    | some view =>
      rw [hget] at hrun
      simp only at hrun
      have hcalls2 : ∀ c ∈ calls ++ [NativeCall.vkCreateFramebuffer
          (vulkan_presentation_t.framebuffer_info renderpass capabilities view)
          (native.vkCreateFramebuffer i
            (vulkan_presentation_t.framebuffer_info renderpass capabilities view)).1
          (native.vkCreateFramebuffer i
            (vulkan_presentation_t.framebuffer_info renderpass capabilities view)).2],
          c.is_destroy = false := by
        intro c hc
        rcases List.mem_append.mp hc with h | h
        · exact hcalls c h
        · rw [List.mem_singleton] at h
          subst h
          rfl
      by_cases hlen : i < framebuffers.length
      · rw [if_pos hlen] at hrun
        by_cases hec : (native.vkCreateFramebuffer i
            (vulkan_presentation_t.framebuffer_info renderpass capabilities view)).1 ≠ 0
        · rw [if_pos hec] at hrun
          simp only [Option.some.injEq] at hrun
          subst hrun
          exact hcalls2
        · rw [if_neg hec] at hrun
          exact ih _ _ _ out hcalls2 hrun
      · rw [if_neg hlen] at hrun
        cases hrun

/-- Whatever the native layer answers, the constructor of
`vulkan_presentation_t` issues no destroy call: on every path, the failing
ones included, its trace holds create calls only. -/
theorem vulkan_presentation_t.ctor_no_destroy (native : PresentationNative)
    (device renderpass : Nat) (capabilities : VkSurfaceCapabilitiesKHR) (surface_format : Nat)
    (out : List NativeCall × Except vulkan_exception_t vulkan_presentation_t)
    (hrun : vulkan_presentation_t.ctor native device renderpass capabilities surface_format
      = some out) :
    ∀ c ∈ out.1, c.is_destroy = false := by
  have hnil : ∀ c ∈ ([] : List NativeCall), c.is_destroy = false := by
    intro c hc
    cases hc
  unfold vulkan_presentation_t.ctor at hrun
  by_cases h1 : native.images_count.1 ≠ 0
  · rw [if_pos h1] at hrun
    simp only [Option.some.injEq] at hrun
    subst hrun
    exact hnil
  · rw [if_neg h1] at hrun
    simp only at hrun
    by_cases h2 : (native.images_fill
        (min native.images_count.2 (to_uint32 (capabilities.minImageCount + 1)))).1 ≠ 0
    · rw [if_pos h2] at hrun
      simp only [Option.some.injEq] at hrun
      subst hrun
      exact hnil
    · rw [if_neg h2] at hrun
      cases hv : vulkan_presentation_t.views_loop native
          (array_after_fill VK_NULL_HANDLE
            (min native.images_count.2 (to_uint32 (capabilities.minImageCount + 1)))
            (native.images_fill
              (min native.images_count.2 (to_uint32 (capabilities.minImageCount + 1)))).2)
          surface_format
          (native.images_fill
            (min native.images_count.2 (to_uint32 (capabilities.minImageCount + 1)))).2.length
          0
          (List.replicate
            (native.images_fill
              (min native.images_count.2
                (to_uint32 (capabilities.minImageCount + 1)))).2.length VK_NULL_HANDLE)
          [] with
      | none =>
        rw [hv] at hrun
        cases hrun
      | some vout =>
        have hvcalls := vulkan_presentation_t.views_loop_no_destroy native _ _ _ _ _ _ vout
          hnil hv
        rw [hv] at hrun
        obtain ⟨vcalls, vres⟩ := vout
        cases vres with
        | error e =>
          simp only [Option.some.injEq] at hrun
          subst hrun
          exact hvcalls
        | ok image_views =>
          simp only at hrun
          cases hf : vulkan_presentation_t.framebuffers_loop native renderpass capabilities
              image_views
              (native.images_fill
                (min native.images_count.2
                  (to_uint32 (capabilities.minImageCount + 1)))).2.length
              0
              (List.replicate
                (native.images_fill
                  (min native.images_count.2
                    (to_uint32 (capabilities.minImageCount + 1)))).2.length VK_NULL_HANDLE)
              vcalls with
          | none =>
            rw [hf] at hrun
            cases hrun
          | some fout =>
            have hfcalls := vulkan_presentation_t.framebuffers_loop_no_destroy native _ _ _
              _ _ _ _ fout hvcalls hf
            rw [hf] at hrun
            obtain ⟨fcalls, fres⟩ := fout
            cases fres with
            | error e =>
              simp only [Option.some.injEq] at hrun
              subst hrun
              exact hfcalls
            | ok framebuffers =>
              simp only [Option.some.injEq] at hrun
              subst hrun
              exact hfcalls

/-- C10 (failing inputs): two images. When `vkCreateImageView` fails at
index 1, the constructor throws after having created view 200 and issues no
`vkDestroyImageView`; when `vkCreateFramebuffer` fails at index 1, it throws
after having created views 200, 201 and framebuffer 300 and issues no destroy
call. The created handles are left behind. -/
theorem vulkan_presentation_t.ctor_failure_leaks :
    vulkan_presentation_t.ctor
        ⟨(VK_SUCCESS, 2), fun capacity => (VK_SUCCESS, List.take capacity [101, 102]),
          fun i _ => if i = 1 then (VK_ERROR_UNKNOWN, 0) else (VK_SUCCESS, 200 + i),
          fun i _ => (VK_SUCCESS, 300 + i)⟩
        1 2 ⟨2, ⟨800, 600⟩⟩ 44
      = some ([.vkCreateImageView (vulkan_presentation_t.image_view_info 101 44) VK_SUCCESS 200,
          .vkCreateImageView (vulkan_presentation_t.image_view_info 102 44) VK_ERROR_UNKNOWN 0],
        .error ⟨VK_ERROR_UNKNOWN, "vkCreateImageView"⟩) ∧
    vulkan_presentation_t.ctor
        ⟨(VK_SUCCESS, 2), fun capacity => (VK_SUCCESS, List.take capacity [101, 102]),
          fun i _ => (VK_SUCCESS, 200 + i),
          fun i _ => if i = 1 then (VK_ERROR_UNKNOWN, 0) else (VK_SUCCESS, 300 + i)⟩
        1 2 ⟨2, ⟨800, 600⟩⟩ 44
      = some ([.vkCreateImageView (vulkan_presentation_t.image_view_info 101 44) VK_SUCCESS 200,
          .vkCreateImageView (vulkan_presentation_t.image_view_info 102 44) VK_SUCCESS 201,
          .vkCreateFramebuffer
            (vulkan_presentation_t.framebuffer_info 2 ⟨2, ⟨800, 600⟩⟩ 200) VK_SUCCESS 300,
          .vkCreateFramebuffer
            (vulkan_presentation_t.framebuffer_info 2 ⟨2, ⟨800, 600⟩⟩ 201) VK_ERROR_UNKNOWN 0],
        .error ⟨VK_ERROR_UNKNOWN, "vkCreateFramebuffer"⟩) := by
  constructor
  · rfl
  · rfl

/-- C11: in the constructor of `vulkan_pipeline_t` the layout is created
first. If that fails, the constructor throws that status after this one call,
creating no pipeline. If the layout is created and `vkCreateGraphicsPipelines`
fails, the calls are layout creation, pipeline creation, one
`vkDestroyPipelineLayout` of the created layout, and the exception carries the
status of `vkCreateGraphicsPipelines`. If both succeed, the calls are layout
creation then pipeline creation and the object holds both handles. -/
theorem vulkan_pipeline_t.ctor_layout_then_pipeline (native : PipelineNative)
    (device renderpass : Nat) :
    (native.make_pipeline_layout.1 ≠ VK_SUCCESS →
      vulkan_pipeline_t.ctor native device renderpass =
        ([.make_pipeline_layout native.make_pipeline_layout.1 native.make_pipeline_layout.2],
          .error ⟨native.make_pipeline_layout.1, "vkCreatePipelineLayout"⟩)) ∧
    (native.make_pipeline_layout.1 = VK_SUCCESS →
      (native.vkCreateGraphicsPipelines
        (vulkan_pipeline_t.create_info native.make_pipeline_layout.2 renderpass)).1
          ≠ VK_SUCCESS →
      vulkan_pipeline_t.ctor native device renderpass =
        ([.make_pipeline_layout VK_SUCCESS native.make_pipeline_layout.2,
          .vkCreateGraphicsPipelines
            (vulkan_pipeline_t.create_info native.make_pipeline_layout.2 renderpass)
            (native.vkCreateGraphicsPipelines
              (vulkan_pipeline_t.create_info native.make_pipeline_layout.2 renderpass)).1
            (native.vkCreateGraphicsPipelines
              (vulkan_pipeline_t.create_info native.make_pipeline_layout.2 renderpass)).2,
          .vkDestroyPipelineLayout native.make_pipeline_layout.2],
          .error ⟨(native.vkCreateGraphicsPipelines
            (vulkan_pipeline_t.create_info native.make_pipeline_layout.2 renderpass)).1,
            "vkCreateGraphicsPipelines"⟩)) ∧
    (native.make_pipeline_layout.1 = VK_SUCCESS →
      (native.vkCreateGraphicsPipelines
        (vulkan_pipeline_t.create_info native.make_pipeline_layout.2 renderpass)).1
          = VK_SUCCESS →
      vulkan_pipeline_t.ctor native device renderpass =
        ([.make_pipeline_layout VK_SUCCESS native.make_pipeline_layout.2,
          .vkCreateGraphicsPipelines
            (vulkan_pipeline_t.create_info native.make_pipeline_layout.2 renderpass)
            VK_SUCCESS
            (native.vkCreateGraphicsPipelines
              (vulkan_pipeline_t.create_info native.make_pipeline_layout.2 renderpass)).2],
          .ok ⟨device, native.make_pipeline_layout.2,
            (native.vkCreateGraphicsPipelines
              (vulkan_pipeline_t.create_info native.make_pipeline_layout.2 renderpass)).2⟩)) := by
  unfold VK_SUCCESS
  refine ⟨?_, ?_, ?_⟩
  · intro h1
    unfold vulkan_pipeline_t.ctor
    simp only [if_pos h1]
  · intro h1 h2
    unfold vulkan_pipeline_t.ctor
    simp only [h1, ne_eq, not_true_eq_false, if_false, if_pos h2, List.cons_append,
      List.nil_append]
  · intro h1 h2
    unfold vulkan_pipeline_t.ctor
    simp only [h1, h2, ne_eq, not_true_eq_false, if_false, List.cons_append, List.nil_append]

/-- Witness of C11: layout 11 is created and `vkCreateGraphicsPipelines` answers
`VK_ERROR_UNKNOWN`; layout 11 is destroyed once and that status is thrown. When
the layout creation answers `VK_ERROR_UNKNOWN`, nothing else is called. -/
theorem vulkan_pipeline_t.ctor_layout_then_pipeline_witness :
    vulkan_pipeline_t.ctor ⟨(VK_SUCCESS, 11), fun _ => (VK_ERROR_UNKNOWN, 0)⟩ 1 2 =
      ([.make_pipeline_layout VK_SUCCESS 11,
        .vkCreateGraphicsPipelines (vulkan_pipeline_t.create_info 11 2) VK_ERROR_UNKNOWN 0,
        .vkDestroyPipelineLayout 11],
        .error ⟨VK_ERROR_UNKNOWN, "vkCreateGraphicsPipelines"⟩) ∧
    vulkan_pipeline_t.ctor ⟨(VK_ERROR_UNKNOWN, 0), fun _ => (VK_SUCCESS, 12)⟩ 1 2 =
      ([.make_pipeline_layout VK_ERROR_UNKNOWN 0],
        .error ⟨VK_ERROR_UNKNOWN, "vkCreatePipelineLayout"⟩) ∧
    vulkan_pipeline_t.ctor ⟨(VK_SUCCESS, 11), fun _ => (VK_SUCCESS, 12)⟩ 1 2 =
      ([.make_pipeline_layout VK_SUCCESS 11,
        .vkCreateGraphicsPipelines (vulkan_pipeline_t.create_info 11 2) VK_SUCCESS 12],
        .ok ⟨1, 11, 12⟩) :=
  ⟨(vulkan_pipeline_t.ctor_layout_then_pipeline
      ⟨(VK_SUCCESS, 11), fun _ => (VK_ERROR_UNKNOWN, 0)⟩ 1 2).2.1 rfl (by decide),
    (vulkan_pipeline_t.ctor_layout_then_pipeline
      ⟨(VK_ERROR_UNKNOWN, 0), fun _ => (VK_SUCCESS, 12)⟩ 1 2).1 (by decide),
    (vulkan_pipeline_t.ctor_layout_then_pipeline
      ⟨(VK_SUCCESS, 11), fun _ => (VK_SUCCESS, 12)⟩ 1 2).2.2 rfl rfl⟩

/-- C12: in the constructor of `vulkan_command_pool_t`, if
`vkCreateCommandPool` fails it is the only call made (no allocation, no
destroy) and its status is thrown. If the pool is created and
`vkAllocateCommandBuffers` fails, the calls are pool creation, the allocation,
and one `vkDestroyCommandPool` of the created pool, with no
`vkFreeCommandBuffers`, and the allocation's status is thrown. If both
succeed, the calls are pool creation then allocation. -/
theorem vulkan_command_pool_t.ctor_pool_then_buffers (native : CommandPoolNative)
    (device queue_index count : Nat) :
    ((native.vkCreateCommandPool (vulkan_command_pool_t.pool_info queue_index)).1
        ≠ VK_SUCCESS →
      vulkan_command_pool_t.ctor native device queue_index count =
        ([.vkCreateCommandPool (vulkan_command_pool_t.pool_info queue_index)
            (native.vkCreateCommandPool (vulkan_command_pool_t.pool_info queue_index)).1
            (native.vkCreateCommandPool (vulkan_command_pool_t.pool_info queue_index)).2],
          .error ⟨(native.vkCreateCommandPool
            (vulkan_command_pool_t.pool_info queue_index)).1, "vkCreateCommandPool"⟩)) ∧
    (∀ pool, native.vkCreateCommandPool (vulkan_command_pool_t.pool_info queue_index)
        = (VK_SUCCESS, pool) →
      (native.vkAllocateCommandBuffers
        (vulkan_command_pool_t.allocate_info pool count)).1 ≠ VK_SUCCESS →
      vulkan_command_pool_t.ctor native device queue_index count =
        ([.vkCreateCommandPool (vulkan_command_pool_t.pool_info queue_index) VK_SUCCESS pool,
          .vkAllocateCommandBuffers (vulkan_command_pool_t.allocate_info pool count)
            (native.vkAllocateCommandBuffers
              (vulkan_command_pool_t.allocate_info pool count)).1
            (array_after_fill VK_NULL_HANDLE count
              (native.vkAllocateCommandBuffers
                (vulkan_command_pool_t.allocate_info pool count)).2),
          .vkDestroyCommandPool pool],
          .error ⟨(native.vkAllocateCommandBuffers
            (vulkan_command_pool_t.allocate_info pool count)).1,
            "vkAllocateCommandBuffers"⟩)) ∧
    (∀ pool, native.vkCreateCommandPool (vulkan_command_pool_t.pool_info queue_index)
        = (VK_SUCCESS, pool) →
      (native.vkAllocateCommandBuffers
        (vulkan_command_pool_t.allocate_info pool count)).1 = VK_SUCCESS →
      vulkan_command_pool_t.ctor native device queue_index count =
        ([.vkCreateCommandPool (vulkan_command_pool_t.pool_info queue_index) VK_SUCCESS pool,
          .vkAllocateCommandBuffers (vulkan_command_pool_t.allocate_info pool count)
            VK_SUCCESS
            (array_after_fill VK_NULL_HANDLE count
              (native.vkAllocateCommandBuffers
                (vulkan_command_pool_t.allocate_info pool count)).2)],
          .ok ⟨device, count, pool,
            array_after_fill VK_NULL_HANDLE count
              (native.vkAllocateCommandBuffers
                (vulkan_command_pool_t.allocate_info pool count)).2⟩)) := by
  unfold VK_SUCCESS
  refine ⟨?_, ?_, ?_⟩
  · intro h1
    unfold vulkan_command_pool_t.ctor
    simp only [if_pos h1]
  · intro pool h1 h2
    unfold vulkan_command_pool_t.ctor
    simp only [h1, ne_eq, not_true_eq_false, if_false, if_pos h2, List.cons_append,
      List.nil_append]
  · intro pool h1 h2
    unfold vulkan_command_pool_t.ctor
    simp only [h1, h2, ne_eq, not_true_eq_false, if_false, List.cons_append, List.nil_append]

/-- Witness of C12: pool 21 is created and the allocation of two command
buffers answers `VK_ERROR_UNKNOWN`; pool 21 is destroyed once, nothing is
freed. When the pool creation answers `VK_ERROR_UNKNOWN`, nothing else is
called. -/
theorem vulkan_command_pool_t.ctor_pool_then_buffers_witness :
    vulkan_command_pool_t.ctor ⟨fun _ => (VK_SUCCESS, 21), fun _ => (VK_ERROR_UNKNOWN, [])⟩
        1 0 2 =
      ([.vkCreateCommandPool (vulkan_command_pool_t.pool_info 0) VK_SUCCESS 21,
        .vkAllocateCommandBuffers (vulkan_command_pool_t.allocate_info 21 2)
          VK_ERROR_UNKNOWN [0, 0],
        .vkDestroyCommandPool 21],
        .error ⟨VK_ERROR_UNKNOWN, "vkAllocateCommandBuffers"⟩) ∧
    vulkan_command_pool_t.ctor ⟨fun _ => (VK_ERROR_UNKNOWN, 0), fun _ => (VK_SUCCESS, [31, 32])⟩
        1 0 2 =
      ([.vkCreateCommandPool (vulkan_command_pool_t.pool_info 0) VK_ERROR_UNKNOWN 0],
        .error ⟨VK_ERROR_UNKNOWN, "vkCreateCommandPool"⟩) ∧
    vulkan_command_pool_t.ctor ⟨fun _ => (VK_SUCCESS, 21), fun _ => (VK_SUCCESS, [31, 32])⟩
        1 0 2 =
      ([.vkCreateCommandPool (vulkan_command_pool_t.pool_info 0) VK_SUCCESS 21,
        .vkAllocateCommandBuffers (vulkan_command_pool_t.allocate_info 21 2)
          VK_SUCCESS [31, 32]],
        .ok ⟨1, 2, 21, [31, 32]⟩) :=
  ⟨(vulkan_command_pool_t.ctor_pool_then_buffers
      ⟨fun _ => (VK_SUCCESS, 21), fun _ => (VK_ERROR_UNKNOWN, [])⟩ 1 0 2).2.1 21 rfl
      (by decide),
    (vulkan_command_pool_t.ctor_pool_then_buffers
      ⟨fun _ => (VK_ERROR_UNKNOWN, 0), fun _ => (VK_SUCCESS, [31, 32])⟩ 1 0 2).1 (by decide),
    (vulkan_command_pool_t.ctor_pool_then_buffers
      ⟨fun _ => (VK_SUCCESS, 21), fun _ => (VK_SUCCESS, [31, 32])⟩ 1 0 2).2.2 21 rfl rfl⟩

theorem vulkan_presentation_t.ctor_success (native : PresentationNative)
    (device renderpass : Nat) (capabilities : VkSurfaceCapabilitiesKHR) (surface_format : Nat)
    (N : Nat) (images : List Nat)
    (hcount : native.images_count = (VK_SUCCESS, N))
    (hfill : native.images_fill (min N (to_uint32 (capabilities.minImageCount + 1)))
      = (VK_SUCCESS, images))
    (himages : images.length = min N (to_uint32 (capabilities.minImageCount + 1)))
    (hviews : ∀ i info, (native.vkCreateImageView i info).1 = VK_SUCCESS)
    (hfbs : ∀ i info, (native.vkCreateFramebuffer i info).1 = VK_SUCCESS) :
    ∃ views fbs, vulkan_presentation_t.ctor native device renderpass capabilities
        surface_format =
        some ((List.range images.length).map
            (vulkan_presentation_t.view_call native images surface_format) ++
          (List.range images.length).map
            (vulkan_presentation_t.framebuffer_call native renderpass capabilities views),
          .ok ⟨device, images.length, images, views, fbs⟩) ∧
      (∀ j, j < images.length →
        views[j]? = some (vulkan_presentation_t.view_of native images surface_format j)) ∧
      (∀ j, j < images.length →
        fbs[j]? = some (vulkan_presentation_t.framebuffer_of native renderpass capabilities
          views j)) := by
  have harr : array_after_fill VK_NULL_HANDLE
      (min N (to_uint32 (capabilities.minImageCount + 1))) images = images := by
    rw [array_after_fill_of_le _ _ _ (by omega), himages]
    simp
  obtain ⟨views, hv, hvlen, hvget⟩ := vulkan_presentation_t.views_loop_ok native images
    surface_format hviews images.length 0 (List.replicate images.length VK_NULL_HANDLE) []
    (by omega) (by rw [List.length_replicate]; omega)
  rw [List.length_replicate] at hvlen
  obtain ⟨fbs, hf, hflen, hfget⟩ := vulkan_presentation_t.framebuffers_loop_ok native
    renderpass capabilities views hfbs images.length 0
    (List.replicate images.length VK_NULL_HANDLE)
    ((List.range' 0 images.length).map
      (vulkan_presentation_t.view_call native images surface_format))
    (by omega) (by rw [List.length_replicate]; omega)
  rw [List.nil_append] at hv
  refine ⟨views, fbs, ?_, ?_, ?_⟩
  · unfold vulkan_presentation_t.ctor
    unfold VK_SUCCESS at hcount hfill
    simp only [hcount, hfill, harr, ne_eq, not_true_eq_false, if_false, hv, hf,
      List.range_eq_range']
  · intro j hj
    rw [hvget j, if_pos ⟨Nat.zero_le _, by omega⟩]
  · intro j hj
    rw [hfget j, if_pos ⟨Nat.zero_le _, by omega⟩]

theorem vulkan_presentation_t.dtor_loop_spec (self : vulkan_presentation_t)
    (view_at framebuffer_at : Nat → Nat) (n : Nat)
    (hviews : ∀ j, j < n → self.image_views[j]? = some (view_at j))
    (hfbs : ∀ j, j < n → self.framebuffers[j]? = some (framebuffer_at j)) :
    ∀ (remaining i : Nat) (calls : List NativeCall), i + remaining ≤ n →
      vulkan_presentation_t.dtor_loop self remaining i calls =
        some (calls ++ (List.range' i remaining).flatMap (fun j =>
          [NativeCall.vkDestroyFramebuffer (framebuffer_at j),
            NativeCall.vkDestroyImageView (view_at j)])) := by
  intro remaining
  induction remaining with
  | zero =>
    intro i calls _
    simp [vulkan_presentation_t.dtor_loop]
  | succ k ih =>
    intro i calls hle
    have hv := hviews i (by omega)
    have hf := hfbs i (by omega)
    simp only [vulkan_presentation_t.dtor_loop, hv, hf]
    rw [ih (i + 1) _ (by omega), List.range'_succ, List.flatMap_cons, List.append_assoc]

theorem flatMap_pair_perm {α β : Type} (f g : α → β) (l : List α) :
    List.Perm (l.flatMap (fun a => [f a, g a])) (l.map g ++ l.map f) := by
  induction l with
  | nil => exact List.Perm.refl _
  | cons a l ih =>
    rw [List.flatMap_cons, List.map_cons, List.map_cons]
    have h1 : List.Perm ([f a, g a] ++ l.flatMap (fun a => [f a, g a]))
        (g a :: f a :: (l.map g ++ l.map f)) :=
      (List.Perm.swap (g a) (f a) _).trans ((ih.cons (f a)).cons (g a))
    have h2 : List.Perm (g a :: f a :: (l.map g ++ l.map f))
        (g a :: (l.map g ++ f a :: l.map f)) :=
      (List.perm_middle.symm).cons (g a)
    exact h1.trans h2

/-- C13 as stated fails for two of the three owners. The destructor of
`vulkan_pipeline_t` destroys the layout and then the pipeline, the order in
which they were created, not its reverse. The destructor of
`vulkan_presentation_t` over two images destroys framebuffer 0, view 0,
framebuffer 1, view 1, while the reverse of the creation order is framebuffer 1,
framebuffer 0, view 1, view 0. -/
theorem destructor_order_not_reverse :
    vulkan_pipeline_t.ctor ⟨(VK_SUCCESS, 11), fun _ => (VK_SUCCESS, 12)⟩ 1 2 =
      ([.make_pipeline_layout VK_SUCCESS 11,
        .vkCreateGraphicsPipelines (vulkan_pipeline_t.create_info 11 2) VK_SUCCESS 12],
        .ok ⟨1, 11, 12⟩) ∧
    vulkan_pipeline_t.dtor ⟨1, 11, 12⟩ = [.vkDestroyPipelineLayout 11, .vkDestroyPipeline 12] ∧
    releases_in_reverse_order
        [.make_pipeline_layout VK_SUCCESS 11,
          .vkCreateGraphicsPipelines (vulkan_pipeline_t.create_info 11 2) VK_SUCCESS 12] =
      [.vkDestroyPipeline 12, .vkDestroyPipelineLayout 11] ∧
    vulkan_presentation_t.ctor
        ⟨(VK_SUCCESS, 2), fun capacity => (VK_SUCCESS, List.take capacity [101, 102]),
          fun i _ => (VK_SUCCESS, 200 + i), fun i _ => (VK_SUCCESS, 300 + i)⟩
        1 2 ⟨2, ⟨800, 600⟩⟩ 44 =
      some ([.vkCreateImageView (vulkan_presentation_t.image_view_info 101 44) VK_SUCCESS 200,
          .vkCreateImageView (vulkan_presentation_t.image_view_info 102 44) VK_SUCCESS 201,
          .vkCreateFramebuffer
            (vulkan_presentation_t.framebuffer_info 2 ⟨2, ⟨800, 600⟩⟩ 200) VK_SUCCESS 300,
          .vkCreateFramebuffer
            (vulkan_presentation_t.framebuffer_info 2 ⟨2, ⟨800, 600⟩⟩ 201) VK_SUCCESS 301],
        .ok ⟨1, 2, [101, 102], [200, 201], [300, 301]⟩) ∧
    vulkan_presentation_t.dtor ⟨1, 2, [101, 102], [200, 201], [300, 301]⟩ =
      some [.vkDestroyFramebuffer 300, .vkDestroyImageView 200,
        .vkDestroyFramebuffer 301, .vkDestroyImageView 201] ∧
    releases_in_reverse_order
        [.vkCreateImageView (vulkan_presentation_t.image_view_info 101 44) VK_SUCCESS 200,
          .vkCreateImageView (vulkan_presentation_t.image_view_info 102 44) VK_SUCCESS 201,
          .vkCreateFramebuffer
            (vulkan_presentation_t.framebuffer_info 2 ⟨2, ⟨800, 600⟩⟩ 200) VK_SUCCESS 300,
          .vkCreateFramebuffer
            (vulkan_presentation_t.framebuffer_info 2 ⟨2, ⟨800, 600⟩⟩ 201) VK_SUCCESS 301] =
      [.vkDestroyFramebuffer 301, .vkDestroyFramebuffer 300,
        .vkDestroyImageView 201, .vkDestroyImageView 200] ∧
    vulkan_pipeline_t.dtor ⟨1, 11, 12⟩ ≠
      releases_in_reverse_order
        [.make_pipeline_layout VK_SUCCESS 11,
          .vkCreateGraphicsPipelines (vulkan_pipeline_t.create_info 11 2) VK_SUCCESS 12] ∧
    vulkan_presentation_t.dtor ⟨1, 2, [101, 102], [200, 201], [300, 301]⟩ ≠
      some (releases_in_reverse_order
        [.vkCreateImageView (vulkan_presentation_t.image_view_info 101 44) VK_SUCCESS 200,
          .vkCreateImageView (vulkan_presentation_t.image_view_info 102 44) VK_SUCCESS 201,
          .vkCreateFramebuffer
            (vulkan_presentation_t.framebuffer_info 2 ⟨2, ⟨800, 600⟩⟩ 200) VK_SUCCESS 300,
          .vkCreateFramebuffer
            (vulkan_presentation_t.framebuffer_info 2 ⟨2, ⟨800, 600⟩⟩ 201) VK_SUCCESS 301]) := by
  refine ⟨rfl, rfl, rfl, rfl, rfl, rfl, by decide, by decide⟩

theorem release_view_calls (native : PresentationNative) (images : List Nat)
    (surface_format : Nat) (l : List Nat) :
    (l.map (vulkan_presentation_t.view_call native images surface_format)).filterMap
        NativeCall.release =
      l.map (fun j => NativeCall.vkDestroyImageView
        (vulkan_presentation_t.view_of native images surface_format j)) := by
  induction l with
  | nil => rfl
  | cons a l ih =>
    rw [List.map_cons, List.map_cons, ← ih]
    rfl

theorem release_framebuffer_calls (native : PresentationNative) (renderpass : Nat)
    (capabilities : VkSurfaceCapabilitiesKHR) (image_views : List Nat) (l : List Nat) :
    (l.map (vulkan_presentation_t.framebuffer_call native renderpass capabilities
        image_views)).filterMap NativeCall.release =
      l.map (fun j => NativeCall.vkDestroyFramebuffer
        (vulkan_presentation_t.framebuffer_of native renderpass capabilities image_views j)) := by
  induction l with
  | nil => rfl
  | cons a l ih =>
    rw [List.map_cons, List.map_cons, ← ih]
    rfl

/-- C13 (amended): after a successful construction, the destructor of
`vulkan_command_pool_t` issues the exact reverse of the creation sequence
(free the command buffers, destroy the pool); the destructor of
`vulkan_pipeline_t` releases in creation order (layout, then pipeline); the
destructor of `vulkan_presentation_t` goes through the indices in ascending
order and destroys framebuffer `i`, then view `i`. In each case every created
resource is released exactly once: the destructor's calls are a permutation
of the reverse of the creation sequence. -/
theorem destructor_orders :
    (∀ (native : PipelineNative) (device renderpass : Nat) (calls : List NativeCall)
        (self : vulkan_pipeline_t),
      vulkan_pipeline_t.ctor native device renderpass = (calls, .ok self) →
      vulkan_pipeline_t.dtor self = releases_in_creation_order calls ∧
      List.Perm (vulkan_pipeline_t.dtor self) (releases_in_reverse_order calls)) ∧
    (∀ (native : CommandPoolNative) (device queue_index count : Nat)
        (calls : List NativeCall) (self : vulkan_command_pool_t),
      vulkan_command_pool_t.ctor native device queue_index count = (calls, .ok self) →
      vulkan_command_pool_t.dtor self = releases_in_reverse_order calls) ∧
    (∀ (native : PresentationNative) (device renderpass : Nat)
        (capabilities : VkSurfaceCapabilitiesKHR) (surface_format N : Nat)
        (images : List Nat),
      native.images_count = (VK_SUCCESS, N) →
      native.images_fill (min N (to_uint32 (capabilities.minImageCount + 1)))
        = (VK_SUCCESS, images) →
      images.length = min N (to_uint32 (capabilities.minImageCount + 1)) →
      (∀ i info, (native.vkCreateImageView i info).1 = VK_SUCCESS) →
      (∀ i info, (native.vkCreateFramebuffer i info).1 = VK_SUCCESS) →
      ∃ calls self destroyed,
        vulkan_presentation_t.ctor native device renderpass capabilities surface_format
          = some (calls, .ok self) ∧
        vulkan_presentation_t.dtor self = some destroyed ∧
        destroyed = (List.range images.length).flatMap (fun i =>
          [NativeCall.vkDestroyFramebuffer
              (vulkan_presentation_t.framebuffer_of native renderpass capabilities
                self.image_views i),
            NativeCall.vkDestroyImageView
              (vulkan_presentation_t.view_of native images surface_format i)]) ∧
        List.Perm destroyed (releases_in_reverse_order calls)) := by
  refine ⟨?_, ?_, ?_⟩
  · intro native device renderpass calls self h
    unfold vulkan_pipeline_t.ctor at h
    by_cases h1 : native.make_pipeline_layout.1 ≠ 0
    · rw [if_pos h1] at h
      obtain ⟨_, h⟩ := Prod.mk.inj h
      cases h
    · rw [if_neg h1] at h
      by_cases h2 : (native.vkCreateGraphicsPipelines
          (vulkan_pipeline_t.create_info native.make_pipeline_layout.2 renderpass)).1 ≠ 0
      · simp only [if_pos h2] at h
        obtain ⟨_, h⟩ := Prod.mk.inj h
        cases h
      · simp only [if_neg h2] at h
        obtain ⟨hc, hs⟩ := Prod.mk.inj h
        have hs2 := Except.ok.inj hs
        subst hc
        subst hs2
        constructor
        · rfl
        · exact List.Perm.swap _ _ _
  · intro native device queue_index count calls self h
    unfold vulkan_command_pool_t.ctor at h
    by_cases h1 : (native.vkCreateCommandPool
        (vulkan_command_pool_t.pool_info queue_index)).1 ≠ 0
    · rw [if_pos h1] at h
      obtain ⟨_, h⟩ := Prod.mk.inj h
      cases h
    · rw [if_neg h1] at h
      by_cases h2 : (native.vkAllocateCommandBuffers
          (vulkan_command_pool_t.allocate_info
            (native.vkCreateCommandPool (vulkan_command_pool_t.pool_info queue_index)).2
            count)).1 ≠ 0
      · simp only [if_pos h2] at h
        obtain ⟨_, h⟩ := Prod.mk.inj h
        cases h
      · simp only [if_neg h2] at h
        obtain ⟨hc, hs⟩ := Prod.mk.inj h
        have hs2 := Except.ok.inj hs
        subst hc
        subst hs2
        rfl
  · intro native device renderpass capabilities surface_format N images hcount hfill himages
      hviews hfbs
    obtain ⟨views, fbs, hctor, hvget, hfget⟩ := vulkan_presentation_t.ctor_success native
      device renderpass capabilities surface_format N images hcount hfill himages hviews hfbs
    have hd := vulkan_presentation_t.dtor_loop_spec
      ⟨device, images.length, images, views, fbs⟩
      (vulkan_presentation_t.view_of native images surface_format)
      (vulkan_presentation_t.framebuffer_of native renderpass capabilities views)
      images.length hvget hfget images.length 0 [] (by omega)
    rw [List.nil_append, ← List.range_eq_range'] at hd
    refine ⟨_, _, _, hctor, hd, rfl, ?_⟩
    unfold releases_in_reverse_order
    rw [List.filterMap_reverse, List.filterMap_append, release_view_calls,
      release_framebuffer_calls]
    exact (flatMap_pair_perm
      (fun j => NativeCall.vkDestroyFramebuffer
        (vulkan_presentation_t.framebuffer_of native renderpass capabilities views j))
      (fun j => NativeCall.vkDestroyImageView
        (vulkan_presentation_t.view_of native images surface_format j))
      (List.range images.length)).trans (List.reverse_perm _).symm

/-- Witness of C13 (amended): a command pool with two buffers is torn down in
the exact reverse of its creation; a pipeline in its creation order; a
presentation over two images releases each created view and framebuffer once. -/
theorem destructor_orders_witness :
    vulkan_command_pool_t.ctor ⟨fun _ => (VK_SUCCESS, 21), fun _ => (VK_SUCCESS, [31, 32])⟩
        1 0 2 =
      ([.vkCreateCommandPool (vulkan_command_pool_t.pool_info 0) VK_SUCCESS 21,
        .vkAllocateCommandBuffers (vulkan_command_pool_t.allocate_info 21 2)
          VK_SUCCESS [31, 32]],
        .ok ⟨1, 2, 21, [31, 32]⟩) ∧
    vulkan_command_pool_t.dtor ⟨1, 2, 21, [31, 32]⟩ =
      [.vkFreeCommandBuffers 21 2 [31, 32], .vkDestroyCommandPool 21] ∧
    vulkan_command_pool_t.dtor ⟨1, 2, 21, [31, 32]⟩ =
      releases_in_reverse_order
        [.vkCreateCommandPool (vulkan_command_pool_t.pool_info 0) VK_SUCCESS 21,
          .vkAllocateCommandBuffers (vulkan_command_pool_t.allocate_info 21 2)
            VK_SUCCESS [31, 32]] ∧
    vulkan_pipeline_t.dtor ⟨1, 11, 12⟩ =
      releases_in_creation_order
        [.make_pipeline_layout VK_SUCCESS 11,
          .vkCreateGraphicsPipelines (vulkan_pipeline_t.create_info 11 2) VK_SUCCESS 12] ∧
    ∃ calls self destroyed,
      vulkan_presentation_t.ctor
        ⟨(VK_SUCCESS, 2), fun capacity => (VK_SUCCESS, List.take capacity [101, 102]),
          fun i _ => (VK_SUCCESS, 200 + i), fun i _ => (VK_SUCCESS, 300 + i)⟩
        1 2 ⟨2, ⟨800, 600⟩⟩ 44 = some (calls, .ok self) ∧
      vulkan_presentation_t.dtor self = some destroyed ∧
      List.Perm destroyed (releases_in_reverse_order calls) := by
  refine ⟨rfl, rfl,
    destructor_orders.2.1 ⟨fun _ => (VK_SUCCESS, 21), fun _ => (VK_SUCCESS, [31, 32])⟩
      1 0 2 _ _ rfl,
    (destructor_orders.1 ⟨(VK_SUCCESS, 11), fun _ => (VK_SUCCESS, 12)⟩ 1 2 _ _ rfl).1, ?_⟩
  obtain ⟨calls, self, destroyed, h1, h2, _, h4⟩ := destructor_orders.2.2
    ⟨(VK_SUCCESS, 2), fun capacity => (VK_SUCCESS, List.take capacity [101, 102]),
      fun i _ => (VK_SUCCESS, 200 + i), fun i _ => (VK_SUCCESS, 300 + i)⟩
    1 2 ⟨2, ⟨800, 600⟩⟩ 44 2 [101, 102] rfl rfl rfl (fun _ _ => rfl) (fun _ _ => rfl)
  exact ⟨calls, self, destroyed, h1, h2, h4⟩

theorem create_device_queues_surfaces_loop_spec (query : Nat → Nat → VkResult × Nat) (i : Nat)
    (hquery : ∀ surface, (query i surface).1 = VK_SUCCESS) :
    ∀ (surfaces : List Nat) (support : Nat),
      ∃ v, create_device_queues.surfaces_loop query i surfaces support = .ok v ∧
        (v ≠ 0 ↔ (surfaces = [] → support ≠ 0) ∧
          ∀ surface ∈ surfaces, (query i surface).2 ≠ 0) := by
  intro surfaces
  induction surfaces with
  | nil =>
    intro support
    refine ⟨support, rfl, ?_⟩
    constructor
    · intro h
      exact ⟨fun _ => h, fun s hs => absurd hs (List.not_mem_nil s)⟩
    · intro h
      exact h.1 rfl
  | cons s rest ih =>
    intro support
    have hok : ¬ (query i s).1 ≠ 0 := by
      have := hquery s
      unfold VK_SUCCESS at this
      rw [this]
      decide
    by_cases hz : (query i s).2 = 0
    · refine ⟨0, ?_, ?_⟩
      · simp only [create_device_queues.surfaces_loop, if_neg hok, if_pos hz]
      · constructor
        · intro h
          exact absurd rfl h
        · intro h
          exact absurd hz (h.2 s (List.mem_cons_self s rest))
    · obtain ⟨v, hv, hiff⟩ := ih (query i s).2
      refine ⟨v, ?_, ?_⟩
      · simp only [create_device_queues.surfaces_loop, if_neg hok, if_neg hz]
        exact hv
      · rw [hiff]
        constructor
        · intro h
          refine ⟨fun hnil => absurd hnil (List.cons_ne_nil s rest), ?_⟩
          intro s2 hs2
          rcases List.mem_cons.mp hs2 with heq | hmem
          · rw [heq]
            exact hz
          · exact h.2 s2 hmem
        · intro h
          exact ⟨fun _ => hz, fun s2 hs2 => h.2 s2 (List.mem_cons_of_mem s hs2)⟩

theorem create_device_queues_present_queue_spec (surfaces : List Nat)
    (query : Nat → Nat → VkResult × Nat) (i : Nat) (present : VkDeviceQueueCreateInfo)
    (hquery : ∀ surface, (query i surface).1 = VK_SUCCESS) :
    ∃ after, create_device_queues.present_queue surfaces query i present = .ok after ∧
      (present.queueFamilyIndex = UINT32_MAX → accepts_present query surfaces i →
        after = { present with queueFamilyIndex := i, queueCount := 1 }) ∧
      (¬ (present.queueFamilyIndex = UINT32_MAX ∧ accepts_present query surfaces i) →
        after = present) := by
  obtain ⟨v, hv, hiff⟩ := create_device_queues_surfaces_loop_spec query i hquery surfaces 0
  have hacc : v ≠ 0 ↔ accepts_present query surfaces i := by
    rw [hiff]
    unfold accepts_present
    constructor
    · rintro ⟨h1, h2⟩
      exact ⟨fun hnil => h1 hnil rfl, h2⟩
    · rintro ⟨h1, h2⟩
      exact ⟨fun hnil => absurd hnil h1, h2⟩
  by_cases hp : present.queueFamilyIndex = UINT32_MAX
  · by_cases hv0 : v = 0
    · refine ⟨present, ?_, ?_, fun _ => rfl⟩
      · simp only [create_device_queues.present_queue, if_pos hp, hv, if_pos hv0]
      · intro _ ha
        exact absurd hv0 (hacc.mpr ha)
    · refine ⟨{ present with queueFamilyIndex := i, queueCount := 1 }, ?_, fun _ _ => rfl, ?_⟩
      · simp only [create_device_queues.present_queue, if_pos hp, hv, if_neg hv0]
      · intro hnot
        exact absurd ⟨hp, hacc.mp hv0⟩ hnot
  · refine ⟨present, ?_, fun h => absurd h hp, fun _ => rfl⟩
    simp only [create_device_queues.present_queue, if_neg hp]

theorem create_device_queues_present_queue_cases (surfaces : List Nat)
    (query : Nat → Nat → VkResult × Nat) (i : Nat) (present : VkDeviceQueueCreateInfo) :
    (∃ ec, create_device_queues.present_queue surfaces query i present = .error ec ∧ ec ≠ 0) ∨
    (∃ after, create_device_queues.present_queue surfaces query i present = .ok after ∧
      (after = present ∨
        (present.queueFamilyIndex = UINT32_MAX ∧ after.queueFamilyIndex = i))) := by
  have hloop : ∀ (l : List Nat) (support : Nat),
      (∃ ec, create_device_queues.surfaces_loop query i l support = .error ec ∧ ec ≠ 0) ∨
      (∃ v, create_device_queues.surfaces_loop query i l support = .ok v) := by
    intro l
    induction l with
    | nil =>
      intro support
      exact Or.inr ⟨support, rfl⟩
    | cons s rest ih =>
      intro support
      by_cases hec : (query i s).1 ≠ 0
      · left
        refine ⟨(query i s).1, ?_, hec⟩
        simp only [create_device_queues.surfaces_loop, if_pos hec]
      · by_cases hz : (query i s).2 = 0
        · right
          refine ⟨0, ?_⟩
          simp only [create_device_queues.surfaces_loop, if_neg hec, if_pos hz]
        · have hstep : create_device_queues.surfaces_loop query i (s :: rest) support =
              create_device_queues.surfaces_loop query i rest (query i s).2 := by
            simp only [create_device_queues.surfaces_loop, if_neg hec, if_neg hz]
          rw [hstep]
          exact ih (query i s).2
  by_cases hp : present.queueFamilyIndex = UINT32_MAX
  · rcases hloop surfaces 0 with ⟨ec, hec, hne⟩ | ⟨v, hv⟩
    · left
      refine ⟨ec, ?_, hne⟩
      simp only [create_device_queues.present_queue, if_pos hp, hec]
    · right
      by_cases hv0 : v = 0
      · refine ⟨present, ?_, Or.inl rfl⟩
        simp only [create_device_queues.present_queue, if_pos hp, hv, if_pos hv0]
      · refine ⟨{ present with queueFamilyIndex := i, queueCount := 1 }, ?_, Or.inr ⟨hp, rfl⟩⟩
        simp only [create_device_queues.present_queue, if_pos hp, hv, if_neg hv0]
  · right
    refine ⟨present, ?_, Or.inl rfl⟩
    simp only [create_device_queues.present_queue, if_neg hp]

theorem create_device_queues_loop_take_graphics (properties : List VkQueueFamilyProperties)
    (surfaces : List Nat) (query : Nat → Nat → VkResult × Nat) (n i : Nat)
    (graphics present : VkDeviceQueueCreateInfo) (prop : VkQueueFamilyProperties)
    (hg : graphics.queueFamilyIndex = UINT32_MAX) (hget : properties[i]? = some prop)
    (hbit : prop.queueFlags &&& VK_QUEUE_GRAPHICS_BIT ≠ 0) :
    create_device_queues.loop properties surfaces query (n + 1) i graphics present =
      create_device_queues.loop properties surfaces query n (i + 1)
        { graphics with queueFamilyIndex := i, queueCount := 1 } present := by
  simp only [create_device_queues.loop, if_pos hg, hget, if_pos hbit]

theorem create_device_queues_loop_try_present (properties : List VkQueueFamilyProperties)
    (surfaces : List Nat) (query : Nat → Nat → VkResult × Nat) (n i : Nat)
    (graphics present : VkDeviceQueueCreateInfo)
    (hcase : graphics.queueFamilyIndex ≠ UINT32_MAX ∨
      ∃ prop, properties[i]? = some prop ∧ ¬ prop.queueFlags &&& VK_QUEUE_GRAPHICS_BIT ≠ 0) :
    (∀ ec, create_device_queues.present_queue surfaces query i present = .error ec →
      create_device_queues.loop properties surfaces query (n + 1) i graphics present =
        some ⟨some ec, graphics, present⟩) ∧
    (∀ after, create_device_queues.present_queue surfaces query i present = .ok after →
      create_device_queues.loop properties surfaces query (n + 1) i graphics present =
        create_device_queues.loop properties surfaces query n (i + 1) graphics after) := by
  by_cases hg : graphics.queueFamilyIndex = UINT32_MAX
  · rcases hcase with hne | ⟨prop, hget, hbit⟩
    · exact absurd hg hne
    · constructor
      · intro ec hec
        simp only [create_device_queues.loop, if_pos hg, hget, if_neg hbit, hec]
      · intro after hafter
        simp only [create_device_queues.loop, if_pos hg, hget, if_neg hbit, hafter]
  · constructor
    · intro ec hec
      simp only [create_device_queues.loop, if_neg hg, hec]
    · intro after hafter
      simp only [create_device_queues.loop, if_neg hg, hafter]

theorem create_device_queues_loop_inv (properties : List VkQueueFamilyProperties)
    (surfaces : List Nat) (query : Nat → Nat → VkResult × Nat) :
    ∀ (remaining i : Nat) (graphics present : VkDeviceQueueCreateInfo),
      i + remaining ≤ properties.length → i + remaining ≤ UINT32_MAX →
      (graphics.queueFamilyIndex = UINT32_MAX ∨ graphics.queueFamilyIndex < i) →
      (present.queueFamilyIndex = UINT32_MAX ∨ present.queueFamilyIndex < i) →
      (graphics.queueFamilyIndex = present.queueFamilyIndex →
        graphics.queueFamilyIndex = UINT32_MAX) →
      ∃ sel, create_device_queues.loop properties surfaces query remaining i graphics present
          = some sel ∧
        (∀ ec, sel.returned = some ec → ec ≠ 0) ∧
        (sel.returned = none →
          (sel.graphics.queueFamilyIndex = UINT32_MAX ∨
            sel.graphics.queueFamilyIndex < i + remaining) ∧
          (sel.present.queueFamilyIndex = UINT32_MAX ∨
            sel.present.queueFamilyIndex < i + remaining) ∧
          (sel.graphics.queueFamilyIndex = sel.present.queueFamilyIndex →
            sel.graphics.queueFamilyIndex = UINT32_MAX)) := by
  intro remaining
  induction remaining with
  | zero =>
    intro i graphics present _ _ hg hp hgp
    refine ⟨⟨none, graphics, present⟩, rfl, ?_, fun _ => ⟨hg, hp, hgp⟩⟩
    intro ec hec
    cases hec
  | succ n ih =>
    intro i graphics present hlen hmax hg hp hgp
    have hi : i < properties.length := by omega
    have hget : properties[i]? = some properties[i] := List.getElem?_eq_getElem hi
    have widen : ∀ sel : QueueSelection,
        (sel.returned = none →
          (sel.graphics.queueFamilyIndex = UINT32_MAX ∨
            sel.graphics.queueFamilyIndex < i + 1 + n) ∧
          (sel.present.queueFamilyIndex = UINT32_MAX ∨
            sel.present.queueFamilyIndex < i + 1 + n) ∧
          (sel.graphics.queueFamilyIndex = sel.present.queueFamilyIndex →
            sel.graphics.queueFamilyIndex = UINT32_MAX)) →
        (sel.returned = none →
          (sel.graphics.queueFamilyIndex = UINT32_MAX ∨
            sel.graphics.queueFamilyIndex < i + (n + 1)) ∧
          (sel.present.queueFamilyIndex = UINT32_MAX ∨
            sel.present.queueFamilyIndex < i + (n + 1)) ∧
          (sel.graphics.queueFamilyIndex = sel.present.queueFamilyIndex →
            sel.graphics.queueFamilyIndex = UINT32_MAX)) := by
      intro sel h hret
      obtain ⟨h1, h2, h3⟩ := h hret
      refine ⟨?_, ?_, h3⟩
      · rcases h1 with h | h
        · exact Or.inl h
        · exact Or.inr (by omega)
      · rcases h2 with h | h
        · exact Or.inl h
        · exact Or.inr (by omega)
    by_cases htake : graphics.queueFamilyIndex = UINT32_MAX ∧
        (properties[i]).queueFlags &&& VK_QUEUE_GRAPHICS_BIT ≠ 0
    · rw [create_device_queues_loop_take_graphics properties surfaces query n i graphics
        present properties[i] htake.1 hget htake.2]
      obtain ⟨sel, hsel, hec, hinv⟩ := ih (i + 1)
        { graphics with queueFamilyIndex := i, queueCount := 1 } present
        (by omega) (by omega) (Or.inr (Nat.lt_succ_self i))
        (by
          rcases hp with h | h
          · exact Or.inl h
          · exact Or.inr (by omega))
        (by
          intro heq
          have heq2 : i = present.queueFamilyIndex := heq
          rcases hp with h | h
          · rw [h] at heq2
            omega
          · omega)
      exact ⟨sel, hsel, hec, widen sel hinv⟩
    · have hcase : graphics.queueFamilyIndex ≠ UINT32_MAX ∨
          ∃ prop, properties[i]? = some prop ∧
            ¬ prop.queueFlags &&& VK_QUEUE_GRAPHICS_BIT ≠ 0 := by
        by_cases hgm : graphics.queueFamilyIndex = UINT32_MAX
        · exact Or.inr ⟨properties[i], hget, fun hb => htake ⟨hgm, hb⟩⟩
        · exact Or.inl hgm
      obtain ⟨herr, hok⟩ := create_device_queues_loop_try_present properties surfaces query n i
        graphics present hcase
      rcases create_device_queues_present_queue_cases surfaces query i present with
        ⟨ec, hec, hne⟩ | ⟨after, hafter, hafter_case⟩
      · refine ⟨⟨some ec, graphics, present⟩, herr ec hec, ?_, ?_⟩
        · intro ec2 h2
          cases h2
          exact hne
        · intro h
          cases h
      · rw [hok after hafter]
        have hg2 : graphics.queueFamilyIndex = UINT32_MAX ∨
            graphics.queueFamilyIndex < i + 1 := by
          rcases hg with h | h
          · exact Or.inl h
          · exact Or.inr (by omega)
        have hp2 : after.queueFamilyIndex = UINT32_MAX ∨ after.queueFamilyIndex < i + 1 := by
          rcases hafter_case with h | ⟨_, h⟩
          · rw [h]
            rcases hp with h2 | h2
            · exact Or.inl h2
            · exact Or.inr (by omega)
          · exact Or.inr (by omega)
        have hgp2 : graphics.queueFamilyIndex = after.queueFamilyIndex →
            graphics.queueFamilyIndex = UINT32_MAX := by
          rcases hafter_case with h | ⟨_, h⟩
          · rw [h]
            exact hgp
          · intro heq
            rcases hg with h2 | h2
            · exact h2
            · omega
        obtain ⟨sel, hsel, hec, hinv⟩ := ih (i + 1) graphics after (by omega) (by omega)
          hg2 hp2 hgp2
        exact ⟨sel, hsel, hec, widen sel hinv⟩

theorem create_device_queues_loop_spec (properties : List VkQueueFamilyProperties)
    (surfaces : List Nat) (query : Nat → Nat → VkResult × Nat)
    (hquery : ∀ i surface, (query i surface).1 = VK_SUCCESS) :
    ∀ (remaining i : Nat) (graphics present : VkDeviceQueueCreateInfo),
      i + remaining ≤ properties.length → i + remaining ≤ UINT32_MAX →
      (graphics.queueFamilyIndex = UINT32_MAX ∨ graphics.queueFamilyIndex < i) →
      ∃ sel, create_device_queues.loop properties surfaces query remaining i graphics present
          = some sel ∧
        sel.returned = none ∧
        (graphics.queueFamilyIndex ≠ UINT32_MAX →
          sel.graphics.queueFamilyIndex = graphics.queueFamilyIndex) ∧
        (graphics.queueFamilyIndex = UINT32_MAX →
          (sel.graphics.queueFamilyIndex = UINT32_MAX ∧
            ∀ j, i ≤ j → j < i + remaining → ¬ has_graphics_bit properties j) ∨
          (i ≤ sel.graphics.queueFamilyIndex ∧
            sel.graphics.queueFamilyIndex < i + remaining ∧
            has_graphics_bit properties sel.graphics.queueFamilyIndex ∧
            ∀ j, i ≤ j → j < sel.graphics.queueFamilyIndex →
              ¬ has_graphics_bit properties j)) ∧
        (present.queueFamilyIndex ≠ UINT32_MAX →
          sel.present.queueFamilyIndex = present.queueFamilyIndex) ∧
        (present.queueFamilyIndex = UINT32_MAX →
          (sel.present.queueFamilyIndex = UINT32_MAX ∧
            ∀ j, i ≤ j → j < i + remaining → j ≠ sel.graphics.queueFamilyIndex →
              ¬ accepts_present query surfaces j) ∨
          (i ≤ sel.present.queueFamilyIndex ∧
            sel.present.queueFamilyIndex < i + remaining ∧
            sel.present.queueFamilyIndex ≠ sel.graphics.queueFamilyIndex ∧
            accepts_present query surfaces sel.present.queueFamilyIndex ∧
            ∀ j, i ≤ j → j < sel.present.queueFamilyIndex →
              j ≠ sel.graphics.queueFamilyIndex → ¬ accepts_present query surfaces j)) := by
  intro remaining
  induction remaining with
  | zero =>
    intro i graphics present _ _ _
    refine ⟨⟨none, graphics, present⟩, rfl, rfl, fun _ => rfl, ?_, fun _ => rfl, ?_⟩
    · intro hg
      exact Or.inl ⟨hg, fun j h1 h2 => by omega⟩
    · intro hp
      exact Or.inl ⟨hp, fun j h1 h2 => by omega⟩
  | succ n ih =>
    intro i graphics present hlen hmax hg
    have hi : i < properties.length := by omega
    have hiM : i ≠ UINT32_MAX := by omega
    have hget : properties[i]? = some properties[i] := List.getElem?_eq_getElem hi
    have hbit_iff : has_graphics_bit properties i ↔
        (properties[i]).queueFlags &&& VK_QUEUE_GRAPHICS_BIT ≠ 0 := by
      constructor
      · rintro ⟨p, hp, hpb⟩
        rw [hget] at hp
        cases hp
        exact hpb
      · intro h
        exact ⟨properties[i], hget, h⟩
    by_cases htake : graphics.queueFamilyIndex = UINT32_MAX ∧
        (properties[i]).queueFlags &&& VK_QUEUE_GRAPHICS_BIT ≠ 0
    · rw [create_device_queues_loop_take_graphics properties surfaces query n i graphics
        present properties[i] htake.1 hget htake.2]
      obtain ⟨sel, hsel, hret, hG1, _, hP1, hP2⟩ := ih (i + 1)
        { graphics with queueFamilyIndex := i, queueCount := 1 } present
        (by omega) (by omega) (Or.inr (Nat.lt_succ_self i))
      have hG : sel.graphics.queueFamilyIndex = i := hG1 hiM
      refine ⟨sel, hsel, hret, fun h => absurd htake.1 h, ?_, hP1, ?_⟩
      · intro _
        right
        rw [hG]
        exact ⟨le_refl _, by omega, hbit_iff.mpr htake.2, fun j h1 h2 => by omega⟩
      · intro hp
        rcases hP2 hp with ⟨h1, h2⟩ | ⟨h1, h2, h3, h4, h5⟩
        · left
          refine ⟨h1, ?_⟩
          intro j hj1 hj2 hj3
          have hji : j ≠ i := by
            rw [hG] at hj3
            exact hj3
          exact h2 j (by omega) (by omega) hj3
        · right
          refine ⟨by omega, by omega, h3, h4, ?_⟩
          intro j hj1 hj2 hj3
          have hji : j ≠ i := by
            rw [hG] at hj3
            exact hj3
          exact h5 j (by omega) hj2 hj3
    · have hnobit : graphics.queueFamilyIndex = UINT32_MAX → ¬ has_graphics_bit properties i :=
        fun hgm hb => htake ⟨hgm, hbit_iff.mp hb⟩
      have hcase : graphics.queueFamilyIndex ≠ UINT32_MAX ∨
          ∃ prop, properties[i]? = some prop ∧
            ¬ prop.queueFlags &&& VK_QUEUE_GRAPHICS_BIT ≠ 0 := by
        by_cases hgm : graphics.queueFamilyIndex = UINT32_MAX
        · exact Or.inr ⟨properties[i], hget, fun hb => htake ⟨hgm, hb⟩⟩
        · exact Or.inl hgm
      obtain ⟨_, hok⟩ := create_device_queues_loop_try_present properties surfaces query n i
        graphics present hcase
      obtain ⟨after, hafter, hacc, hrej⟩ := create_device_queues_present_queue_spec surfaces
        query i present (hquery i)
      rw [hok after hafter]
      have hg2 : graphics.queueFamilyIndex = UINT32_MAX ∨
          graphics.queueFamilyIndex < i + 1 := by
        rcases hg with h | h
        · exact Or.inl h
        · exact Or.inr (by omega)
      obtain ⟨sel, hsel, hret, hG1, hG2, hP1, hP2⟩ := ih (i + 1) graphics after
        (by omega) (by omega) hg2
      have hGgoal : graphics.queueFamilyIndex = UINT32_MAX →
          (sel.graphics.queueFamilyIndex = UINT32_MAX ∧
            ∀ j, i ≤ j → j < i + (n + 1) → ¬ has_graphics_bit properties j) ∨
          (i ≤ sel.graphics.queueFamilyIndex ∧
            sel.graphics.queueFamilyIndex < i + (n + 1) ∧
            has_graphics_bit properties sel.graphics.queueFamilyIndex ∧
            ∀ j, i ≤ j → j < sel.graphics.queueFamilyIndex →
              ¬ has_graphics_bit properties j) := by
        intro hgm
        rcases hG2 hgm with ⟨h1, h2⟩ | ⟨h1, h2, h3, h4⟩
        · left
          refine ⟨h1, ?_⟩
          intro j hj1 hj2
          by_cases hji : j = i
          · rw [hji]
            exact hnobit hgm
          · exact h2 j (by omega) (by omega)
        · right
          refine ⟨by omega, by omega, h3, ?_⟩
          intro j hj1 hj2
          by_cases hji : j = i
          · rw [hji]
            exact hnobit hgm
          · exact h4 j (by omega) hj2
      have hGne : sel.graphics.queueFamilyIndex ≠ i := by
        by_cases hgm : graphics.queueFamilyIndex = UINT32_MAX
        · rcases hG2 hgm with ⟨h1, _⟩ | ⟨h1, _, _, _⟩
          · rw [h1]
            exact fun h => hiM h.symm
          · omega
        · rw [hG1 hgm]
          rcases hg with h | h
          · exact absurd h hgm
          · omega
      by_cases hnow : present.queueFamilyIndex = UINT32_MAX ∧ accepts_present query surfaces i
      · have hafter_eq := hacc hnow.1 hnow.2
        have hafter_idx : after.queueFamilyIndex = i := by
          rw [hafter_eq]
        have hP : sel.present.queueFamilyIndex = i := by
          rw [hP1 (by rw [hafter_idx]; exact hiM), hafter_idx]
        refine ⟨sel, hsel, hret, hG1, hGgoal, fun h => absurd hnow.1 h, ?_⟩
        intro _
        right
        rw [hP]
        exact ⟨le_refl _, by omega, fun h => hGne h.symm, hnow.2, fun j h1 h2 => by omega⟩
      · have hafter_eq : after = present := hrej hnow
        rw [hafter_eq] at hP1 hP2
        refine ⟨sel, hsel, hret, hG1, hGgoal, hP1, ?_⟩
        intro hp
        have hrej_i : ¬ accepts_present query surfaces i := fun ha => hnow ⟨hp, ha⟩
        rcases hP2 hp with ⟨h1, h2⟩ | ⟨h1, h2, h3, h4, h5⟩
        · left
          refine ⟨h1, ?_⟩
          intro j hj1 hj2 hj3
          by_cases hji : j = i
          · rw [hji]
            exact hrej_i
          · exact h2 j (by omega) (by omega) hj3
        · right
          refine ⟨by omega, by omega, h3, h4, ?_⟩
          intro j hj1 hj2 hj3
          by_cases hji : j = i
          · rw [hji]
            exact hrej_i
          · exact h5 j (by omega) hj2 hj3

theorem has_graphics_bit_array_after_fill (capacity : Nat)
    (written : List VkQueueFamilyProperties) (hcap : written.length ≤ capacity) (j : Nat)
    (hj : j < written.length) :
    has_graphics_bit (array_after_fill ⟨0, 0, 0⟩ capacity written) j ↔
      has_graphics_bit written j := by
  unfold has_graphics_bit
  rw [array_after_fill_getElem? _ _ _ hcap j hj]

theorem create_device_queues_outcome (features : VkPhysicalDeviceFeatures)
    (families : QueueFamilyNative) (query : Nat → Nat → VkResult × Nat)
    (vkCreateDevice : VkDeviceCreateInfo → VkResult × Nat)
    (surfaces : List Nat) (device : Nat) (graphics present : VkDeviceQueueCreateInfo)
    (sel : QueueSelection)
    (hsel : create_device_queues.loop
      (array_after_fill ⟨0, 0, 0⟩ families.count families.written) surfaces query
      families.written.length 0
      { graphics with
        sType := VK_STRUCTURE_TYPE_DEVICE_QUEUE_CREATE_INFO,
        pQueuePriorities := some global_queue_priority,
        queueFamilyIndex := UINT32_MAX }
      { present with
        sType := VK_STRUCTURE_TYPE_DEVICE_QUEUE_CREATE_INFO,
        pQueuePriorities := some global_queue_priority,
        queueFamilyIndex := UINT32_MAX } = some sel) :
    ∃ out, create_device_queues features families query vkCreateDevice surfaces device
        graphics present = some out ∧
      out.queues = [sel.graphics, sel.present] ∧
      (∀ ec, sel.returned = some ec → out.status = ec ∧ out.call = none) ∧
      (sel.returned = none →
        (sel.graphics.queueFamilyIndex > families.written.length ∨
          sel.present.queueFamilyIndex > families.written.length) →
        out.status = VK_ERROR_UNKNOWN ∧ out.call = none) ∧
      (∀ info, out.call = some info →
        sel.returned = none ∧
        ¬ sel.graphics.queueFamilyIndex > families.written.length ∧
        ¬ sel.present.queueFamilyIndex > families.written.length ∧
        info.pQueueCreateInfos = [sel.graphics, sel.present] ∧
        out.status = (vkCreateDevice info).1) ∧
      (sel.returned = none →
        ¬ sel.graphics.queueFamilyIndex > families.written.length →
        ¬ sel.present.queueFamilyIndex > families.written.length →
        ∃ info, out.call = some info ∧ out.status = (vkCreateDevice info).1) := by
  unfold create_device_queues
  simp only [hsel]
  cases hret : sel.returned with
  | some ec =>
    refine ⟨_, rfl, rfl, ?_, ?_, ?_, ?_⟩
    · intro ec2 h
      cases h
      exact ⟨rfl, rfl⟩
    · intro h
      cases h
    · intro info h
      cases h
    · intro h
      cases h
  | none =>
    by_cases hG : sel.graphics.queueFamilyIndex > families.written.length
    · simp only [if_pos hG]
      refine ⟨_, rfl, rfl, ?_, fun _ _ => ⟨rfl, rfl⟩, ?_, ?_⟩
      · intro ec h
        cases h
      · intro info h
        cases h
      · intro _ h _
        exact absurd hG h
    · by_cases hP : sel.present.queueFamilyIndex > families.written.length
      · simp only [if_neg hG, if_pos hP]
        refine ⟨_, rfl, rfl, ?_, fun _ _ => ⟨rfl, rfl⟩, ?_, ?_⟩
        · intro ec h
          cases h
        · intro info h
          cases h
        · intro _ _ h
          exact absurd hP h
      · simp only [if_neg hG, if_neg hP]
        refine ⟨_, rfl, rfl, ?_, ?_, ?_, ?_⟩
        · intro ec h
          cases h
        · intro _ h
          rcases h with h | h
          · exact absurd h hG
          · exact absurd h hP
        · intro info h
          cases h
          exact ⟨trivial, hG, hP, rfl, rfl⟩
        · intro _ _ _
          exact ⟨_, rfl, rfl⟩

/-- C14: when every support query succeeds, the surface list is not empty and
the family table holds `count` entries, the two-queue `create_device` ends with
`queues = [g, p]` where the present index of `p` is either the sentinel, no
family below `count` other than the graphics index being supported by every
surface, or the lowest index below `count`, other than the graphics index, on
which every surface reports support; the graphics index of `g` is the lowest
index with the graphics bit, or the sentinel when there is none. -/
theorem create_device_queues_present_family (features : VkPhysicalDeviceFeatures)
    (families : QueueFamilyNative) (query : Nat → Nat → VkResult × Nat)
    (vkCreateDevice : VkDeviceCreateInfo → VkResult × Nat)
    (surfaces : List Nat) (device : Nat) (graphics present : VkDeviceQueueCreateInfo)
    (hquery : ∀ i surface, (query i surface).1 = VK_SUCCESS)
    (hne : surfaces ≠ [])
    (hcap : families.written.length ≤ families.count)
    (hmax : families.written.length ≤ UINT32_MAX) :
    ∃ out g p, create_device_queues features families query vkCreateDevice surfaces device
        graphics present = some out ∧
      out.queues = [g, p] ∧
      ((p.queueFamilyIndex = UINT32_MAX ∧
          ∀ j, j < families.written.length → j ≠ g.queueFamilyIndex →
            ¬ every_surface_supports query surfaces j) ∨
        (p.queueFamilyIndex < families.written.length ∧
          p.queueFamilyIndex ≠ g.queueFamilyIndex ∧
          every_surface_supports query surfaces p.queueFamilyIndex ∧
          ∀ j, j < p.queueFamilyIndex → j ≠ g.queueFamilyIndex →
            ¬ every_surface_supports query surfaces j)) ∧
      ((g.queueFamilyIndex = UINT32_MAX ∧
          ∀ j, j < families.written.length → ¬ has_graphics_bit families.written j) ∨
        (g.queueFamilyIndex < families.written.length ∧
          has_graphics_bit families.written g.queueFamilyIndex ∧
          ∀ j, j < g.queueFamilyIndex → ¬ has_graphics_bit families.written j)) := by
  obtain ⟨sel, hsel, _, _, hG, _, hP⟩ := create_device_queues_loop_spec
    (array_after_fill ⟨0, 0, 0⟩ families.count families.written) surfaces query hquery
    families.written.length 0
    { graphics with
      sType := VK_STRUCTURE_TYPE_DEVICE_QUEUE_CREATE_INFO,
      pQueuePriorities := some global_queue_priority,
      queueFamilyIndex := UINT32_MAX }
    { present with
      sType := VK_STRUCTURE_TYPE_DEVICE_QUEUE_CREATE_INFO,
      pQueuePriorities := some global_queue_priority,
      queueFamilyIndex := UINT32_MAX }
    (by rw [array_after_fill_length]; omega) (by omega) (Or.inl rfl)
  obtain ⟨out, hout, hqueues, _, _, _⟩ := create_device_queues_outcome features families query
    vkCreateDevice surfaces device graphics present sel hsel
  have hacc : ∀ j, accepts_present query surfaces j ↔ every_surface_supports query surfaces j :=
    fun j => ⟨fun h => h.2, fun h => ⟨hne, h⟩⟩
  have hbit : ∀ j, j < families.written.length →
      (has_graphics_bit (array_after_fill ⟨0, 0, 0⟩ families.count families.written) j ↔
        has_graphics_bit families.written j) :=
    fun j hj => has_graphics_bit_array_after_fill families.count families.written hcap j hj
  refine ⟨out, sel.graphics, sel.present, hout, hqueues, ?_, ?_⟩
  · rcases hP rfl with ⟨h1, h2⟩ | ⟨_, h2, h3, h4, h5⟩
    · left
      refine ⟨h1, ?_⟩
      intro j hj hne2 hsup
      exact h2 j (Nat.zero_le _) (by omega) hne2 ((hacc j).mpr hsup)
    · right
      refine ⟨by omega, h3, (hacc _).mp h4, ?_⟩
      intro j hj hne2 hsup
      exact h5 j (Nat.zero_le _) hj hne2 ((hacc j).mpr hsup)
  · rcases hG rfl with ⟨h1, h2⟩ | ⟨_, h2, h3, h4⟩
    · left
      refine ⟨h1, ?_⟩
      intro j hj hb
      exact h2 j (Nat.zero_le _) (by omega) ((hbit j hj).mpr hb)
    · right
      have hlt : sel.graphics.queueFamilyIndex < families.written.length := by omega
      refine ⟨hlt, (hbit _ hlt).mp h3, ?_⟩
      intro j hj hb
      exact h4 j (Nat.zero_le _) hj ((hbit j (by omega)).mpr hb)

/-- Witness of C14: in `sample_queue_families` family 1 is taken for graphics;
family 0 lacks support on surface 8, so family 2 is taken for presentation. -/
theorem create_device_queues_present_family_witness :
    create_device_queues ⟨[]⟩ sample_queue_families sample_surface_support
        (fun _ => (VK_SUCCESS, 500)) [7, 8] 0 ⟨0, 0, 0, none⟩ ⟨0, 0, 0, none⟩ =
      some ⟨VK_SUCCESS, 500,
        [⟨VK_STRUCTURE_TYPE_DEVICE_QUEUE_CREATE_INFO, 1, 1, some global_queue_priority⟩,
          ⟨VK_STRUCTURE_TYPE_DEVICE_QUEUE_CREATE_INFO, 2, 1, some global_queue_priority⟩],
        some ⟨VK_STRUCTURE_TYPE_DEVICE_CREATE_INFO, 2,
          [⟨VK_STRUCTURE_TYPE_DEVICE_QUEUE_CREATE_INFO, 1, 1, some global_queue_priority⟩,
            ⟨VK_STRUCTURE_TYPE_DEVICE_QUEUE_CREATE_INFO, 2, 1, some global_queue_priority⟩],
          0, 1, [VK_KHR_SWAPCHAIN_EXTENSION_NAME], ⟨[]⟩⟩⟩ ∧
    ∃ out g p, create_device_queues ⟨[]⟩ sample_queue_families sample_surface_support
        (fun _ => (VK_SUCCESS, 500)) [7, 8] 0 ⟨0, 0, 0, none⟩ ⟨0, 0, 0, none⟩ = some out ∧
      out.queues = [g, p] ∧
      ((p.queueFamilyIndex = UINT32_MAX ∧
          ∀ j, j < sample_queue_families.written.length → j ≠ g.queueFamilyIndex →
            ¬ every_surface_supports sample_surface_support [7, 8] j) ∨
        (p.queueFamilyIndex < sample_queue_families.written.length ∧
          p.queueFamilyIndex ≠ g.queueFamilyIndex ∧
          every_surface_supports sample_surface_support [7, 8] p.queueFamilyIndex ∧
          ∀ j, j < p.queueFamilyIndex → j ≠ g.queueFamilyIndex →
            ¬ every_surface_supports sample_surface_support [7, 8] j)) := by
  refine ⟨rfl, ?_⟩
  obtain ⟨out, g, p, h1, h2, h3, _⟩ := create_device_queues_present_family ⟨[]⟩
    sample_queue_families sample_surface_support (fun _ => (VK_SUCCESS, 500)) [7, 8] 0
    ⟨0, 0, 0, none⟩ ⟨0, 0, 0, none⟩ (fun _ _ => rfl) (by decide) (by decide) (by decide)
  exact ⟨out, g, p, h1, h2, h3⟩

theorem create_device_selected (families : QueueFamilyNative)
    (vkCreateDevice : VkDeviceCreateInfo → VkResult × Nat)
    (device : Nat) (queue_info : VkDeviceQueueCreateInfo)
    (hcap : families.written.length ≤ families.count) :
    ∃ r out, create_device families vkCreateDevice device queue_info = some out ∧
      ((r = UINT32_MAX ∧
          ∀ j, j < families.written.length → ¬ has_graphics_bit families.written j) ∨
        (r < families.written.length ∧ has_graphics_bit families.written r)) ∧
      (r > families.written.length → out.status = VK_ERROR_UNKNOWN ∧ out.call = none) ∧
      (¬ r > families.written.length →
        ∃ info q, out.call = some info ∧ out.status = (vkCreateDevice info).1 ∧
          info.pQueueCreateInfos = [q] ∧ q.queueFamilyIndex = r) := by
  obtain ⟨r, hr, hcase⟩ := get_graphics_queue_available_loop_spec
    (array_after_fill ⟨0, 0, 0⟩ families.count families.written) families.written.length 0
    (by rw [array_after_fill_length]; omega)
  have hbit : ∀ j, j < families.written.length →
      (has_graphics_bit (array_after_fill ⟨0, 0, 0⟩ families.count families.written) j ↔
        has_graphics_bit families.written j) :=
    fun j hj => has_graphics_bit_array_after_fill families.count families.written hcap j hj
  have hr2 : get_graphics_queue_available
      (array_after_fill ⟨0, 0, 0⟩ families.count families.written) families.written.length
        = some r := hr
  have hsel : (r = UINT32_MAX ∧
        ∀ j, j < families.written.length → ¬ has_graphics_bit families.written j) ∨
      (r < families.written.length ∧ has_graphics_bit families.written r) := by
    rcases hcase with ⟨h1, h2⟩ | ⟨_, h2, h3, _⟩
    · left
      refine ⟨h1, ?_⟩
      intro j hj hb
      exact h2 j (Nat.zero_le _) (by omega) ((hbit j hj).mpr hb)
    · right
      have hlt : r < families.written.length := by omega
      exact ⟨hlt, (hbit r hlt).mp h3⟩
  by_cases hgt : r > families.written.length
  · have h : ∃ out, create_device families vkCreateDevice device queue_info = some out ∧
        out.status = VK_ERROR_UNKNOWN ∧ out.call = none := by
      unfold create_device
      simp only [hr2, if_pos hgt]
      exact ⟨_, rfl, rfl, rfl⟩
    obtain ⟨out, h1, h2, h3⟩ := h
    exact ⟨r, out, h1, hsel, fun _ => ⟨h2, h3⟩, fun h => absurd hgt h⟩
  · have h : ∃ out info q, create_device families vkCreateDevice device queue_info = some out ∧
        out.call = some info ∧ out.status = (vkCreateDevice info).1 ∧
        info.pQueueCreateInfos = [q] ∧ q.queueFamilyIndex = r := by
      unfold create_device
      simp only [hr2, if_neg hgt]
      exact ⟨_, _, _, rfl, rfl, rfl, rfl, rfl⟩
    obtain ⟨out, info, q, h1, h2, h3, h4, h5⟩ := h
    exact ⟨r, out, h1, hsel, fun h => absurd h hgt, fun _ => ⟨info, q, h2, h3, h4, h5⟩⟩

theorem saturated_queue_families_length :
    saturated_queue_families.written.length = UINT32_MAX := by
  unfold saturated_queue_families
  exact List.length_replicate _ _

theorem saturated_queue_families_no_graphics (j : Nat) :
    ¬ has_graphics_bit saturated_queue_families.written j := by
  rintro ⟨p, hp, hpb⟩
  unfold saturated_queue_families at hp
  simp only [List.getElem?_replicate] at hp
  by_cases hj : j < UINT32_MAX
  · rw [if_pos hj] at hp
    cases hp
    exact hpb (by decide)
  · rw [if_neg hj] at hp
    cases hp

/-- C15 as stated fails at the largest family count: with `UINT32_MAX` queue
families, none with the graphics bit, the single-queue `create_device` finds
no graphics family, yet the guard `queueFamilyIndex > count` does not hold for
the sentinel, and `vkCreateDevice` is called with `queueFamilyIndex = UINT32_MAX`,
which is not below the family count. -/
theorem create_device_sentinel_passes_guard :
    saturated_queue_families.written.length = 4294967295 ∧
    (∀ j, ¬ has_graphics_bit saturated_queue_families.written j) ∧
    ∃ out info q,
      create_device saturated_queue_families (fun _ => (VK_SUCCESS, 500)) 0 ⟨0, 0, 0, none⟩
        = some out ∧
      out.status = VK_SUCCESS ∧
      out.call = some info ∧
      info.pQueueCreateInfos = [q] ∧
      q.queueFamilyIndex = 4294967295 := by
  have hlen := saturated_queue_families_length
  refine ⟨hlen, saturated_queue_families_no_graphics, ?_⟩
  obtain ⟨r, out, hout, hsel, _, hcall⟩ := create_device_selected saturated_queue_families
    (fun _ => (VK_SUCCESS, 500)) 0 ⟨0, 0, 0, none⟩ (by rw [hlen]; exact Nat.le_refl _)
  have hr : r = UINT32_MAX := by
    rcases hsel with ⟨h, _⟩ | ⟨_, h⟩
    · exact h
    · exact absurd h (saturated_queue_families_no_graphics r)
  obtain ⟨info, q, h1, h2, h3, h4⟩ := hcall (by rw [hr, hlen]; exact Nat.lt_irrefl _)
  exact ⟨out, info, q, hout, h2, h1, h3, by rw [h4, hr]; rfl⟩

/-- C15 (amended): for a family table of `count < UINT32_MAX` entries, the
single-queue `create_device` returns `VK_ERROR_UNKNOWN` without calling
`vkCreateDevice` when no family below `count` has the graphics bit, and when it
does call `vkCreateDevice` the selected index is below `count`. The two-queue
`create_device`, when it calls `vkCreateDevice`, passes two indices below
`count`; when every support query succeeds, it returns `VK_ERROR_UNKNOWN`
without calling `vkCreateDevice` if no family has the graphics bit, and
likewise if no family other than the graphics one is accepted for presentation. -/
theorem create_device_selection_guard (features : VkPhysicalDeviceFeatures)
    (families : QueueFamilyNative) (query : Nat → Nat → VkResult × Nat)
    (vkCreateDevice : VkDeviceCreateInfo → VkResult × Nat)
    (surfaces : List Nat) (device : Nat)
    (queue_info graphics present : VkDeviceQueueCreateInfo)
    (hcap : families.written.length ≤ families.count)
    (hlt : families.written.length < UINT32_MAX) :
    (∃ out, create_device families vkCreateDevice device queue_info = some out ∧
      ((∀ j, j < families.written.length → ¬ has_graphics_bit families.written j) →
        out.status = VK_ERROR_UNKNOWN ∧ out.call = none) ∧
      (∀ info, out.call = some info →
        ∀ q ∈ info.pQueueCreateInfos, q.queueFamilyIndex < families.written.length)) ∧
    (∃ out g p, create_device_queues features families query vkCreateDevice surfaces device
        graphics present = some out ∧
      out.queues = [g, p] ∧
      (∀ info, out.call = some info →
        info.pQueueCreateInfos = [g, p] ∧
        g.queueFamilyIndex < families.written.length ∧
        p.queueFamilyIndex < families.written.length) ∧
      ((∀ i surface, (query i surface).1 = VK_SUCCESS) →
        ((∀ j, j < families.written.length → ¬ has_graphics_bit families.written j) →
          out.status = VK_ERROR_UNKNOWN ∧ out.call = none) ∧
        ((∀ j, j < families.written.length → j ≠ g.queueFamilyIndex →
            ¬ accepts_present query surfaces j) →
          out.status = VK_ERROR_UNKNOWN ∧ out.call = none))) := by
  constructor
  · obtain ⟨r, out, hout, hsel, herr, hcall⟩ := create_device_selected families vkCreateDevice
      device queue_info hcap
    refine ⟨out, hout, ?_, ?_⟩
    · intro hnone
      rcases hsel with ⟨h, _⟩ | ⟨h1, h2⟩
      · exact herr (by omega)
      · exact absurd h2 (hnone r h1)
    · intro info hinfo q hq
      rcases hsel with ⟨h, _⟩ | ⟨h1, _⟩
      · obtain ⟨h3, h4⟩ := herr (by omega)
        rw [h4] at hinfo
        cases hinfo
      · obtain ⟨info2, q2, h3, _, h5, h6⟩ := hcall (by omega)
        rw [h3] at hinfo
        cases hinfo
        rw [h5, List.mem_singleton] at hq
        rw [hq, h6]
        exact h1
  · have hbound : 0 + families.written.length ≤
        (array_after_fill (⟨0, 0, 0⟩ : VkQueueFamilyProperties) families.count
          families.written).length := by
      rw [array_after_fill_length]
      omega
    obtain ⟨sel, hsel, _, hinv⟩ := create_device_queues_loop_inv
      (array_after_fill ⟨0, 0, 0⟩ families.count families.written) surfaces query
      families.written.length 0
      { graphics with
        sType := VK_STRUCTURE_TYPE_DEVICE_QUEUE_CREATE_INFO,
        pQueuePriorities := some global_queue_priority,
        queueFamilyIndex := UINT32_MAX }
      { present with
        sType := VK_STRUCTURE_TYPE_DEVICE_QUEUE_CREATE_INFO,
        pQueuePriorities := some global_queue_priority,
        queueFamilyIndex := UINT32_MAX }
      hbound (by omega) (Or.inl rfl) (Or.inl rfl) (fun _ => rfl)
    obtain ⟨out, hout, hqueues, _, hguard, hcall, _⟩ := create_device_queues_outcome features
      families query vkCreateDevice surfaces device graphics present sel hsel
    refine ⟨out, sel.graphics, sel.present, hout, hqueues, ?_, ?_⟩
    · intro info hinfo
      obtain ⟨hret, hG, hP, hlist, _⟩ := hcall info hinfo
      obtain ⟨h1, h2, _⟩ := hinv hret
      refine ⟨hlist, ?_, ?_⟩
      · rcases h1 with h | h
        · omega
        · omega
      · rcases h2 with h | h
        · omega
        · omega
    · intro hquery
      obtain ⟨sel2, hsel2, hret, _, hG, _, hP⟩ := create_device_queues_loop_spec
        (array_after_fill ⟨0, 0, 0⟩ families.count families.written) surfaces query hquery
        families.written.length 0
        { graphics with
          sType := VK_STRUCTURE_TYPE_DEVICE_QUEUE_CREATE_INFO,
          pQueuePriorities := some global_queue_priority,
          queueFamilyIndex := UINT32_MAX }
        { present with
          sType := VK_STRUCTURE_TYPE_DEVICE_QUEUE_CREATE_INFO,
          pQueuePriorities := some global_queue_priority,
          queueFamilyIndex := UINT32_MAX }
        hbound (by omega) (Or.inl rfl)
      have hsame : sel2 = sel := by
        rw [hsel] at hsel2
        exact (Option.some.inj hsel2).symm
      rw [hsame] at hret hG hP
      constructor
      · intro hnone
        apply hguard hret
        left
        rcases hG rfl with ⟨h, _⟩ | ⟨_, h2, h3, _⟩
        · omega
        · have hlt2 : sel.graphics.queueFamilyIndex < families.written.length := by omega
          exact absurd
            ((has_graphics_bit_array_after_fill families.count families.written hcap _
              hlt2).mp h3)
            (hnone _ hlt2)
      · intro hnone
        apply hguard hret
        right
        rcases hP rfl with ⟨h, _⟩ | ⟨_, h2, h3, h4, _⟩
        · omega
        · exact absurd h4 (hnone _ (by omega) h3)

/-- Witness of C15 (amended): two families without the graphics bit; both
overloads return `VK_ERROR_UNKNOWN` and leave `vkCreateDevice` uncalled. -/
theorem create_device_selection_guard_witness :
    create_device sample_compute_families (fun _ => (VK_SUCCESS, 500)) 0 ⟨0, 0, 0, none⟩ =
      some ⟨VK_ERROR_UNKNOWN, 0,
        [⟨VK_STRUCTURE_TYPE_DEVICE_QUEUE_CREATE_INFO, UINT32_MAX, 0,
          some global_queue_priority⟩], none⟩ ∧
    create_device_queues ⟨[]⟩ sample_compute_families sample_surface_support
        (fun _ => (VK_SUCCESS, 500)) [7, 8] 0 ⟨0, 0, 0, none⟩ ⟨0, 0, 0, none⟩ =
      some ⟨VK_ERROR_UNKNOWN, 0,
        [⟨VK_STRUCTURE_TYPE_DEVICE_QUEUE_CREATE_INFO, UINT32_MAX, 0,
            some global_queue_priority⟩,
          ⟨VK_STRUCTURE_TYPE_DEVICE_QUEUE_CREATE_INFO, 1, 1, some global_queue_priority⟩],
        none⟩ ∧
    ∃ out, create_device sample_compute_families (fun _ => (VK_SUCCESS, 500)) 0
        ⟨0, 0, 0, none⟩ = some out ∧
      ((∀ j, j < sample_compute_families.written.length →
          ¬ has_graphics_bit sample_compute_families.written j) →
        out.status = VK_ERROR_UNKNOWN ∧ out.call = none) ∧
      (∀ info, out.call = some info →
        ∀ q ∈ info.pQueueCreateInfos,
          q.queueFamilyIndex < sample_compute_families.written.length) :=
  ⟨rfl, rfl,
    (create_device_selection_guard ⟨[]⟩ sample_compute_families sample_surface_support
      (fun _ => (VK_SUCCESS, 500)) [7, 8] 0 ⟨0, 0, 0, none⟩ ⟨0, 0, 0, none⟩ ⟨0, 0, 0, none⟩
      (by decide) (by decide)).1⟩

/-- C16 as stated fails at the largest family count: with `UINT32_MAX` queue
families, none with the graphics bit, and no surface, the two-queue
`create_device` finds neither family, both sentinels pass the guards
`queueFamilyIndex > count`, and `vkCreateDevice` is called with the graphics
and the present index both equal to `UINT32_MAX`. -/
theorem create_device_queues_equal_sentinels :
    saturated_queue_families.written.length = 4294967295 ∧
    ∃ out info g p,
      create_device_queues ⟨[]⟩ saturated_queue_families (fun _ _ => (VK_SUCCESS, 0))
        (fun _ => (VK_SUCCESS, 500)) [] 0 ⟨0, 0, 0, none⟩ ⟨0, 0, 0, none⟩ = some out ∧
      out.status = VK_SUCCESS ∧
      out.call = some info ∧
      info.pQueueCreateInfos = [g, p] ∧
      g.queueFamilyIndex = 4294967295 ∧
      p.queueFamilyIndex = 4294967295 ∧
      g.queueFamilyIndex = p.queueFamilyIndex := by
  have hlen := saturated_queue_families_length
  refine ⟨hlen, ?_⟩
  have hbound : 0 + saturated_queue_families.written.length ≤
      (array_after_fill (⟨0, 0, 0⟩ : VkQueueFamilyProperties) saturated_queue_families.count
        saturated_queue_families.written).length := by
    rw [array_after_fill_length, hlen]
    exact Nat.le_of_eq (Nat.zero_add _)
  obtain ⟨sel, hsel, hret, _, hG, _, hP⟩ := create_device_queues_loop_spec
    (array_after_fill ⟨0, 0, 0⟩ saturated_queue_families.count
      saturated_queue_families.written) [] (fun _ _ => (VK_SUCCESS, 0)) (fun _ _ => rfl)
    saturated_queue_families.written.length 0
    { (⟨0, 0, 0, none⟩ : VkDeviceQueueCreateInfo) with
      sType := VK_STRUCTURE_TYPE_DEVICE_QUEUE_CREATE_INFO,
      pQueuePriorities := some global_queue_priority,
      queueFamilyIndex := UINT32_MAX }
    { (⟨0, 0, 0, none⟩ : VkDeviceQueueCreateInfo) with
      sType := VK_STRUCTURE_TYPE_DEVICE_QUEUE_CREATE_INFO,
      pQueuePriorities := some global_queue_priority,
      queueFamilyIndex := UINT32_MAX }
    hbound (by rw [hlen]; exact Nat.le_of_eq (Nat.zero_add _)) (Or.inl rfl)
  have hGmax : sel.graphics.queueFamilyIndex = UINT32_MAX := by
    rcases hG rfl with ⟨h, _⟩ | ⟨_, h2, h3, _⟩
    · exact h
    · have hlt : sel.graphics.queueFamilyIndex < saturated_queue_families.written.length := by
        omega
      exact absurd
        ((has_graphics_bit_array_after_fill saturated_queue_families.count
          saturated_queue_families.written (by rw [hlen]; exact Nat.le_refl _) _ hlt).mp h3)
        (saturated_queue_families_no_graphics _)
  have hPmax : sel.present.queueFamilyIndex = UINT32_MAX := by
    rcases hP rfl with ⟨h, _⟩ | ⟨_, _, _, h4, _⟩
    · exact h
    · exact absurd rfl h4.1
  obtain ⟨out, hout, _, _, _, hcall, hreach⟩ := create_device_queues_outcome ⟨[]⟩
    saturated_queue_families (fun _ _ => (VK_SUCCESS, 0)) (fun _ => (VK_SUCCESS, 500)) [] 0
    ⟨0, 0, 0, none⟩ ⟨0, 0, 0, none⟩ sel hsel
  obtain ⟨info, hinfo, hstatus⟩ := hreach hret
    (by rw [hGmax, hlen]; exact Nat.lt_irrefl _) (by rw [hPmax, hlen]; exact Nat.lt_irrefl _)
  obtain ⟨_, _, _, hlist, _⟩ := hcall info hinfo
  exact ⟨out, info, sel.graphics, sel.present, hout, hstatus, hinfo, hlist, hGmax, hPmax,
    by rw [hGmax, hPmax]⟩

/-- C16 (amended): for a family table of `count` entries, when the two-queue
`create_device` calls `vkCreateDevice` and `count < UINT32_MAX`, the graphics
and the present family index it passes are distinct; and with exactly one queue
family it never calls `vkCreateDevice` and returns a status other than
`VK_SUCCESS`, whatever that family supports. -/
theorem create_device_queues_distinct_families (features : VkPhysicalDeviceFeatures)
    (families : QueueFamilyNative) (query : Nat → Nat → VkResult × Nat)
    (vkCreateDevice : VkDeviceCreateInfo → VkResult × Nat)
    (surfaces : List Nat) (device : Nat) (graphics present : VkDeviceQueueCreateInfo)
    (hcap : families.written.length ≤ families.count)
    (hmax : families.written.length ≤ UINT32_MAX) :
    ∃ out g p, create_device_queues features families query vkCreateDevice surfaces device
        graphics present = some out ∧
      out.queues = [g, p] ∧
      (families.written.length < UINT32_MAX → ∀ info, out.call = some info →
        info.pQueueCreateInfos = [g, p] ∧ g.queueFamilyIndex ≠ p.queueFamilyIndex) ∧
      (families.written.length = 1 → out.call = none ∧ out.status ≠ VK_SUCCESS) := by
  have hbound : 0 + families.written.length ≤
      (array_after_fill (⟨0, 0, 0⟩ : VkQueueFamilyProperties) families.count
        families.written).length := by
    rw [array_after_fill_length]
    omega
  obtain ⟨sel, hsel, hec, hinv⟩ := create_device_queues_loop_inv
    (array_after_fill ⟨0, 0, 0⟩ families.count families.written) surfaces query
    families.written.length 0
    { graphics with
      sType := VK_STRUCTURE_TYPE_DEVICE_QUEUE_CREATE_INFO,
      pQueuePriorities := some global_queue_priority,
      queueFamilyIndex := UINT32_MAX }
    { present with
      sType := VK_STRUCTURE_TYPE_DEVICE_QUEUE_CREATE_INFO,
      pQueuePriorities := some global_queue_priority,
      queueFamilyIndex := UINT32_MAX }
    hbound (by omega) (Or.inl rfl) (Or.inl rfl) (fun _ => rfl)
  obtain ⟨out, hout, hqueues, hearly, hguard, hcall, hreach⟩ := create_device_queues_outcome
    features families query vkCreateDevice surfaces device graphics present sel hsel
  refine ⟨out, sel.graphics, sel.present, hout, hqueues, ?_, ?_⟩
  · intro hlt info hinfo
    obtain ⟨hret, hG, _, hlist, _⟩ := hcall info hinfo
    obtain ⟨_, _, h3⟩ := hinv hret
    refine ⟨hlist, ?_⟩
    intro heq
    have := h3 heq
    omega
  · intro hone
    have hM : (1 : Nat) < UINT32_MAX := by decide
    cases hret : sel.returned with
    | some ec =>
      obtain ⟨h1, h2⟩ := hearly ec hret
      refine ⟨h2, ?_⟩
      rw [h1]
      exact hec ec hret
    | none =>
      obtain ⟨h1, h2, h3⟩ := hinv hret
      have hfail : sel.graphics.queueFamilyIndex > families.written.length ∨
          sel.present.queueFamilyIndex > families.written.length := by
        rcases h1 with h | h
        · left
          omega
        · rcases h2 with h' | h'
          · right
            omega
          · have hG0 : sel.graphics.queueFamilyIndex = 0 := by omega
            have hP0 : sel.present.queueFamilyIndex = 0 := by omega
            have := h3 (by rw [hG0, hP0])
            omega
      obtain ⟨h4, h5⟩ := hguard hret hfail
      refine ⟨h5, ?_⟩
      rw [h4]
      decide

/-- Witness of C16 (amended): one family that has the graphics bit and
supports presentation on both surfaces; it is taken for graphics, no present
family is found, and `VK_ERROR_UNKNOWN` is returned without `vkCreateDevice`.
In `sample_queue_families` the call is reached with the distinct indices 1 and 2. -/
theorem create_device_queues_distinct_families_witness :
    create_device_queues ⟨[]⟩ sample_single_family (fun _ _ => (VK_SUCCESS, 1))
        (fun _ => (VK_SUCCESS, 500)) [7, 8] 0 ⟨0, 0, 0, none⟩ ⟨0, 0, 0, none⟩ =
      some ⟨VK_ERROR_UNKNOWN, 0,
        [⟨VK_STRUCTURE_TYPE_DEVICE_QUEUE_CREATE_INFO, 0, 1, some global_queue_priority⟩,
          ⟨VK_STRUCTURE_TYPE_DEVICE_QUEUE_CREATE_INFO, UINT32_MAX, 0,
            some global_queue_priority⟩],
        none⟩ ∧
    ∃ out g p, create_device_queues ⟨[]⟩ sample_queue_families sample_surface_support
        (fun _ => (VK_SUCCESS, 500)) [7, 8] 0 ⟨0, 0, 0, none⟩ ⟨0, 0, 0, none⟩ = some out ∧
      out.queues = [g, p] ∧
      (sample_queue_families.written.length < UINT32_MAX → ∀ info, out.call = some info →
        info.pQueueCreateInfos = [g, p] ∧ g.queueFamilyIndex ≠ p.queueFamilyIndex) ∧
      (sample_queue_families.written.length = 1 →
        out.call = none ∧ out.status ≠ VK_SUCCESS) :=
  ⟨rfl,
    create_device_queues_distinct_families ⟨[]⟩ sample_queue_families sample_surface_support
      (fun _ => (VK_SUCCESS, 500)) [7, 8] 0 ⟨0, 0, 0, none⟩ ⟨0, 0, 0, none⟩
      (by decide) (by decide)⟩

end Vulkan
